import Mathlib

/-!
# Verification of `caffe::DataTransformer` (src/caffe/data_transformer.cpp)

A shallow embedding of the raw-datum transform, the random draw sequencer and
`InitRand`, shape inference, the batch drivers, the decoded-image transforms, and the
resizes and the centre crop of the variable-sized and fixed-size pipelines.

Modelling conventions

* `Dtype` (float/double) is modelled by `ℚ`: exact arithmetic. The two `double`
  divisions of `resize` round: `to_double` is the rounding of IEEE 754 binary64.
* C++ `int` values are modelled by unbounded `Int`; `unsigned int` values by `Nat`,
  reduced modulo `2^32` where the source arithmetic can wrap (`Rand() + 1`). A `uint32`
  option stored in a `const int` local is converted by `int_of_uint32`: from `2^31` on
  it becomes negative.
* Memory reached through a `Dtype*` is a total map `Int → ℚ`; a pointer is an
  address `Int`, so that `p[i]` is the cell `p + i`.
* A failed `CHECK` / `LOG(FATAL)` aborts: the operation returns `Except.error`.
* State held by the transformer object (`mean_values_`, `rng_`) is passed
  explicitly: every member function returns the transformer it leaves behind.
* OpenCV operations, the generator behind `rng_`, `Caffe::next_seed()` and the values
  drawn by `caffe_rng_uniform` are parameters; `std::round`, `ceil` and the conversion
  of a `float` to `int` are the exact functions on `ℚ`.
-/

namespace caffe

/-! ## Data model -/

/-- Phase of the network the transformer works for. -/
inductive Phase
  | TRAIN
  | TEST
  deriving DecidableEq, Repr

/-- The fatal `CHECK` sites of the embedded code, named after what they test. -/
inductive Fatal
  /-- Site `CHECK_GT(datum_channels, 0)` -/
  | channels_gt_0
  /-- Site `CHECK_GE(datum_height, crop_size)` -/
  | height_ge_crop_size
  /-- Site `CHECK_GE(datum_width, crop_size)` -/
  | width_ge_crop_size
  /-- Site `CHECK_EQ(datum_channels, data_mean_.channels())` -/
  | mean_channels
  /-- Site `CHECK_EQ(datum_height, data_mean_.height())` -/
  | mean_height
  /-- Site `CHECK_EQ(datum_width, data_mean_.width())` -/
  | mean_width
  /-- Site `CHECK(mean_values_.size() == 1 || mean_values_.size() == datum_channels)` -/
  | mean_values_size
  /-- Site `CHECK(!(param_.force_color() && param_.force_gray()))` -/
  | force_color_and_force_gray
  /-- Site `CHECK_EQ(channels, datum_channels)` -/
  | blob_channels
  /-- Site `CHECK_LE(height, datum_height)` -/
  | blob_height_le
  /-- Site `CHECK_LE(width, datum_width)` -/
  | blob_width_le
  /-- Site `CHECK_GE(num, 1)` -/
  | blob_num_ge_1
  /-- Site `CHECK_EQ(crop_size, height)` -/
  | crop_size_eq_height
  /-- Site `CHECK_EQ(crop_size, width)` -/
  | crop_size_eq_width
  /-- Site `CHECK_EQ(datum_height, height)` -/
  | datum_height_eq_height
  /-- Site `CHECK_EQ(datum_width, width)` -/
  | datum_width_eq_width
  /-- Site `CHECK_GT(datum_num, 0)` -/
  | no_datum_to_add
  /-- Site `CHECK_LE(datum_num, num)` -/
  | too_many_datums
  /-- Site `CHECK(rng_)` -/
  | no_rng
  /-- Site `CHECK_EQ(bottom_shape.size(), 4)` (also `orig_shape`, `prev_shape`) -/
  | shape_size_4
  /-- Site `CHECK_EQ(bottom_shape[0], 1)` -/
  | shape_num_1
  /-- Site `LOG(FATAL)`: random resize bounds must both be zero or both be nonzero -/
  | resize_bounds
  /-- Site `CHECK_NE(shape[2], 0)` -/
  | var_sized_height_0
  /-- Site `CHECK_NE(shape[3], 0)` -/
  | var_sized_width_0
  /-- Site `CHECK(var_sized_image_..._enabled())` -/
  | var_sized_not_enabled
  /-- Site `CHECK_EQ(param_.mean_value_size(), 0)` / `CHECK(!param_.has_mean_file())` -/
  | mean_file_and_mean_value
  /-- Site `CHECK_GT(mat_num, 0)` -/
  | no_mat_to_add
  /-- Site `CHECK_EQ(mat_num, num)` -/
  | mat_num_eq_num
  /-- Site `CHECK(cv_img.depth() == CV_8U)` -/
  | image_depth_8U
  /-- Site `CHECK(cv_cropped_img.data)` -/
  | cropped_img_data
  /-- Site `CHECK_GT(resize_lower, 0)` -/
  | resize_lower_gt_0
  /-- Site `CHECK_GT(resize_upper, 0)` -/
  | resize_upper_gt_0
  /-- Site `CHECK_NE(resize_size, -1)` -/
  | resize_size_ne_minus_1
  /-- Site `CHECK_LE(scale, 1.0)` -/
  | scale_le_1
  /-- Site `CHECK_LE(resize_height, img_height)` -/
  | resize_height_le
  /-- Site `CHECK_LE(resize_width, img_width)` -/
  | resize_width_le
  /-- Site `CHECK_GE(scale, 1.0)` -/
  | scale_ge_1
  /-- Site `CHECK_GE(resize_height, img_height)` -/
  | resize_height_ge
  /-- Site `CHECK_GE(resize_width, img_width)` -/
  | resize_width_ge
  /-- Site `LOG(FATAL) << "unreachable random resize shape"` -/
  | unreachable_resize_shape
  /-- Site `CHECK_GT(crop_size, 0)` -/
  | crop_size_gt_0
  deriving DecidableEq, Repr

/-- The options of `TransformationParameter` read by the embedded code, with the
defaults of the message. -/
structure TransformationParameter where
  scale : ℚ := 1
  mirror : Bool := false
  crop_size : Nat := 0
  has_mean_file : Bool := false
  mean_file : String := ""
  mean_value : List ℚ := []
  force_color : Bool := false
  force_gray : Bool := false
  random_seed : Int := -1
  use_gpu_transform : Bool := false
  img_rand_resize_lower : Nat := 0
  img_rand_resize_upper : Nat := 0
  min_side : Int := 0
  min_side_min : Int := 0
  min_side_max : Int := 0
  max_rotation_angle : Int := 0
  contrast_brightness_adjustment : Bool := false
  smooth_filtering : Bool := false
  min_contrast : ℚ := 0
  max_contrast : ℚ := 0
  max_brightness_shift : Int := 0
  max_smooth : ℚ := 0
  max_color_shift : Int := 0
  apply_probability : ℚ := 0
  debug_params : Bool := false

/-- A `Datum`: declared dimensions, the raw bytes (`data`), the float list
(`float_data`), the `encoded` flag and the label. -/
structure Datum where
  channels : Int
  height : Int
  width : Int
  data : List UInt8 := []
  float_data : List ℚ := []
  encoded : Bool := false
  label : Int := 0

/-- The mean blob `data_mean_`: its dimensions and the array behind `cpu_data()`. -/
structure MeanBlob where
  channels : Int := 0
  height : Int := 0
  width : Int := 0
  cpu_data : Int → ℚ := fun _ => 0

/-- A generator (`Caffe::RNG`): the sequence of values it will return. -/
structure RNG where
  stream : Nat → Nat

/-- One call of `(*rng)()`, cast to `unsigned int`: the value and the generator
after the call. -/
def RNG.next (g : RNG) : Nat × RNG :=
  (g.stream 0 % 2 ^ 32, ⟨fun n => g.stream (n + 1)⟩)

/-- The three values of a `std::array<unsigned int, 3>`. -/
structure Rand3 where
  rand0 : Nat
  rand1 : Nat
  rand2 : Nat
  deriving DecidableEq, Repr

/-- The state of a `DataTransformer` object. -/
structure DataTransformer where
  param_ : TransformationParameter
  phase_ : Phase
  data_mean_ : MeanBlob := {}
  mean_values_ : List ℚ := []
  rng_ : Option RNG := none

/-- The header of a `TBlob`: its four dimensions and the address of its data. -/
structure TBlob where
  num : Int
  channels : Int
  height : Int
  width : Int
  cpu_data : Int

/-- Modelled from the spec: `Blob::offset(n)` is not among the sources; sample `n`
of a blob occupies the sub-region starting at `n * channels * height * width`
(planar channel-major layout, index `(c*height + h)*width + w` within a sample). -/
def TBlob.offset (b : TBlob) (n : Int) : Int :=
  ((n * b.channels + 0) * b.height + 0) * b.width + 0

/-! ## Reading the inputs -/

/-- The entry `l[i]` of a list at an `int` index. Outside the list, where the C++
read is undefined, the model returns the default `d`. -/
def readAt {α : Type} (l : List α) (i : Int) (d : α) : α :=
  if 0 ≤ i then l.getD i.toNat d else d

/-- The expression `static_cast<unsigned char>(data[data_index])` as a `Dtype`. -/
def Datum.byte (datum : Datum) (data_index : Int) : ℚ :=
  ((readAt datum.data data_index 0).toNat : ℚ)

/-- The expression `datum.float_data(data_index)`. -/
def Datum.float (datum : Datum) (data_index : Int) : ℚ :=
  readAt datum.float_data data_index 0

/-! ## The random draw sequencer -/

/-- Member `DataTransformer::Rand()`: fails without a generator, else draws one value. -/
def DataTransformer.Rand (T : DataTransformer) : Except Fatal (Nat × DataTransformer) :=
  match T.rng_ with
  | none => .error .no_rng
  | some g => .ok ((g.next).1, { T with rng_ := some (g.next).2 })

/-- Member `DataTransformer::Fill3Randoms(unsigned int* rand)`: the three entries and
the transformer (its generator) after the draws. -/
def DataTransformer.Fill3Randoms (T : DataTransformer) :
    Except Fatal (Rand3 × DataTransformer) :=
  -- rand[0] = rand[1] = rand[2] = 0;
  let rand : Rand3 := ⟨0, 0, 0⟩
  -- if (param_.mirror()) rand[0] = Rand() + 1;
  let step1 : Except Fatal (Rand3 × DataTransformer) :=
    if T.param_.mirror then
      match T.Rand with
      | .error e => .error e
      | .ok (r, T1) => .ok ({ rand with rand0 := (r + 1) % 2 ^ 32 }, T1)
    else .ok (rand, T)
  match step1 with
  | .error e => .error e
  | .ok (rand, T1) =>
    -- if (phase_ == TRAIN && param_.crop_size()) { rand[1] = Rand() + 1; rand[2] = Rand() + 1; }
    if T1.phase_ = Phase.TRAIN ∧ T1.param_.crop_size ≠ 0 then
      match T1.Rand with
      | .error e => .error e
      | .ok (r1, T2) =>
        match T2.Rand with
        | .error e => .error e
        | .ok (r2, T3) =>
          .ok ({ rand with rand1 := (r1 + 1) % 2 ^ 32, rand2 := (r2 + 1) % 2 ^ 32 }, T3)
    else .ok (rand, T1)

/-! ## The raw-datum transform -/

/-- The conversion of a `uint32` value `n < 2^32` to `int`, as in
`const int crop_size = param_.crop_size();` and in
`const int resize_lower = param_.img_rand_resize_lower();`: the value read in two's
complement, so that the values from `2^31` on become the negative numbers `n - 2^32`. -/
def int_of_uint32 (n : Nat) : Int :=
  if n < 2 ^ 31 then (n : Int) else ((n % 2 ^ 32 : Nat) : Int) - 2 ^ 32

/-- The innermost loop `for (int w = 0; w < width; ++w)`: runs `body` at the current
`top_index` and `data_index`, then `++data_index; top_index += m;`. -/
def loopW {σ : Type} (body : σ → Int → Int → σ) (m : Int) (width : Int)
    (s : σ) (top_index data_index : Int) : σ × Int × Int :=
  (List.range width.toNat).foldl
    (fun st _ => (body st.1 st.2.1 st.2.2, st.2.1 + m, st.2.2 + 1))
    (s, top_index, data_index)

/-- The loop `for (int h = 0; h < height; ++h)` of one channel: sets `top_index` and
`data_index` for the row and runs the inner loop. -/
def loopH {σ : Type} (body : σ → Int → Int → σ) (do_mirror : Bool) (m : Int)
    (height width datum_width w_off cdho ch : Int) (s : σ) : σ :=
  (List.range height.toNat).foldl
    (fun s (h : Nat) =>
      let top_index : Int :=
        if do_mirror then (ch + (h : Int) + 1) * width - 1 else (ch + (h : Int)) * width
      let data_index : Int := (cdho + (h : Int)) * datum_width + w_off
      (loopW body m width s top_index data_index).1)
    s

/-- The loop `for (int c = 0; c < datum_channels; ++c)`: the loop nest shared by the
three branches of `Transform`; `body s c top_index data_index` is the store of the
branch. -/
def loopC {σ : Type} (body : σ → Int → Int → Int → σ) (do_mirror : Bool) (m : Int)
    (datum_channels datum_height datum_width height width h_off w_off : Int)
    (s : σ) : σ :=
  (List.range datum_channels.toNat).foldl
    (fun s (c : Nat) =>
      let cdho : Int := (c : Int) * datum_height + h_off
      let ch : Int := (c : Int) * height
      loopH (body · (c : Int)) do_mirror m height width datum_width w_off cdho ch s)
    s

/-- The loop `for (int c = 1; c < datum_channels; ++c) mean_values_.push_back(mean_values_[0])`. -/
def replicate_mean_value (mean_values_ : List ℚ) (datum_channels : Int) : List ℚ :=
  (List.range (datum_channels - 1).toNat).foldl
    (fun mv _ => mv ++ [readAt mv 0 0]) mean_values_

/-- The crop offset of the raw path along one axis (`datum_dim` is the height or the
width, `rand` the entry `rand[1]` or `rand[2]`): `rand % (datum_dim - crop_size + 1)`
in phase TRAIN, `(datum_dim - crop_size) / 2` (C++ division, rounding towards zero) in
phase TEST, and `0` without a crop. The modulus is taken on `unsigned int`; after
`CHECK_GE(datum_dim, crop_size)` the divisor is positive, and its conversion to
`unsigned int` is the natural number `.toNat` gives. -/
def crop_off (phase_ : Phase) (crop_size : Int) (datum_dim : Int) (rand : Nat) : Int :=
  if crop_size ≠ 0 then
    if phase_ = Phase.TRAIN then
      ((rand % (datum_dim - crop_size + 1).toNat : Nat) : Int)
    else
      (datum_dim - crop_size).tdiv 2
  else 0

/-- The value stored by the body of the `uint8` branches (with or without the
multiplication by `scale`) and of the float branch, for channel `c` and source
index `data_index`; `mean_values_` is the list after the replication. -/
def element (datum : Datum) (has_uint8 : Bool) (scale : ℚ) (has_mean_file has_mean_values : Bool)
    (mean : Int → ℚ) (mean_values_ : List ℚ) (c data_index : Int) : ℚ :=
  if has_uint8 then
    let datum_element : ℚ := datum.byte data_index
    let mnv : ℚ := if has_mean_values && !has_mean_file then readAt mean_values_ c 0 else 0
    if scale = 1 then
      if has_mean_file then datum_element - mean data_index
      else if has_mean_values then datum_element - mnv
      else datum_element
    else
      if has_mean_file then (datum_element - mean data_index) * scale
      else if has_mean_values then (datum_element - mnv) * scale
      else datum_element * scale
  else
    let datum_element : ℚ := datum.float data_index
    if has_mean_file then (datum_element - mean data_index) * scale
    else if has_mean_values then (datum_element - readAt mean_values_ c 0) * scale
    else datum_element * scale

/-- Member `DataTransformer::Transform(const Datum&, Dtype* transformed_data, rand)`:
the transformer afterwards (its `mean_values_` may have grown) and the memory after
the stores through `transformed_data`. -/
def DataTransformer.Transform (T : DataTransformer) (datum : Datum) (mem : Int → ℚ)
    (transformed_data : Int) (rand : Rand3) :
    Except Fatal (DataTransformer × (Int → ℚ)) :=
  let datum_channels := datum.channels
  let datum_height := datum.height
  let datum_width := datum.width
  let crop_size : Int := (int_of_uint32 T.param_.crop_size)
  let scale := T.param_.scale
  let do_mirror : Bool := T.param_.mirror && (rand.rand0 % 2 != 0)
  let has_mean_file := T.param_.has_mean_file
  let has_uint8 : Bool := decide (datum.data.length > 0)
  let has_mean_values : Bool := decide (T.mean_values_.length > 0)
  if ¬ (datum_channels > 0) then .error .channels_gt_0
  else if ¬ (datum_height ≥ crop_size) then .error .height_ge_crop_size
  else if ¬ (datum_width ≥ crop_size) then .error .width_ge_crop_size
  else if has_mean_file ∧ ¬ (datum_channels = T.data_mean_.channels) then .error .mean_channels
  else if has_mean_file ∧ ¬ (datum_height = T.data_mean_.height) then .error .mean_height
  else if has_mean_file ∧ ¬ (datum_width = T.data_mean_.width) then .error .mean_width
  else if has_mean_values ∧
      ¬ (T.mean_values_.length = 1 ∨ (T.mean_values_.length : Int) = datum_channels) then
    .error .mean_values_size
  else
    let mean := T.data_mean_.cpu_data
    let mean_values_ : List ℚ :=
      if has_mean_values ∧ datum_channels > 1 ∧ T.mean_values_.length = 1 then
        replicate_mean_value T.mean_values_ datum_channels
      else T.mean_values_
    let height : Int := if crop_size ≠ 0 then crop_size else datum_height
    let width : Int := if crop_size ≠ 0 then crop_size else datum_width
    let h_off : Int := crop_off T.phase_ crop_size datum_height rand.rand1
    let w_off : Int := crop_off T.phase_ crop_size datum_width rand.rand2
    let m : Int := if do_mirror then -1 else 1
    let mem1 := loopC
      (fun (mem : Int → ℚ) c top_index data_index =>
        Function.update mem (transformed_data + top_index)
          (element datum has_uint8 scale has_mean_file has_mean_values mean mean_values_
            c data_index))
      do_mirror m datum_channels datum_height datum_width height width h_off w_off mem
    .ok ({ T with mean_values_ := mean_values_ }, mem1)


/-- The column offset read for output column `x` of a row of `width` columns: `x`
itself, or `width - 1 - x` when the row is written mirrored. -/
def mirror_col (do_mirror : Bool) (width x : Int) : Int :=
  if do_mirror then width - 1 - x else x

/-! ## External collaborators -/

/-- A decoded image (`cv::Mat`): `channels()`, `rows`, `cols`, whether its depth is
`CV_8U`, whether its `data` pointer is non-null, and its bytes, `ptr h i` being
`ptr<uchar>(h)[i]` (row `h`, interleaved channels). -/
structure CvMat where
  channels : Int
  rows : Int
  cols : Int
  depth_8U : Bool := true
  has_data : Bool := true
  ptr : Int → Int → UInt8 := fun _ _ => 0

/-- What the raw-datum path takes from outside this file: the execution mode, the
image decoder, the decoded-image transform `Transform(const cv::Mat&, TBlob*)`
(OpenCV), the device transform `TransformGPU` (CUDA) and the reader of the mean
file. -/
structure External where
  /-- Whether `Caffe::mode() == Caffe::GPU`. -/
  gpu_mode : Bool
  /-- Function `DecodeDatumToCVMat(datum, is_color)`. -/
  DecodeDatumToCVMat : Datum → Bool → CvMat
  /-- Function `DecodeDatumToCVMatNative(datum)`. -/
  DecodeDatumToCVMatNative : Datum → CvMat
  /-- Function `ReadProtoFromBinaryFileOrDie(mean_file, &blob_proto)` followed by
  `data_mean_.FromProto(blob_proto)`: the blob read from the mean file. -/
  ReadMeanFile : String → MeanBlob
  /-- Constructor `Caffe::RNG(seed)`: the generator a seed gives. -/
  new_RNG : Nat → RNG
  /-- Member `Transform(const cv::Mat&, TBlob<Dtype>*)`. -/
  TransformCvMat : DataTransformer → CvMat → TBlob → (Int → ℚ) →
    Except Fatal (DataTransformer × (Int → ℚ))
  /-- Member `TransformGPU(const Datum&, Dtype*, rand)`. -/
  TransformGPU : DataTransformer → Datum → (Int → ℚ) → Int → Rand3 →
    Except Fatal (DataTransformer × (Int → ℚ))

/-! ## Shape inference -/

/-- Member `DataTransformer::InferCVMatShape`. -/
def InferCVMatShape (cv_img : CvMat) : List Int :=
  [1, cv_img.channels, cv_img.rows, cv_img.cols]

/-- Member `DataTransformer::InferDatumShape`. -/
def DataTransformer.InferDatumShape (ext : External) (T : DataTransformer) (datum : Datum) :
    Except Fatal (List Int) :=
  if datum.encoded then
    if T.param_.force_color && T.param_.force_gray then .error .force_color_and_force_gray
    else
      let cv_img : CvMat :=
        if T.param_.force_color || T.param_.force_gray then
          ext.DecodeDatumToCVMat datum T.param_.force_color
        else ext.DecodeDatumToCVMatNative datum
      .ok (InferCVMatShape cv_img)
  else
    .ok [1, datum.channels, datum.height, datum.width]

/-- Member `DataTransformer::InferBlobShape(const vector<int>& bottom_shape, bool use_gpu)`. -/
def DataTransformer.InferBlobShape (T : DataTransformer) (bottom_shape : List Int)
    (use_gpu : Bool) : Except Fatal (List Int) :=
  let crop_size : Int := (int_of_uint32 T.param_.crop_size)
  if ¬ (bottom_shape.length = 4) then .error .shape_size_4
  else if ¬ (bottom_shape.getD 0 0 = 1) then .error .shape_num_1
  else
    let bottom_channels := bottom_shape.getD 1 0
    let bottom_height := bottom_shape.getD 2 0
    let bottom_width := bottom_shape.getD 3 0
    if ¬ (bottom_channels > 0) then .error .channels_gt_0
    else if ¬ (bottom_height ≥ crop_size) then .error .height_ge_crop_size
    else if ¬ (bottom_width ≥ crop_size) then .error .width_ge_crop_size
    else if use_gpu then
      .ok [1, bottom_channels, bottom_height, bottom_width]
    else
      .ok [1, bottom_channels,
        if crop_size ≠ 0 then crop_size else bottom_height,
        if crop_size ≠ 0 then crop_size else bottom_width]

/-- Member `DataTransformer::InferBlobShape(const Datum& datum, bool use_gpu)`. -/
def DataTransformer.InferBlobShapeDatum (ext : External) (T : DataTransformer) (datum : Datum)
    (use_gpu : Bool) : Except Fatal (List Int) :=
  match T.InferDatumShape ext datum with
  | .error e => .error e
  | .ok datum_shape => T.InferBlobShape datum_shape use_gpu

/-! ## Shapes of the variable-sized transforms -/

/-- Member `var_sized_image_random_resize_enabled`. -/
def DataTransformer.var_sized_image_random_resize_enabled (T : DataTransformer) :
    Except Fatal Bool :=
  let resize_lower : Int := int_of_uint32 T.param_.img_rand_resize_lower
  let resize_upper : Int := int_of_uint32 T.param_.img_rand_resize_upper
  if resize_lower = 0 ∧ resize_upper = 0 then .ok false
  else if resize_lower ≠ 0 ∧ resize_upper ≠ 0 then .ok true
  else .error .resize_bounds

/-- Member `var_sized_image_random_resize_shape`. -/
def DataTransformer.var_sized_image_random_resize_shape (T : DataTransformer)
    (prev_shape : List Int) : Except Fatal (List Int) :=
  match T.var_sized_image_random_resize_enabled with
  | .error e => .error e
  | .ok false => .error .var_sized_not_enabled
  | .ok true =>
    if ¬ (prev_shape.length = 4) then .error .shape_size_4
    else .ok [1, prev_shape.getD 1 0, 0, 0]

/-- Member `var_sized_image_random_crop_enabled`. -/
def DataTransformer.var_sized_image_random_crop_enabled (T : DataTransformer) : Bool :=
  decide (T.phase_ = Phase.TRAIN ∧ T.param_.crop_size > 0)

/-- Member `var_sized_image_random_crop_shape`. -/
def DataTransformer.var_sized_image_random_crop_shape (T : DataTransformer)
    (prev_shape : List Int) : Except Fatal (List Int) :=
  if ¬ (T.var_sized_image_random_crop_enabled = true) then .error .var_sized_not_enabled
  else
    let crop_size : Int := (int_of_uint32 T.param_.crop_size)
    if ¬ (prev_shape.length = 4) then .error .shape_size_4
    else .ok [1, prev_shape.getD 1 0, crop_size, crop_size]

/-- Member `var_sized_image_center_crop_enabled`. -/
def DataTransformer.var_sized_image_center_crop_enabled (T : DataTransformer) : Bool :=
  decide (T.phase_ = Phase.TEST ∧ T.param_.crop_size > 0)

/-- Member `var_sized_image_center_crop_shape`. -/
def DataTransformer.var_sized_image_center_crop_shape (T : DataTransformer)
    (prev_shape : List Int) : Except Fatal (List Int) :=
  if ¬ (T.var_sized_image_center_crop_enabled = true) then .error .var_sized_not_enabled
  else
    let crop_size : Int := (int_of_uint32 T.param_.crop_size)
    if ¬ (prev_shape.length = 4) then .error .shape_size_4
    else .ok [1, prev_shape.getD 1 0, crop_size, crop_size]

/-- Member `var_sized_transforms_shape`. -/
def DataTransformer.var_sized_transforms_shape (T : DataTransformer)
    (orig_shape : List Int) : Except Fatal (List Int) :=
  if ¬ (orig_shape.length = 4) then .error .shape_size_4
  else
    let shape := orig_shape
    match T.var_sized_image_random_resize_enabled with
    | .error e => .error e
    | .ok resize_enabled =>
      match (if resize_enabled then T.var_sized_image_random_resize_shape shape
             else .ok shape) with
      | .error e => .error e
      | .ok shape =>
        match (if T.var_sized_image_random_crop_enabled then
                 T.var_sized_image_random_crop_shape shape
               else .ok shape) with
        | .error e => .error e
        | .ok shape =>
          match (if T.var_sized_image_center_crop_enabled then
                   T.var_sized_image_center_crop_shape shape
                 else .ok shape) with
          | .error e => .error e
          | .ok shape =>
            if ¬ (shape.getD 2 0 ≠ 0) then .error .var_sized_height_0
            else if ¬ (shape.getD 3 0 ≠ 0) then .error .var_sized_width_0
            else .ok shape

/-! ## The blob entry point and the batch driver -/

/-- The dimension checks of `Transform(const Datum&, TBlob<Dtype>*)`. -/
def DataTransformer.Transform_check_dimensions (T : DataTransformer) (datum : Datum)
    (transformed_blob : TBlob) : Except Fatal Unit :=
  let crop_size : Int := (int_of_uint32 T.param_.crop_size)
  let datum_channels := datum.channels
  let datum_height := datum.height
  let datum_width := datum.width
  let channels := transformed_blob.channels
  let height := transformed_blob.height
  let width := transformed_blob.width
  let num := transformed_blob.num
  if ¬ (channels = datum_channels) then .error .blob_channels
  else if ¬ (height ≤ datum_height) then .error .blob_height_le
  else if ¬ (width ≤ datum_width) then .error .blob_width_le
  else if ¬ (num ≥ 1) then .error .blob_num_ge_1
  else if crop_size ≠ 0 then
    if ¬ (crop_size = height) then .error .crop_size_eq_height
    else if ¬ (crop_size = width) then .error .crop_size_eq_width
    else .ok ()
  else
    if ¬ (datum_height = height) then .error .datum_height_eq_height
    else if ¬ (datum_width = width) then .error .datum_width_eq_width
    else .ok ()

/-- Member `DataTransformer::Transform(const Datum&, TBlob<Dtype>* transformed_blob)`. -/
def DataTransformer.TransformBlob (ext : External) (T : DataTransformer) (datum : Datum)
    (transformed_blob : TBlob) (mem : Int → ℚ) :
    Except Fatal (DataTransformer × (Int → ℚ)) :=
  if datum.encoded then
    if T.param_.force_color && T.param_.force_gray then .error .force_color_and_force_gray
    else
      let cv_img : CvMat :=
        if T.param_.force_color || T.param_.force_gray then
          ext.DecodeDatumToCVMat datum T.param_.force_color
        else ext.DecodeDatumToCVMatNative datum
      ext.TransformCvMat T cv_img transformed_blob mem
  else
    match T.Transform_check_dimensions datum transformed_blob with
    | .error e => .error e
    | .ok _ =>
      let use_gpu_transform : Bool := T.param_.use_gpu_transform && ext.gpu_mode
      match T.Fill3Randoms with
      | .error e => .error e
      | .ok (rand, T1) =>
        if use_gpu_transform then
          ext.TransformGPU T1 datum mem transformed_blob.cpu_data rand
        else
          T1.Transform datum mem transformed_blob.cpu_data rand

/-- The loop `for (int item_id = 0; item_id < datum_num; ++item_id)` of the batch
driver, from `item_id` on, over the datums not yet transformed. -/
def DataTransformer.TransformVector_loop (ext : External) (transformed_blob : TBlob) :
    Nat → List Datum → DataTransformer → (Int → ℚ) →
    Except Fatal (DataTransformer × (Int → ℚ))
  | _, [], T, mem => .ok (T, mem)
  | item_id, datum :: rest, T, mem =>
    let offset := transformed_blob.offset (item_id : Int)
    let uni_blob : TBlob :=
      { num := 1, channels := transformed_blob.channels, height := transformed_blob.height,
        width := transformed_blob.width, cpu_data := transformed_blob.cpu_data + offset }
    match T.TransformBlob ext datum uni_blob mem with
    | .error e => .error e
    | .ok (T1, mem1) =>
      DataTransformer.TransformVector_loop ext transformed_blob (item_id + 1) rest T1 mem1

/-- Member `DataTransformer::Transform(const vector<Datum>&, TBlob<Dtype>*)`. -/
def DataTransformer.TransformVector (ext : External) (T : DataTransformer)
    (datum_vector : List Datum) (transformed_blob : TBlob) (mem : Int → ℚ) :
    Except Fatal (DataTransformer × (Int → ℚ)) :=
  let datum_num : Int := (datum_vector.length : Int)
  let num := transformed_blob.num
  if ¬ (datum_num > 0) then .error .no_datum_to_add
  else if ¬ (datum_num ≤ num) then .error .too_many_datums
  else DataTransformer.TransformVector_loop ext transformed_blob 0 datum_vector T mem

/-- The `i`-th (from `0`) triple that successive calls of `Fill3Randoms` draw, and
the transformer after that call. -/
def DataTransformer.nth_Fill3Randoms (T : DataTransformer) :
    Nat → Except Fatal (Rand3 × DataTransformer)
  | 0 => T.Fill3Randoms
  | i + 1 =>
    match T.Fill3Randoms with
    | .error e => .error e
    | .ok (_, T1) => T1.nth_Fill3Randoms i

/-! ## Notions used to state the properties of `Transform`

Each of them names a local variable of `Transform` or a condition on its input. -/

/-- The local `do_mirror` of `Transform`. -/
def DataTransformer.do_mirror (T : DataTransformer) (rand : Rand3) : Bool :=
  T.param_.mirror && (rand.rand0 % 2 != 0)

/-- The local `height` of `Transform` after the crop: the height of the output. -/
def DataTransformer.out_height (T : DataTransformer) (datum : Datum) : Int :=
  if (int_of_uint32 T.param_.crop_size) ≠ 0 then (int_of_uint32 T.param_.crop_size) else datum.height

/-- The local `width` of `Transform` after the crop: the width of the output. -/
def DataTransformer.out_width (T : DataTransformer) (datum : Datum) : Int :=
  if (int_of_uint32 T.param_.crop_size) ≠ 0 then (int_of_uint32 T.param_.crop_size) else datum.width

/-- The local `h_off` of `Transform`. -/
def DataTransformer.h_off (T : DataTransformer) (datum : Datum) (rand : Rand3) : Int :=
  crop_off T.phase_ (int_of_uint32 T.param_.crop_size) datum.height rand.rand1

/-- The local `w_off` of `Transform`. -/
def DataTransformer.w_off (T : DataTransformer) (datum : Datum) (rand : Rand3) : Int :=
  crop_off T.phase_ (int_of_uint32 T.param_.crop_size) datum.width rand.rand2

/-- The member `mean_values_` as `Transform` leaves it for a sample of
`datum_channels` channels. -/
def DataTransformer.mean_values_after (T : DataTransformer) (datum_channels : Int) : List ℚ :=
  if decide (T.mean_values_.length > 0) = true ∧ datum_channels > 1 ∧ T.mean_values_.length = 1 then
    replicate_mean_value T.mean_values_ datum_channels
  else T.mean_values_

/-- The value `Transform` stores for channel `c` and source index `data_index`. -/
def DataTransformer.stored (T : DataTransformer) (datum : Datum) (c data_index : Int) : ℚ :=
  element datum (decide (datum.data.length > 0)) T.param_.scale T.param_.has_mean_file
    (decide (T.mean_values_.length > 0)) T.data_mean_.cpu_data
    (T.mean_values_after datum.channels) c data_index

/-- All the `CHECK`s of `Transform(const Datum&, Dtype*, rand)` pass. -/
def DataTransformer.Transform_checks (T : DataTransformer) (datum : Datum) : Prop :=
  datum.channels > 0 ∧ datum.height ≥ (int_of_uint32 T.param_.crop_size) ∧
  datum.width ≥ (int_of_uint32 T.param_.crop_size) ∧
  (T.param_.has_mean_file = true →
    datum.channels = T.data_mean_.channels ∧ datum.height = T.data_mean_.height ∧
    datum.width = T.data_mean_.width) ∧
  (T.mean_values_.length > 0 →
    T.mean_values_.length = 1 ∨ (T.mean_values_.length : Int) = datum.channels)

/-- The source index read for channel `c`, crop row `h`, crop column `w`. -/
def DataTransformer.src_index (T : DataTransformer) (datum : Datum) (rand : Rand3)
    (c h w : Int) : Int :=
  (c * datum.height + T.h_off datum rand + h) * datum.width + T.w_off datum rand + w

/-- The source pixel of a raw sample at index `i`: the byte `data[i]` of a `uint8`
sample (`data` not empty), else the float `float_data(i)`. -/
def Datum.pixel (datum : Datum) (i : Int) : ℚ :=
  if datum.data.length > 0 then datum.byte i else datum.float i

/-- The transformer `T1` is the transformer `T` after some calls on samples of
`datum_channels` channels: same configuration, phase and mean blob, and the list
`mean_values_` either as in `T` or already replicated; the generators are free. -/
def DataTransformer.agrees (T T1 : DataTransformer) (datum_channels : Int) : Prop :=
  T1.param_ = T.param_ ∧ T1.phase_ = T.phase_ ∧ T1.data_mean_ = T.data_mean_ ∧
  (T1.mean_values_ = T.mean_values_ ∨ T1.mean_values_ = T.mean_values_after datum_channels)

/-- The shape after the enabled steps of the variable-sized pipeline, taken in the
order random resize, random crop, centre crop, as the specification words it: a
resize yields `(1, C, 0, 0)`, either crop yields `(1, C, crop_size, crop_size)`. -/
def var_sized_steps (resize_enabled random_crop_enabled center_crop_enabled : Bool)
    (crop_size : Int) (shape : List Int) : List Int :=
  let s1 := if resize_enabled then [1, shape.getD 1 0, 0, 0] else shape
  let s2 := if random_crop_enabled then [1, s1.getD 1 0, crop_size, crop_size] else s1
  if center_crop_enabled then [1, s2.getD 1 0, crop_size, crop_size] else s2

/-! ## The constructor -/

/-- The loop `for (int c = 0; c < param_.mean_value_size(); ++c)
mean_values_.push_back(param_.mean_value(c))` of the constructor. -/
def push_back_mean_values (mean_value : List ℚ) : List ℚ :=
  (List.range mean_value.length).foldl
    (fun mean_values_ (c : Nat) => mean_values_ ++ [readAt mean_value (c : Int) 0]) []

/-- The constructor `DataTransformer::DataTransformer(param, phase)`: the transformer
it builds (without a generator, which `InitRand` installs), or the failed check. -/
def DataTransformer.construct (ext : External) (param : TransformationParameter)
    (phase : Phase) : Except Fatal DataTransformer :=
  -- check if we want to use mean_file
  if param.has_mean_file ∧ ¬ (param.mean_value.length = 0) then
    .error .mean_file_and_mean_value
  else
    let data_mean_ : MeanBlob :=
      if param.has_mean_file then ext.ReadMeanFile param.mean_file else {}
    -- check if we want to use mean_value
    if param.mean_value.length > 0 ∧ ¬ (¬ (param.has_mean_file = true)) then
      .error .mean_file_and_mean_value
    else
      let mean_values_ : List ℚ :=
        if param.mean_value.length > 0 then push_back_mean_values param.mean_value else []
      .ok { param_ := param, phase_ := phase, data_mean_ := data_mean_,
            mean_values_ := mean_values_, rng_ := none }

/-! ## The decoded-image transform with supplied draws -/

/-- Member `DataTransformer::TransformPtr(const cv::Mat& cv_img, Dtype* transformed_ptr,
rand)`. The cropped image `cv_img(roi)` shares the bytes of `cv_img`: its row `h` is
row `h_off + h` of `cv_img` from column `w_off` on, so that its `ptr<uchar>(h)[i]` is
`cv_img.ptr (h_off + h) (w_off * img_channels + i)`. -/
def DataTransformer.TransformPtr (T : DataTransformer) (cv_img : CvMat) (mem : Int → ℚ)
    (transformed_ptr : Int) (rand : Rand3) :
    Except Fatal (DataTransformer × (Int → ℚ)) :=
  let crop_size : Int := (int_of_uint32 T.param_.crop_size)
  let img_channels := cv_img.channels
  let img_height := cv_img.rows
  let img_width := cv_img.cols
  if ¬ (cv_img.depth_8U = true) then .error .image_depth_8U
  else
    let scale := T.param_.scale
    let do_mirror : Bool := T.param_.mirror && (rand.rand0 % 2 != 0)
    let has_mean_file := T.param_.has_mean_file
    let has_mean_values : Bool := decide (T.mean_values_.length > 0)
    if ¬ (img_channels > 0) then .error .channels_gt_0
    else if ¬ (img_height ≥ crop_size) then .error .height_ge_crop_size
    else if ¬ (img_width ≥ crop_size) then .error .width_ge_crop_size
    else if has_mean_file ∧ ¬ (img_channels = T.data_mean_.channels) then .error .mean_channels
    else if has_mean_file ∧ ¬ (img_height = T.data_mean_.height) then .error .mean_height
    else if has_mean_file ∧ ¬ (img_width = T.data_mean_.width) then .error .mean_width
    else if has_mean_values ∧
        ¬ (T.mean_values_.length = 1 ∨ (T.mean_values_.length : Int) = img_channels) then
      .error .mean_values_size
    else
      let mean := T.data_mean_.cpu_data
      let mean_values_ : List ℚ :=
        if has_mean_values ∧ img_channels > 1 ∧ T.mean_values_.length = 1 then
          replicate_mean_value T.mean_values_ img_channels
        else T.mean_values_
      let h_off : Int := crop_off T.phase_ crop_size img_height rand.rand1
      let w_off : Int := crop_off T.phase_ crop_size img_width rand.rand2
      let height : Int := if crop_size ≠ 0 then crop_size else img_height
      let width : Int := if crop_size ≠ 0 then crop_size else img_width
      if ¬ (cv_img.has_data = true) then .error .cropped_img_data
      else
        let mem1 := (List.range height.toNat).foldl
          (fun (mem : Int → ℚ) (h : Nat) =>
            -- const uchar* ptr = cv_cropped_img.ptr<uchar>(h); int img_index = 0;
            ((List.range width.toNat).foldl
              (fun (st : (Int → ℚ) × Int) (w : Nat) =>
                (List.range img_channels.toNat).foldl
                  (fun (st : (Int → ℚ) × Int) (c : Nat) =>
                    let top_index : Int :=
                      if do_mirror then
                        ((c : Int) * height + (h : Int)) * width + (width - 1 - (w : Int))
                      else ((c : Int) * height + (h : Int)) * width + (w : Int)
                    -- Dtype pixel = static_cast<Dtype>(ptr[img_index++]);
                    let pixel : ℚ :=
                      ((cv_img.ptr (h_off + (h : Int)) (w_off * img_channels + st.2)).toNat : ℚ)
                    let value : ℚ :=
                      if has_mean_file then
                        let mean_index : Int :=
                          ((c : Int) * img_height + h_off + (h : Int)) * img_width + w_off
                            + (w : Int)
                        (pixel - mean mean_index) * scale
                      else if has_mean_values then
                        (pixel - readAt mean_values_ (c : Int) 0) * scale
                      else pixel * scale
                    (Function.update st.1 (transformed_ptr + top_index) value, st.2 + 1))
                  st)
              (mem, 0)).1)
          mem
        .ok ({ T with mean_values_ := mean_values_ }, mem1)

/-- Member `DataTransformer::TransformPtrInt`. -/
def DataTransformer.TransformPtrInt (T : DataTransformer) (datum : Datum) (mem : Int → ℚ)
    (transformed_data : Int) (rand : Rand3) :
    Except Fatal (DataTransformer × (Int → ℚ)) :=
  T.Transform datum mem transformed_data rand

/-- Member `DataTransformer::TransformPtrEntry(datum, transformed_ptr, rand,
output_labels, label)`; `label` is the address the label is written to. -/
def DataTransformer.TransformPtrEntry (ext : External) (T : DataTransformer) (datum : Datum)
    (mem : Int → ℚ) (transformed_ptr : Int) (rand : Rand3) (output_labels : Bool)
    (label : Int) : Except Fatal (DataTransformer × (Int → ℚ)) :=
  -- Get label from datum if needed
  let mem := if output_labels then Function.update mem label (datum.label : ℚ) else mem
  if datum.encoded then
    if T.param_.force_color && T.param_.force_gray then .error .force_color_and_force_gray
    else
      let cv_img : CvMat :=
        if T.param_.force_color || T.param_.force_gray then
          ext.DecodeDatumToCVMat datum T.param_.force_color
        else ext.DecodeDatumToCVMatNative datum
      T.TransformPtr cv_img mem transformed_ptr rand
  else
    T.TransformPtrInt datum mem transformed_ptr rand

/-! ## The batch driver for decoded images -/

/-- The loop `for (int item_id = 0; item_id < mat_num; ++item_id)` of the batch driver
for decoded images, from `item_id` on, over the images not yet transformed. -/
def DataTransformer.TransformMatVector_loop (ext : External) (transformed_blob : TBlob) :
    Nat → List CvMat → DataTransformer → (Int → ℚ) →
    Except Fatal (DataTransformer × (Int → ℚ))
  | _, [], T, mem => .ok (T, mem)
  | item_id, cv_img :: rest, T, mem =>
    let offset := transformed_blob.offset (item_id : Int)
    let uni_blob : TBlob :=
      { num := 1, channels := transformed_blob.channels, height := transformed_blob.height,
        width := transformed_blob.width, cpu_data := transformed_blob.cpu_data + offset }
    match ext.TransformCvMat T cv_img uni_blob mem with
    | .error e => .error e
    | .ok (T1, mem1) =>
      DataTransformer.TransformMatVector_loop ext transformed_blob (item_id + 1) rest T1 mem1

/-- Member `DataTransformer::Transform(const vector<cv::Mat>&, TBlob<Dtype>*)`. -/
def DataTransformer.TransformMatVector (ext : External) (T : DataTransformer)
    (mat_vector : List CvMat) (transformed_blob : TBlob) (mem : Int → ℚ) :
    Except Fatal (DataTransformer × (Int → ℚ)) :=
  let mat_num : Int := (mat_vector.length : Int)
  let num := transformed_blob.num
  if ¬ (mat_num > 0) then .error .no_mat_to_add
  else if ¬ (mat_num = num) then .error .mat_num_eq_num
  else DataTransformer.TransformMatVector_loop ext transformed_blob 0 mat_vector T mem

/-! ## An output taken as a sample -/

/-- The `C × Hh × Ww` values found at `out` in `mem`, taken as a raw float sample of
that shape. -/
def sample_of_output (mem : Int → ℚ) (out : Int) (C Hh Ww : Nat) : Datum :=
  { channels := (C : Int), height := (Hh : Int), width := (Ww : Int),
    float_data := (List.range (C * Hh * Ww)).map (fun (j : Nat) => mem (out + (j : Int))) }

/-! ## Concrete inputs -/

/-- A `4 × 4` single-channel raw sample whose bytes are `0, 1, ..., 15` in row order. -/
def sample4x4 : Datum :=
  { channels := 1, height := 4, width := 4,
    data := [0, 1, 2, 3, 4, 5, 6, 7, 8, 9, 10, 11, 12, 13, 14, 15] }

/-- A transformer of phase TEST with `crop_size = 2` and every other option at its
default (no mirror, no mean, scale 1). -/
def test_crop2 : DataTransformer :=
  { param_ := { crop_size := 2 }, phase_ := Phase.TEST }

/-- The transformer of phase TEST with `crop_size = 2`, `mean_value = [10]` and
`scale = 2`. -/
def test_crop2_mean10_scale2 : DataTransformer :=
  { param_ := { crop_size := 2, scale := 2, mean_value := [10] }, phase_ := Phase.TEST,
    mean_values_ := [10] }

/-- A transformer of phase TEST with `crop_size = 2`, mirror enabled and a `1 × 4 × 4`
mean file whose value at index `i` is `2 * i`. -/
def test_crop2_mirror_meanfile : DataTransformer :=
  { param_ := { crop_size := 2, mirror := true, has_mean_file := true },
    phase_ := Phase.TEST,
    data_mean_ := { channels := 1, height := 4, width := 4, cpu_data := fun i => 2 * (i : ℚ) } }

/-- A transformer of phase TEST with `crop_size = 2` and mirror enabled. -/
def test_crop2_mirror : DataTransformer :=
  { param_ := { crop_size := 2, mirror := true }, phase_ := Phase.TEST }

/-- A generator whose successive values are `0, 1, 2, ...`. -/
def counting_rng : RNG := ⟨fun n => n⟩

/-- A transformer of phase TRAIN with `crop_size = 2`, the given mirror flag and the
counting generator. -/
def train_crop2 (mirror : Bool) : DataTransformer :=
  { param_ := { crop_size := 2, mirror := mirror }, phase_ := Phase.TRAIN,
    rng_ := some counting_rng }

/-- The trivial collaborators: host mode, a decoder returning an empty image, a mean
file holding the empty blob, seeded generators that count up from the seed, and
decoded-image and device transforms that leave
everything as it is. -/
def host_only : External :=
  { gpu_mode := false,
    DecodeDatumToCVMat := fun _ _ => { channels := 0, rows := 0, cols := 0 },
    DecodeDatumToCVMatNative := fun _ => { channels := 0, rows := 0, cols := 0 },
    ReadMeanFile := fun _ => {},
    new_RNG := fun seed => ⟨fun n => seed + n⟩,
    TransformCvMat := fun T _ _ mem => .ok (T, mem),
    TransformGPU := fun T _ mem _ _ => .ok (T, mem) }

/-- A transformer of phase TRAIN with `crop_size = 2` and the random-resize bounds
`lower = 5`, `upper = 0`. -/
def train_crop2_resize_5_0 : DataTransformer :=
  { param_ := { crop_size := 2, img_rand_resize_lower := 5, img_rand_resize_upper := 0 },
    phase_ := Phase.TRAIN }

/-- An output blob of shape `(3, 1, 2, 2)` at address `0`. -/
def blob_3x1x2x2 : TBlob := { num := 3, channels := 1, height := 2, width := 2, cpu_data := 0 }

/-- An output blob of shape `(2, 1, 2, 2)` at address `0`. -/
def blob_2x1x2x2 : TBlob := { num := 2, channels := 1, height := 2, width := 2, cpu_data := 0 }

/-- A `4 × 4` decoded image of one channel, all bytes `0`. -/
def image4x4 : CvMat := { channels := 1, rows := 4, cols := 4 }

/-- A transformer of phase TEST with `crop_size = 2` and both `force_color` and
`force_gray` set. -/
def test_crop2_force_both : DataTransformer :=
  { param_ := { crop_size := 2, force_color := true, force_gray := true },
    phase_ := Phase.TEST }

/-- An output blob of shape `(1, 1, 2, 2)` at address `0`. -/
def blob_1x1x2x2 : TBlob := { num := 1, channels := 1, height := 2, width := 2, cpu_data := 0 }

/-- A raw sample of three channels, height 2 and width 2, with the bytes `0, ..., 11`. -/
def sample3x2x2 : Datum :=
  { channels := 3, height := 2, width := 2,
    data := [0, 1, 2, 3, 4, 5, 6, 7, 8, 9, 10, 11] }

/-- An encoded sample (its dimensions are those the decoder finds). -/
def encoded_sample : Datum := { channels := 0, height := 0, width := 0, encoded := true }

/-- A raw `2 × 2` single-channel sample with the bytes `0, 1, 2, 3`. -/
def sample2x2 : Datum := { channels := 1, height := 2, width := 2, data := [0, 1, 2, 3] }

/-! ## The generator of a pipeline -/

/-- The process-wide seed source behind `Caffe::next_seed()`: the values its successive
calls return. -/
structure SeedSource where
  stream : Nat → Nat

/-- One call of `Caffe::next_seed()` (a `uint64_t`): the seed and the source after the
call. -/
def SeedSource.next_seed (s : SeedSource) : Nat × SeedSource :=
  (s.stream 0 % 2 ^ 64, ⟨fun n => s.stream (n + 1)⟩)

/-- Member `DataTransformer::InitRand()`: the transformer with its generator installed
or cleared, and the process-wide seed source afterwards. -/
def DataTransformer.InitRand (ext : External) (T : DataTransformer) (seeds : SeedSource) :
    DataTransformer × SeedSource :=
  let needs_rand : Bool :=
    T.param_.mirror || (decide (T.phase_ = Phase.TRAIN) && decide (T.param_.crop_size ≠ 0))
  if needs_rand then
    -- Use random_seed setting for deterministic transformations
    let seeded : Nat × SeedSource :=
      if T.param_.random_seed ≥ 0 then (T.param_.random_seed.toNat, seeds)
      else seeds.next_seed
    ({ T with rng_ := some (ext.new_RNG seeded.1) }, seeded.2)
  else
    ({ T with rng_ := none }, seeds)

/-! ## The variable-sized transforms -/

/-- Member `var_sized_image_center_crop(cv::Mat& img)`: the image after
`ROI.copyTo(img)`, the `crop_size × crop_size` block at the centre offsets. -/
def DataTransformer.var_sized_image_center_crop (T : DataTransformer) (img : CvMat) :
    Except Fatal CvMat :=
  let crop_size : Int := (int_of_uint32 T.param_.crop_size)
  if ¬ (crop_size > 0) then .error .crop_size_gt_0
  else
    let img_height := img.rows
    let img_width := img.cols
    if ¬ (img_height ≥ crop_size) then .error .height_ge_crop_size
    else if ¬ (img_width ≥ crop_size) then .error .width_ge_crop_size
    else
      let crop_offset_h : Int := (img_height - crop_size).tdiv 2
      let crop_offset_w : Int := (img_width - crop_size).tdiv 2
      .ok { img with
            rows := crop_size, cols := crop_size,
            ptr := fun h i => img.ptr (crop_offset_h + h) (crop_offset_w * img.channels + i) }

/-- A value `cv::Size(width, height)`. -/
structure CvSize where
  width : Int
  height : Int
  deriving DecidableEq, Repr

/-- Rounding of a rational to an integer: to the nearest one, and at a tie to the even
one of the two nearest. It is the rounding of the IEEE 754 operations. -/
def round_half_even (x : ℚ) : Int :=
  if x - (⌊x⌋ : ℚ) < 1 / 2 then ⌊x⌋
  else if 1 / 2 < x - (⌊x⌋ : ℚ) then ⌊x⌋ + 1
  else if ⌊x⌋ % 2 = 0 then ⌊x⌋ else ⌊x⌋ + 1

/-- The `double` (IEEE 754 binary64) nearest to the rational `x`, ties to even: the value
of a conversion to `double`, or of an operation on `double`s, whose exact result is `x`.
A significand has 53 bits: the last place of a number with `2^j ≤ |x| < 2^(j+1)` has
the exponent `j - 52`, and never less than `-1074` (the subnormal numbers). The
infinities, NaN and the overflow beyond the largest finite `double` are not modelled;
a quotient by `0` is the `0` of the rationals. -/
def to_double (x : ℚ) : ℚ :=
  let e : Int := max (Int.log 2 |x| - 52) (-1074)
  (round_half_even (x / (2 : ℚ) ^ e) : ℚ) * (2 : ℚ) ^ e

/-- The function `resize(cv::Mat& cv_img, int smallest_side)`: the size `dsize` of its
call `cv::resize(cv_img, cv_img, dsize)`. Both quotients are quotients of `double`s, the
`int` operands being converted first; `ceil` gives the exact ceiling, an integer that
the conversion `(int)` keeps when it fits an `int` (a larger one, for which the
conversion is undefined, is kept as it is here). -/
def resize (cv_img : CvMat) (smallest_side : Int) : CvSize :=
  let cur_width := cv_img.cols
  let cur_height := cv_img.rows
  if cur_height ≤ cur_width then
    let k : ℚ := to_double (to_double (cur_height : ℚ) / to_double (smallest_side : ℚ))
    let new_size : Int := ⌈to_double (to_double (cur_width : ℚ) / k)⌉
    ⟨new_size, smallest_side⟩
  else
    let k : ℚ := to_double (to_double (cur_width : ℚ) / to_double (smallest_side : ℚ))
    let new_size : Int := ⌈to_double (to_double (cur_height : ℚ) / k)⌉
    ⟨smallest_side, new_size⟩

/-! ## The accesses of the raw-datum transform -/

/-- The loop nest of `Transform` with the store replaced by a record of the channel,
the `top_index` written and the `data_index` read (in the data, and in the mean file
when there is one), in the order of the iterations. -/
def DataTransformer.Transform_accesses (T : DataTransformer) (datum : Datum) (rand : Rand3) :
    List (Int × Int × Int) :=
  loopC (fun (log : List (Int × Int × Int)) c top_index data_index =>
      log ++ [(c, top_index, data_index)])
    (T.do_mirror rand) (if T.do_mirror rand then -1 else 1)
    datum.channels datum.height datum.width (T.out_height datum) (T.out_width datum)
    (T.h_off datum rand) (T.w_off datum rand) []

/-! ## The decoded-image transform with its own draws -/

/-- Modelled from the spec: the overload `Rand(int n)`, declared in the header, draws one
raw value with `Rand()`, which fails when no generator was initialized, and reduces it
modulo `n`. -/
def DataTransformer.Rand_n (T : DataTransformer) (n : Int) :
    Except Fatal (Int × DataTransformer) :=
  match T.Rand with
  | .error e => .error e
  | .ok (r, T1) => .ok (((r % n.toNat : Nat) : Int), T1)

/-- The conversion of a `float` to `int`: towards zero. -/
def cpp_trunc (x : ℚ) : Int :=
  if 0 ≤ x then ⌊x⌋ else ⌈x⌉

/-- The image operations of the decoded-image transform; each field is the image after
the call. -/
structure CvOps where
  /-- The function `rotate(src, angle)`: `cv::warpAffine` into the bounding box of the
  rotated rectangle. -/
  rotate : CvMat → Int → CvMat
  /-- The call `cv::resize(cv_img, cv_img, dsize)`. -/
  cv_resize : CvMat → CvSize → CvMat
  /-- The statements `img -= shiftArr` (`true`) and `img += shiftArr` (`false`), for
  `shiftArr` set to `cv::Scalar(b, g, r)`. -/
  shift : CvMat → Int → Int → Int → Bool → CvMat
  /-- The call `img.convertTo(img, -1, alpha, beta)`. -/
  convertTo : CvMat → ℚ → Int → CvMat
  /-- The call `cv::GaussianBlur(img, img, cv::Size(k, k), 0)`. -/
  GaussianBlur : CvMat → Int → CvMat
  /-- The call `cv::blur(img, img, cv::Size(k, k))`. -/
  blur : CvMat → Int → CvMat
  /-- The call `cv::medianBlur(img, img, k)`. -/
  medianBlur : CvMat → Int → CvMat
  /-- The call `cv::boxFilter(img, img, -1, cv::Size(k, k))`. -/
  boxFilter : CvMat → Int → CvMat

/-- The values that the calls of `caffe_rng_uniform` in the decoded-image transform
draw from the process-wide generator: the three probabilities, in the order of the
calls, and the contrast `alpha`. -/
structure UniformDraws where
  prob_brightness : ℚ
  prob_smooth : ℚ
  prob_color_shift : ℚ
  alpha : ℚ

/-- The first part of `Transform(const cv::Mat& cv_img, TBlob<Dtype>* transformed_blob)`,
up to the logging of the parameters: the draws and the image operations of the
augmentations. It yields the local `do_mirror`, the image `img` and the transformer
with its generator advanced by the draws, or fails at the first draw made without a
generator. -/
def DataTransformer.TransformCvMat_augment (ops : CvOps) (u : UniformDraws)
    (T : DataTransformer) (cv_img : CvMat) : Except Fatal (Bool × CvMat × DataTransformer) := do
  let min_side := T.param_.min_side
  let min_side_min := T.param_.min_side_min
  let min_side_max := T.param_.min_side_max
  let rotation_angle := T.param_.max_rotation_angle
  let max_brightness_shift := T.param_.max_brightness_shift
  let max_smooth := T.param_.max_smooth
  let max_color_shift := T.param_.max_color_shift
  let apply_prob : ℚ := 1 - T.param_.apply_probability
  let train : Bool := decide (T.phase_ = Phase.TRAIN)
  let do_rotation : Bool := decide (rotation_angle > 0) && train
  let do_resize_to_min_side : Bool := decide (min_side > 0)
  let do_resize_to_min_side_min : Bool := decide (min_side_min > 0)
  let do_resize_to_min_side_max : Bool := decide (min_side_max > 0)
  -- const bool do_mirror = param_.mirror() && phase_ == TRAIN && Rand(2);
  let (do_mirror, T) ←
    if T.param_.mirror && train then do
      let (r, T) ← T.Rand_n 2
      pure (decide (r ≠ 0), T)
    else pure (false, T)
  let do_brightness : Bool :=
    T.param_.contrast_brightness_adjustment && train && decide (u.prob_brightness > apply_prob)
  let do_smooth : Bool :=
    T.param_.smooth_filtering && train && decide (max_smooth > 1) &&
      decide (u.prob_smooth > apply_prob)
  let do_color_shift : Bool :=
    decide (max_color_shift > 0) && train && decide (u.prob_color_shift > apply_prob)
  let img := cv_img
  let (img, T) ←
    if do_rotation then do
      let (r, T) ← T.Rand_n (rotation_angle * 2 + 1)
      let current_angle := r - rotation_angle
      pure (if current_angle ≠ 0 then ops.rotate img current_angle else img, T)
    else pure (img, T)
  -- resizing and crop according to min side, preserving aspect ratio
  let img := if do_resize_to_min_side then ops.cv_resize img (resize img min_side) else img
  let (img, T) ←
    if do_resize_to_min_side_min && do_resize_to_min_side_max then do
      let (r, T) ← T.Rand_n (min_side_max - min_side_min + 1)
      let min_side_length := min_side_min + r
      pure (ops.cv_resize img (resize img min_side_length), T)
    else pure (img, T)
  -- apply color shift
  let (img, T) ←
    if do_color_shift then do
      let (b, T) ← T.Rand_n (max_color_shift + 1)
      let (g, T) ← T.Rand_n (max_color_shift + 1)
      let (r, T) ← T.Rand_n (max_color_shift + 1)
      let (sign, T) ← T.Rand_n 2
      pure (ops.shift img b g r (decide (sign = 1)), T)
    else pure (img, T)
  -- set contrast and brightness
  let (img, T) ←
    if do_brightness then do
      let alpha := u.alpha
      let (r, T) ← T.Rand_n (max_brightness_shift * 2 + 1)
      let beta := r - max_brightness_shift
      pure (ops.convertTo img alpha beta, T)
    else pure (img, T)
  -- set smoothness
  let (img, T) ←
    if do_smooth then do
      let (smooth_type, T) ← T.Rand_n 4
      let (r, T) ← T.Rand_n (cpp_trunc (max_smooth / 2))
      let smooth_param := 1 + 2 * r
      pure
        (if smooth_type = 0 then ops.GaussianBlur img smooth_param
         else if smooth_type = 1 then ops.blur img smooth_param
         else if smooth_type = 2 then ops.medianBlur img smooth_param
         else if smooth_type = 3 then ops.boxFilter img (smooth_param * 2)
         else img, T)
    else pure (img, T)
  pure (do_mirror, img, T)

/-- The second part of `Transform(const cv::Mat& cv_img, TBlob<Dtype>* transformed_blob)`,
from the checks of the dimensions on, for the local `do_mirror` and the image `img`
that the first part yields: the checks, the crop with its draws, and the stores. As in
`TransformPtr`, the cropped image shares the bytes of the image it is cut from. -/
def DataTransformer.TransformCvMat_store (T : DataTransformer) (do_mirror : Bool)
    (img : CvMat) (transformed_blob : TBlob) (mem : Int → ℚ) :
    Except Fatal (DataTransformer × (Int → ℚ)) := do
  let crop_size : Int := (int_of_uint32 T.param_.crop_size)
  -- Check dimensions.
  let channels := transformed_blob.channels
  let height := transformed_blob.height
  let width := transformed_blob.width
  let num := transformed_blob.num
  let scale := T.param_.scale
  let has_mean_file := T.param_.has_mean_file
  let has_mean_values : Bool := decide (T.mean_values_.length > 0)
  let img_channels := img.channels
  let img_height := img.rows
  let img_width := img.cols
  if ¬ (img_channels > 0) then .error .channels_gt_0
  else if ¬ (img_height ≥ crop_size) then .error .height_ge_crop_size
  else if ¬ (img_width ≥ crop_size) then .error .width_ge_crop_size
  else if ¬ (channels = img_channels) then .error .blob_channels
  else if ¬ (height ≤ img_height) then .error .blob_height_le
  else if ¬ (width ≤ img_width) then .error .blob_width_le
  else if ¬ (num ≥ 1) then .error .blob_num_ge_1
  else if ¬ (img.depth_8U = true) then .error .image_depth_8U
  else if has_mean_file ∧ ¬ (img_channels = T.data_mean_.channels) then .error .mean_channels
  else if has_mean_file ∧ ¬ (img_height = T.data_mean_.height) then .error .mean_height
  else if has_mean_file ∧ ¬ (img_width = T.data_mean_.width) then .error .mean_width
  else if has_mean_values ∧
      ¬ (T.mean_values_.length = 1 ∨ (T.mean_values_.length : Int) = img_channels) then
    .error .mean_values_size
  else
    let mean := T.data_mean_.cpu_data
    let mean_values_ : List ℚ :=
      if has_mean_values ∧ img_channels > 1 ∧ T.mean_values_.length = 1 then
        replicate_mean_value T.mean_values_ img_channels
      else T.mean_values_
    let T : DataTransformer := { T with mean_values_ := mean_values_ }
    let (h_off, w_off, T) ←
      if crop_size ≠ 0 then
        if ¬ (crop_size = height) then .error .crop_size_eq_height
        else if ¬ (crop_size = width) then .error .crop_size_eq_width
        -- We only do random crop when we do training.
        else if T.phase_ = Phase.TRAIN then do
          let (h_off, T) ← T.Rand_n (img_height - crop_size + 1)
          let (w_off, T) ← T.Rand_n (img_width - crop_size + 1)
          pure (h_off, w_off, T)
        else
          pure ((img_height - crop_size).tdiv 2, (img_width - crop_size).tdiv 2, T)
      else (pure ((0 : Int), (0 : Int), T) : Except Fatal (Int × Int × DataTransformer))
    if ¬ (img.has_data = true) then .error .cropped_img_data
    else
      let mem1 := (List.range height.toNat).foldl
        (fun (mem : Int → ℚ) (h : Nat) =>
          -- const uchar* ptr = cv_cropped_img.ptr<uchar>(h); int img_index = 0;
          ((List.range width.toNat).foldl
            (fun (st : (Int → ℚ) × Int) (w : Nat) =>
              (List.range img_channels.toNat).foldl
                (fun (st : (Int → ℚ) × Int) (c : Nat) =>
                  let top_index : Int :=
                    if do_mirror then
                      ((c : Int) * height + (h : Int)) * width + (width - 1 - (w : Int))
                    else ((c : Int) * height + (h : Int)) * width + (w : Int)
                  -- Dtype pixel = static_cast<Dtype>(ptr[img_index++]);
                  let pixel : ℚ :=
                    ((img.ptr (h_off + (h : Int)) (w_off * img_channels + st.2)).toNat : ℚ)
                  let value : ℚ :=
                    if has_mean_file then
                      let mean_index : Int :=
                        ((c : Int) * img_height + h_off + (h : Int)) * img_width + w_off
                          + (w : Int)
                      (pixel - mean mean_index) * scale
                    else if has_mean_values then
                      (pixel - readAt mean_values_ (c : Int) 0) * scale
                    else pixel * scale
                  (Function.update st.1 (transformed_blob.cpu_data + top_index) value,
                    st.2 + 1))
                st)
            (mem, 0)).1)
        mem
      .ok (T, mem1)

/-- Member `DataTransformer::Transform(const cv::Mat& cv_img, TBlob<Dtype>*
transformed_blob)`, the member that the field `TransformCvMat` of `External` stands
for: the transformer afterwards (its generator advanced by the draws, its
`mean_values_` possibly replicated) and the memory after the stores into the blob, or
the first failure. -/
def DataTransformer.TransformCvMat (ops : CvOps) (u : UniformDraws) (T : DataTransformer)
    (cv_img : CvMat) (transformed_blob : TBlob) (mem : Int → ℚ) :
    Except Fatal (DataTransformer × (Int → ℚ)) :=
  match T.TransformCvMat_augment ops u cv_img with
  | .error e => .error e
  | .ok (do_mirror, img, T1) => T1.TransformCvMat_store do_mirror img transformed_blob mem

/-! ## Further concrete inputs -/

/-- A transformer of phase TEST with `crop_size = 2` and the single mean value `10`. -/
def test_crop2_mean10 : DataTransformer :=
  { param_ := { crop_size := 2, mean_value := [10] }, phase_ := Phase.TEST,
    mean_values_ := [10] }

/-- A generator whose successive values are `1, 2, 3, ...`. -/
def counting_rng_from_1 : RNG := ⟨fun n => n + 1⟩

/-- The raw `2 × 2` single-channel sample with the float values `0, 1, 2, 3` and no
bytes. -/
def float_sample2x2 : Datum :=
  { channels := 1, height := 2, width := 2, float_data := [0, 1, 2, 3] }

/-- Image operations that leave the image as it is. -/
def identity_ops : CvOps :=
  { rotate := fun img _ => img, cv_resize := fun img _ => img,
    shift := fun img _ _ _ _ => img, convertTo := fun img _ _ => img,
    GaussianBlur := fun img _ => img, blur := fun img _ => img,
    medianBlur := fun img _ => img, boxFilter := fun img _ => img }

/-- Uniform draws that are all `0`. -/
def zero_draws : UniformDraws :=
  { prob_brightness := 0, prob_smooth := 0, prob_color_shift := 0, alpha := 0 }

/-- A transformer of phase TRAIN with `max_rotation_angle = 10` and every other option at
its default (no mirror, no crop), before `InitRand`. -/
def train_rotation10 : DataTransformer :=
  { param_ := { max_rotation_angle := 10 }, phase_ := Phase.TRAIN }

/-- A transformer of phase TEST with `min_side_min = 2`, `min_side_max = 4` and every
other option at its default, before `InitRand`. -/
def test_min_side_2_4 : DataTransformer :=
  { param_ := { min_side_min := 2, min_side_max := 4 }, phase_ := Phase.TEST }

/-- A transformer of phase TEST with the configured `crop_size = 4294967295`, the largest
`uint32` value. -/
def test_crop_4294967295 : DataTransformer :=
  { param_ := { crop_size := 4294967295 }, phase_ := Phase.TEST }

/-! ## The conversion of `uint32` to `int` -/

/-- Below `2^31` the conversion keeps the value. -/
theorem int_of_uint32_of_lt (n : Nat) (h : n < 2 ^ 31) : int_of_uint32 n = (n : Int) := by
  unfold int_of_uint32
  rw [if_pos h]

/-- The value `0` converts to `0`. -/
theorem int_of_uint32_zero : int_of_uint32 0 = 0 := by
  rw [int_of_uint32_of_lt 0 (by norm_num)]
  rfl

/-- From `2^31` on, a `uint32` value converts to a negative number. -/
theorem int_of_uint32_of_ge (n : Nat) (h1 : 2 ^ 31 ≤ n) (h2 : n < 2 ^ 32) :
    int_of_uint32 n = (n : Int) - 2 ^ 32 ∧ int_of_uint32 n < 0 := by
  unfold int_of_uint32
  have e : n % 2 ^ 32 = n := Nat.mod_eq_of_lt h2
  rw [e, if_neg (by omega)]
  refine ⟨rfl, ?_⟩
  have : (n : Int) < 2 ^ 32 := by exact_mod_cast h2
  omega

/-- The conversion is `0` for the value `0` only. -/
theorem int_of_uint32_eq_zero_iff (n : Nat) : int_of_uint32 n = 0 ↔ n = 0 := by
  unfold int_of_uint32
  by_cases h : n < 2 ^ 31
  · rw [if_pos h]
    exact Int.natCast_eq_zero
  · rw [if_neg h]
    have := Nat.mod_lt n (show 0 < 2 ^ 32 by norm_num)
    constructor
    · intro e; omega
    · intro e; omega

/-- A conversion that is not negative is the value itself, below `2^31`. -/
theorem int_of_uint32_nonneg (n : Nat) (h : 0 ≤ int_of_uint32 n) :
    n < 2 ^ 31 ∧ int_of_uint32 n = (n : Int) := by
  have hn : n < 2 ^ 31 := by
    by_contra hc
    unfold int_of_uint32 at h
    rw [if_neg hc] at h
    have := Nat.mod_lt n (show 0 < 2 ^ 32 by norm_num)
    omega
  exact ⟨hn, int_of_uint32_of_lt n hn⟩

/-- The conversion gives the natural number `c` exactly for the value `c` below `2^31`. -/
theorem int_of_uint32_eq_natCast_iff (n c : Nat) :
    int_of_uint32 n = (c : Int) ↔ n = c ∧ n < 2 ^ 31 := by
  constructor
  · intro h
    obtain ⟨h1, h2⟩ := int_of_uint32_nonneg n (by rw [h]; exact Int.natCast_nonneg c)
    rw [h2] at h
    exact ⟨by exact_mod_cast h, h1⟩
  · rintro ⟨rfl, h⟩
    exact int_of_uint32_of_lt n h

/-! ## Loop invariants -/

/-- The inner loop with step `m = 1` stores `g (d + i)` at `p + t + i` for `i < n`. -/
theorem loopW_fwd (g : Int → ℚ) (p : Int) (n : Nat) (mem : Int → ℚ) (t d : Int) (j : Int) :
    (loopW (fun mem t d => Function.update mem (p + t) (g d)) 1 (n : Int) mem t d).1 j
      = if p + t ≤ j ∧ j < p + t + n then g (d + (j - (p + t))) else mem j := by
  unfold loopW
  rw [Int.toNat_natCast]
  suffices h : ∀ k : Nat,
      ((List.range k).foldl
        (fun (st : (Int → ℚ) × Int × Int) (_ : Nat) =>
          (Function.update st.1 (p + st.2.1) (g st.2.2), st.2.1 + 1, st.2.2 + 1))
        (mem, t, d)).2 = (t + k, d + k) ∧
      ∀ j, ((List.range k).foldl
        (fun (st : (Int → ℚ) × Int × Int) (_ : Nat) =>
          (Function.update st.1 (p + st.2.1) (g st.2.2), st.2.1 + 1, st.2.2 + 1))
        (mem, t, d)).1 j
        = if p + t ≤ j ∧ j < p + t + k then g (d + (j - (p + t))) else mem j from (h n).2 j
  intro k
  induction k with
  | zero =>
    refine ⟨by simp, fun j => ?_⟩
    simp only [List.range_zero, List.foldl_nil]
    rw [if_neg]
    push_cast; omega
  | succ k ih =>
    obtain ⟨ih2, ih1⟩ := ih
    rw [List.range_succ, List.foldl_append]
    simp only [List.foldl_cons, List.foldl_nil]
    rw [ih2]
    refine ⟨by simp; constructor <;> ring, fun j => ?_⟩
    simp only
    by_cases hj : j = p + (t + k)
    · subst hj
      rw [Function.update_same, if_pos (by push_cast; omega)]
      congr 1; ring
    · rw [Function.update_noteq hj, ih1]
      by_cases h1 : p + t ≤ j ∧ j < p + t + k
      · rw [if_pos h1, if_pos (by push_cast; omega)]
      · rw [if_neg h1, if_neg (by push_cast; omega)]

/-- The inner loop with step `m = -1` stores `g (d + i)` at `p + t - i` for `i < n`. -/
theorem loopW_bwd (g : Int → ℚ) (p : Int) (n : Nat) (mem : Int → ℚ) (t d : Int) (j : Int) :
    (loopW (fun mem t d => Function.update mem (p + t) (g d)) (-1) (n : Int) mem t d).1 j
      = if p + t - n < j ∧ j ≤ p + t then g (d + (p + t - j)) else mem j := by
  unfold loopW
  rw [Int.toNat_natCast]
  suffices h : ∀ k : Nat,
      ((List.range k).foldl
        (fun (st : (Int → ℚ) × Int × Int) (_ : Nat) =>
          (Function.update st.1 (p + st.2.1) (g st.2.2), st.2.1 + -1, st.2.2 + 1))
        (mem, t, d)).2 = (t - k, d + k) ∧
      ∀ j, ((List.range k).foldl
        (fun (st : (Int → ℚ) × Int × Int) (_ : Nat) =>
          (Function.update st.1 (p + st.2.1) (g st.2.2), st.2.1 + -1, st.2.2 + 1))
        (mem, t, d)).1 j
        = if p + t - k < j ∧ j ≤ p + t then g (d + (p + t - j)) else mem j from (h n).2 j
  intro k
  induction k with
  | zero =>
    refine ⟨by simp, fun j => ?_⟩
    simp only [List.range_zero, List.foldl_nil]
    rw [if_neg]
    push_cast; omega
  | succ k ih =>
    obtain ⟨ih2, ih1⟩ := ih
    rw [List.range_succ, List.foldl_append]
    simp only [List.foldl_cons, List.foldl_nil]
    rw [ih2]
    refine ⟨by simp; constructor <;> ring, fun j => ?_⟩
    simp only
    by_cases hj : j = p + (t - k)
    · subst hj
      rw [Function.update_same, if_pos (by push_cast; omega)]
      congr 1; ring
    · rw [Function.update_noteq hj, ih1]
      by_cases h1 : p + t - k < j ∧ j ≤ p + t
      · rw [if_pos h1, if_pos (by push_cast; omega)]
      · rw [if_neg h1, if_neg (by push_cast; omega)]

/-- One row: whatever the direction, the inner loop fills the cells
`p + b, ..., p + b + n - 1` and leaves the others alone. -/
theorem loopW_row (g : Int → ℚ) (p : Int) (n : Nat) (mem : Int → ℚ) (do_mirror : Bool)
    (b d : Int) (j : Int) :
    (loopW (fun mem t d => Function.update mem (p + t) (g d))
        (if do_mirror then -1 else 1) (n : Int) mem
        (if do_mirror then b + n - 1 else b) d).1 j
      = if p + b ≤ j ∧ j < p + b + n then g (d + mirror_col do_mirror n (j - (p + b)))
        else mem j := by
  cases do_mirror with
  | false =>
    simp only [Bool.false_eq_true, if_false, mirror_col]
    exact loopW_fwd g p n mem b d j
  | true =>
    simp only [if_true, mirror_col]
    rw [loopW_bwd]
    by_cases h1 : p + b ≤ j ∧ j < p + b + n
    · rw [if_pos h1, if_pos (by omega)]
      congr 1; ring
    · rw [if_neg h1, if_neg (by omega)]

/-- The rows of one channel: frame and values after the `h` loop. -/
theorem loopH_spec (g : Int → ℚ) (p : Int) (n : Nat) (do_mirror : Bool)
    (datum_width w_off cdho ch : Int) (mem : Int → ℚ) (k : Nat) :
    (∀ j, (j < p + ch * n ∨ p + (ch + k) * n ≤ j) →
      loopH (fun mem t d => Function.update mem (p + t) (g d)) do_mirror
        (if do_mirror then -1 else 1) (k : Int) (n : Int) datum_width w_off cdho ch mem j
        = mem j) ∧
    (∀ h x : Nat, h < k → x < n →
      loopH (fun mem t d => Function.update mem (p + t) (g d)) do_mirror
        (if do_mirror then -1 else 1) (k : Int) (n : Int) datum_width w_off cdho ch mem
        (p + ((ch + h) * n + x))
        = g ((cdho + h) * datum_width + w_off + mirror_col do_mirror n x)) := by
  unfold loopH
  rw [Int.toNat_natCast]
  induction k with
  | zero =>
    refine ⟨fun j _ => by simp, fun h x hh _ => absurd hh (Nat.not_lt_zero h)⟩
  | succ k ih =>
    obtain ⟨ihf, ihv⟩ := ih
    rw [List.range_succ, List.foldl_append]
    simp only [List.foldl_cons, List.foldl_nil]
    have htop : (if do_mirror = true then (ch + (k : Int) + 1) * (n : Int) - 1
        else (ch + (k : Int)) * (n : Int))
        = (if do_mirror = true then (ch + (k : Int)) * (n : Int) + n - 1
           else (ch + (k : Int)) * (n : Int)) := by
      split <;> ring
    rw [htop]
    have hn : (0 : Int) ≤ n := Int.natCast_nonneg n
    constructor
    · intro j hj
      rw [loopW_row]
      have e1 : (ch + ((k + 1 : Nat) : Int)) * n = (ch + k) * n + n := by push_cast; ring
      rw [e1] at hj
      have e2 : ch * (n : Int) ≤ (ch + k) * n := by nlinarith [Int.natCast_nonneg k]
      rw [if_neg (by omega)]
      exact ihf j (by omega)
    · intro h x hh hx
      rw [loopW_row]
      by_cases hk : h = k
      · subst hk
        rw [if_pos (by omega),
          show p + ((ch + (h : Int)) * n + x) - (p + (ch + h) * n) = (x : Int) by ring]
      · have hlt : h < k := by omega
        have e2 : (ch + (h : Int)) * n + n ≤ (ch + k) * n := by
          have : (h : Int) + 1 ≤ k := by exact_mod_cast hlt
          nlinarith
        rw [if_neg (by omega)]
        exact ihv h x hlt hx

/-- The whole loop nest: frame and values after the `c` loop. -/
theorem loopC_spec (v : Int → Int → ℚ) (p : Int) (C Hh n : Nat) (do_mirror : Bool)
    (datum_height datum_width h_off w_off : Int) (mem : Int → ℚ) :
    (∀ j, (j < p ∨ p + (C : Int) * Hh * n ≤ j) →
      loopC (fun mem c t d => Function.update mem (p + t) (v c d)) do_mirror
        (if do_mirror then -1 else 1) (C : Int) datum_height datum_width (Hh : Int) (n : Int)
        h_off w_off mem j = mem j) ∧
    (∀ c h x : Nat, c < C → h < Hh → x < n →
      loopC (fun mem c t d => Function.update mem (p + t) (v c d)) do_mirror
        (if do_mirror then -1 else 1) (C : Int) datum_height datum_width (Hh : Int) (n : Int)
        h_off w_off mem (p + (((c : Int) * Hh + h) * n + x))
        = v c (((c : Int) * datum_height + h_off + h) * datum_width + w_off
            + mirror_col do_mirror n x)) := by
  unfold loopC
  rw [Int.toNat_natCast]
  induction C with
  | zero =>
    refine ⟨fun j _ => by simp, fun c h x hc _ _ => absurd hc (Nat.not_lt_zero c)⟩
  | succ k ih =>
    obtain ⟨ihf, ihv⟩ := ih
    rw [List.range_succ, List.foldl_append]
    simp only [List.foldl_cons, List.foldl_nil]
    have hn : (0 : Int) ≤ n := Int.natCast_nonneg n
    have hH : (0 : Int) ≤ Hh := Int.natCast_nonneg Hh
    have hHn : (0 : Int) ≤ (Hh : Int) * n := mul_nonneg hH hn
    have hk : (0 : Int) ≤ k := Int.natCast_nonneg k
    constructor
    · intro j hj
      have hS := (loopH_spec (v k) p n do_mirror datum_width w_off
        ((k : Int) * datum_height + h_off) ((k : Int) * Hh)
        ((List.range k).foldl
          (fun s (c : Nat) =>
            loopH (fun mem t d => Function.update mem (p + t) (v c d)) do_mirror
              (if do_mirror then -1 else 1) (Hh : Int) (n : Int) datum_width w_off
              ((c : Int) * datum_height + h_off) ((c : Int) * Hh) s) mem) Hh).1 j
      have e1 : ((k + 1 : Nat) : Int) * Hh * n = (k : Int) * Hh * n + Hh * n := by
        push_cast; ring
      rw [e1] at hj
      have e3 : ((k : Int) * Hh + Hh) * n = (k : Int) * Hh * n + Hh * n := by ring
      have e4 : (0 : Int) ≤ (k : Int) * Hh * n := by positivity
      rw [hS (by omega)]
      exact ihf j (by omega)
    · intro c h x hc hh hx
      have hS := (loopH_spec (v k) p n do_mirror datum_width w_off
        ((k : Int) * datum_height + h_off) ((k : Int) * Hh)
        ((List.range k).foldl
          (fun s (c : Nat) =>
            loopH (fun mem t d => Function.update mem (p + t) (v c d)) do_mirror
              (if do_mirror then -1 else 1) (Hh : Int) (n : Int) datum_width w_off
              ((c : Int) * datum_height + h_off) ((c : Int) * Hh) s) mem) Hh)
      by_cases hck : c = k
      · subst hck
        exact hS.2 h x hh hx
      · have hlt : c < k := by omega
        have hx' : (x : Int) < n := by exact_mod_cast hx
        have hh' : (h : Int) + 1 ≤ Hh := by exact_mod_cast hh
        have hc' : (c : Int) + 1 ≤ k := by exact_mod_cast hlt
        have e5 : ((c : Int) * Hh + h) * n + x < (k : Int) * Hh * n := by
          have a1 : ((c : Int) * Hh + h + 1) * n ≤ ((c : Int) + 1) * Hh * n := by
            have : (c : Int) * Hh + h + 1 ≤ ((c : Int) + 1) * Hh := by nlinarith
            nlinarith
          have a2 : ((c : Int) + 1) * Hh * n ≤ (k : Int) * Hh * n := by
            have : ((c : Int) + 1) * (Hh * n) ≤ (k : Int) * (Hh * n) :=
              mul_le_mul_of_nonneg_right hc' hHn
            nlinarith
          nlinarith
        rw [hS.1 _ (by omega)]
        exact ihv c h x hlt hh hx

/-- A loop nest whose height is not positive runs no store. -/
theorem loopC_of_toNat_zero {σ : Type} (body : σ → Int → Int → Int → σ) (do_mirror : Bool)
    (m datum_channels datum_height datum_width height width h_off w_off : Int) (s : σ)
    (h : height.toNat = 0) :
    loopC body do_mirror m datum_channels datum_height datum_width height width h_off w_off s
      = s := by
  unfold loopC loopH
  rw [h]
  simp only [List.range_zero, List.foldl_nil]
  induction List.range datum_channels.toNat with
  | nil => rfl
  | cons a l ih => exact ih

/-! ## The result of `Transform` -/

/-- When its checks pass, `Transform` returns the memory left by the loop nest. -/
theorem Transform_of_checks (T : DataTransformer) (datum : Datum) (mem : Int → ℚ) (p : Int)
    (rand : Rand3) (hc : T.Transform_checks datum) :
    T.Transform datum mem p rand = .ok
      ({ T with mean_values_ := T.mean_values_after datum.channels },
       loopC (fun (mem : Int → ℚ) c top_index data_index =>
          Function.update mem (p + top_index) (T.stored datum c data_index))
        (T.do_mirror rand) (if T.do_mirror rand then -1 else 1)
        datum.channels datum.height datum.width (T.out_height datum) (T.out_width datum)
        (T.h_off datum rand) (T.w_off datum rand) mem) := by
  obtain ⟨h1, h2, h3, h4, h5⟩ := hc
  unfold DataTransformer.Transform
  simp only [h1, h2, h3, not_true_eq_false, if_false]
  have e4 : ¬ (T.param_.has_mean_file = true ∧ ¬ datum.channels = T.data_mean_.channels) :=
    fun h => h.2 (h4 h.1).1
  have e5 : ¬ (T.param_.has_mean_file = true ∧ ¬ datum.height = T.data_mean_.height) :=
    fun h => h.2 (h4 h.1).2.1
  have e6 : ¬ (T.param_.has_mean_file = true ∧ ¬ datum.width = T.data_mean_.width) :=
    fun h => h.2 (h4 h.1).2.2
  have e7 : ¬ (decide (T.mean_values_.length > 0) = true ∧
      ¬ (T.mean_values_.length = 1 ∨ (T.mean_values_.length : Int) = datum.channels)) :=
    fun h => h.2 (h5 (of_decide_eq_true h.1))
  rw [if_neg e4, if_neg e5, if_neg e6, if_neg e7]
  rfl

/-- When `Transform` returns, its checks have passed. -/
theorem Transform_checks_of_ok (T : DataTransformer) (datum : Datum) (mem : Int → ℚ) (p : Int)
    (rand : Rand3) (r : DataTransformer × (Int → ℚ))
    (h : T.Transform datum mem p rand = .ok r) : T.Transform_checks datum := by
  unfold DataTransformer.Transform at h
  dsimp only at h
  by_cases h1 : datum.channels > 0
  swap
  · rw [if_pos h1] at h; cases h
  rw [if_neg (not_not.mpr h1)] at h
  by_cases h2 : datum.height ≥ (int_of_uint32 T.param_.crop_size)
  swap
  · rw [if_pos h2] at h; cases h
  rw [if_neg (not_not.mpr h2)] at h
  by_cases h3 : datum.width ≥ (int_of_uint32 T.param_.crop_size)
  swap
  · rw [if_pos h3] at h; cases h
  rw [if_neg (not_not.mpr h3)] at h
  by_cases h4 : T.param_.has_mean_file = true ∧ ¬ datum.channels = T.data_mean_.channels
  · rw [if_pos h4] at h; cases h
  rw [if_neg h4] at h
  by_cases h5 : T.param_.has_mean_file = true ∧ ¬ datum.height = T.data_mean_.height
  · rw [if_pos h5] at h; cases h
  rw [if_neg h5] at h
  by_cases h6 : T.param_.has_mean_file = true ∧ ¬ datum.width = T.data_mean_.width
  · rw [if_pos h6] at h; cases h
  rw [if_neg h6] at h
  by_cases h7 : decide (T.mean_values_.length > 0) = true ∧
      ¬ (T.mean_values_.length = 1 ∨ (T.mean_values_.length : Int) = datum.channels)
  · rw [if_pos h7] at h; cases h
  refine ⟨h1, h2, h3, fun hm => ⟨?_, ?_, ?_⟩, fun hl => ?_⟩
  · by_contra hne; exact h4 ⟨hm, hne⟩
  · by_contra hne; exact h5 ⟨hm, hne⟩
  · by_contra hne; exact h6 ⟨hm, hne⟩
  · by_contra hne; exact h7 ⟨decide_eq_true hl, hne⟩

/-- Mirroring a column twice gives the column back. -/
theorem mirror_col_mirror_col (do_mirror : Bool) (width x : Int) :
    mirror_col do_mirror width (mirror_col do_mirror width x) = x := by
  unfold mirror_col
  cases do_mirror <;> simp

/-- The mirrored column of a column of the row is a column of the row. -/
theorem mirror_col_range (do_mirror : Bool) (n x : Nat) (hx : x < n) :
    ∃ y : Nat, y < n ∧ mirror_col do_mirror (n : Int) (x : Int) = (y : Int) := by
  cases do_mirror with
  | false => exact ⟨x, hx, by simp [mirror_col]⟩
  | true =>
    refine ⟨n - 1 - x, by omega, ?_⟩
    simp only [mirror_col, if_true]
    omega

/-- Every index of a `C × Hh × n` block is the planar index of one position. -/
theorem planar_index_surj (C Hh n : Nat) (j : Int) (h0 : 0 ≤ j)
    (h1 : j < (C : Int) * Hh * n) :
    ∃ c h x : Nat, c < C ∧ h < Hh ∧ x < n ∧ j = ((c : Int) * Hh + h) * n + x := by
  obtain ⟨k, rfl⟩ := Int.eq_ofNat_of_zero_le h0
  have hk : k < C * Hh * n := by exact_mod_cast h1
  have hn : 0 < n := by
    rcases Nat.eq_zero_or_pos n with h | h
    · subst h; simp at hk
    · exact h
  have hH : 0 < Hh := by
    rcases Nat.eq_zero_or_pos Hh with h | h
    · subst h; simp at hk
    · exact h
  have hq : k / n < C * Hh := (Nat.div_lt_iff_lt_mul hn).2 hk
  refine ⟨k / n / Hh, k / n % Hh, k % n, (Nat.div_lt_iff_lt_mul hH).2 hq,
    Nat.mod_lt _ hH, Nat.mod_lt _ hn, ?_⟩
  have e1 : k / n / Hh * Hh + k / n % Hh = k / n := by
    rw [Nat.mul_comm]; exact Nat.div_add_mod _ _
  have e2 : k / n * n + k % n = k := by
    rw [Nat.mul_comm]; exact Nat.div_add_mod _ _
  have : (k / n / Hh * Hh + k / n % Hh) * n + k % n = k := by rw [e1, e2]
  exact_mod_cast this.symm

/-- The dimensions of the output are natural numbers when the checks pass and the local
`crop_size` is not negative. -/
theorem Transform_dims (T : DataTransformer) (datum : Datum) (hc : T.Transform_checks datum)
    (hcr : 0 ≤ int_of_uint32 T.param_.crop_size) :
    ∃ C Hh Ww : Nat, 0 < C ∧ datum.channels = (C : Int) ∧ T.out_height datum = (Hh : Int) ∧
      T.out_width datum = (Ww : Int) := by
  obtain ⟨h1, h2, h3, _, _⟩ := hc
  refine ⟨datum.channels.toNat, (T.out_height datum).toNat, (T.out_width datum).toNat,
    by omega, by omega, ?_, ?_⟩
  · have : 0 ≤ T.out_height datum := by
      unfold DataTransformer.out_height; split <;> omega
    omega
  · have : 0 ≤ T.out_width datum := by
      unfold DataTransformer.out_width; split <;> omega
    omega

/-- The result of `Transform` on a sample that passes the checks: the transformer
afterwards, the cells left alone and the value of every cell of the output. -/
theorem Transform_spec (T : DataTransformer) (datum : Datum) (mem : Int → ℚ) (p : Int)
    (rand : Rand3) (C Hh Ww : Nat) (hc : T.Transform_checks datum)
    (hC : datum.channels = (C : Int)) (hH : T.out_height datum = (Hh : Int))
    (hW : T.out_width datum = (Ww : Int)) :
    ∃ mem', T.Transform datum mem p rand
        = .ok ({ T with mean_values_ := T.mean_values_after datum.channels }, mem') ∧
      (∀ j, (j < p ∨ p + (C : Int) * Hh * Ww ≤ j) → mem' j = mem j) ∧
      (∀ c h x : Nat, c < C → h < Hh → x < Ww →
        mem' (p + (((c : Int) * Hh + h) * Ww + x))
          = T.stored datum c
              (T.src_index datum rand c h (mirror_col (T.do_mirror rand) Ww x))) := by
  refine ⟨_, Transform_of_checks T datum mem p rand hc, ?_, ?_⟩
  · rw [hC, hH, hW]
    exact (loopC_spec (T.stored datum) p C Hh Ww (T.do_mirror rand) datum.height datum.width
      (T.h_off datum rand) (T.w_off datum rand) mem).1
  · rw [hC, hH, hW]
    intro c h x hc' hh hx
    rw [(loopC_spec (T.stored datum) p C Hh Ww (T.do_mirror rand) datum.height datum.width
      (T.h_off datum rand) (T.w_off datum rand) mem).2 c h x hc' hh hx]
    rfl

/-- On the cells of the output the result of `Transform` does not depend on the
memory it started from. -/
theorem Transform_region_indep (T : DataTransformer) (datum : Datum) (mem1 mem2 : Int → ℚ)
    (p : Int) (rand : Rand3) (C Hh Ww : Nat) (r1 r2 : DataTransformer × (Int → ℚ))
    (hC : datum.channels = (C : Int)) (hH : T.out_height datum = (Hh : Int))
    (hW : T.out_width datum = (Ww : Int))
    (h1 : T.Transform datum mem1 p rand = .ok r1)
    (h2 : T.Transform datum mem2 p rand = .ok r2)
    (j : Int) (hj0 : 0 ≤ j) (hj1 : j < (C : Int) * Hh * Ww) :
    r1.2 (p + j) = r2.2 (p + j) := by
  have hc := Transform_checks_of_ok T datum mem1 p rand r1 h1
  obtain ⟨m1, e1, _, v1⟩ := Transform_spec T datum mem1 p rand C Hh Ww hc hC hH hW
  obtain ⟨m2, e2, _, v2⟩ := Transform_spec T datum mem2 p rand C Hh Ww hc hC hH hW
  rw [h1] at e1; rw [h2] at e2
  cases e1; cases e2
  obtain ⟨c, h, x, hc', hh, hx, rfl⟩ := planar_index_surj C Hh Ww j hj0 hj1
  show m1 _ = m2 _
  rw [v1 c h x hc' hh hx, v2 c h x hc' hh hx]

/-! ## The mean values after the replication -/

/-- Replicating a list of one mean value gives that value for every channel. -/
theorem replicate_mean_value_singleton (m : ℚ) (C : Int) (hC : 1 ≤ C) :
    replicate_mean_value [m] C = List.replicate C.toNat m := by
  unfold replicate_mean_value
  have key : ∀ n : Nat, (List.range n).foldl (fun (mv : List ℚ) (_ : Nat) => mv ++ [readAt mv 0 0]) [m]
      = List.replicate (n + 1) m := by
    intro n
    induction n with
    | zero => rfl
    | succ n ih =>
      rw [List.range_succ, List.foldl_append, ih]
      simp only [List.foldl_cons, List.foldl_nil]
      have : readAt (List.replicate (n + 1) m) 0 0 = m := by
        simp [readAt, List.replicate_succ]
      rw [this, ← List.replicate_succ']
  rw [key]
  congr 1
  omega

/-- The mean value `mean_values_[c]` read by the loop for channel `c`: the single
configured value when the list has length one, else the value of the channel. -/
theorem mean_values_after_read (T : DataTransformer) (C : Nat) (c : Nat) (hc : c < C) :
    readAt (T.mean_values_after (C : Int)) (c : Int) 0
      = if T.mean_values_.length = 1 then T.mean_values_.getD 0 0
        else T.mean_values_.getD c 0 := by
  unfold DataTransformer.mean_values_after readAt
  rw [if_pos (Int.natCast_nonneg c), Int.toNat_natCast]
  by_cases h1 : T.mean_values_.length = 1
  · rw [if_pos h1]
    obtain ⟨m, hm⟩ := List.length_eq_one.mp h1
    by_cases hC : (C : Int) > 1
    · rw [if_pos ⟨by simp [h1], hC, h1⟩, hm, replicate_mean_value_singleton m C (by omega)]
      simp [List.getD_eq_getElem?_getD, List.getElem?_replicate, hc]
    · have : c = 0 := by omega
      subst this
      rw [if_neg (fun h => hC h.2.1)]
  · rw [if_neg h1, if_neg (fun h => h1 h.2.2)]

/-- Mirrored form of `Transform_spec`: the source pixel at channel `c`, crop row `h`,
crop column `w` lands at output column `mirror_col do_mirror width w`. -/
theorem Transform_spec_mirrored (T : DataTransformer) (datum : Datum) (mem : Int → ℚ)
    (p : Int) (rand : Rand3) (C Hh Ww : Nat) (hc : T.Transform_checks datum)
    (hC : datum.channels = (C : Int)) (hH : T.out_height datum = (Hh : Int))
    (hW : T.out_width datum = (Ww : Int)) :
    ∃ mem', T.Transform datum mem p rand
        = .ok ({ T with mean_values_ := T.mean_values_after datum.channels }, mem') ∧
      (∀ j, (j < p ∨ p + (C : Int) * Hh * Ww ≤ j) → mem' j = mem j) ∧
      (∀ c h w : Nat, c < C → h < Hh → w < Ww →
        mem' (p + (((c : Int) * Hh + h) * Ww + mirror_col (T.do_mirror rand) Ww w))
          = T.stored datum c (T.src_index datum rand c h w)) := by
  obtain ⟨mem', hrun, hf, hv⟩ := Transform_spec T datum mem p rand C Hh Ww hc hC hH hW
  refine ⟨mem', hrun, hf, fun c h w hc' hh hw => ?_⟩
  obtain ⟨y, hy, hyw⟩ := mirror_col_range (T.do_mirror rand) Ww w hw
  rw [hyw, hv c h y hc' hh hy, ← hyw, mirror_col_mirror_col]

/-! ## Calls on a transformer whose mean values are already replicated -/

/-- A transformer agrees with itself. -/
theorem agrees_refl (T : DataTransformer) (C : Int) : T.agrees T C :=
  ⟨rfl, rfl, rfl, Or.inl rfl⟩

/-- The list of mean values after a call, seen from a transformer that agrees: its
emptiness, its replication and the check on its length are those of the original. -/
theorem agrees_mean_values (T T1 : DataTransformer) (C : Int) (ha : T.agrees T1 C)
    (hchk : T.mean_values_.length > 0 →
      T.mean_values_.length = 1 ∨ (T.mean_values_.length : Int) = C) :
    (T1.mean_values_.length > 0 ↔ T.mean_values_.length > 0) ∧
    T1.mean_values_after C = T.mean_values_after C ∧
    (T1.mean_values_.length > 0 →
      T1.mean_values_.length = 1 ∨ (T1.mean_values_.length : Int) = C) := by
  obtain ⟨_, _, _, hmv⟩ := ha
  rcases hmv with h | h
  · unfold DataTransformer.mean_values_after
    rw [h]
    exact ⟨Iff.rfl, rfl, hchk⟩
  · by_cases hcond : decide (T.mean_values_.length > 0) = true ∧ C > 1 ∧ T.mean_values_.length = 1
    · obtain ⟨m, hm⟩ := List.length_eq_one.mp hcond.2.2
      have h1 : T1.mean_values_ = List.replicate C.toNat m := by
        rw [h]; unfold DataTransformer.mean_values_after
        rw [if_pos hcond, hm, replicate_mean_value_singleton m C (by omega)]
      have hl : T1.mean_values_.length = C.toNat := by rw [h1, List.length_replicate]
      have hC1 : C > 1 := hcond.2.1
      refine ⟨?_, ?_, fun _ => Or.inr (by rw [hl]; omega)⟩
      · rw [hl, hcond.2.2]; constructor <;> intro <;> omega
      · have hne : ¬ (decide (T1.mean_values_.length > 0) = true ∧ C > 1 ∧
            T1.mean_values_.length = 1) := by
          intro hh; rw [hl] at hh; omega
        rw [← h]
        unfold DataTransformer.mean_values_after
        rw [if_neg hne]
    · have h1 : T1.mean_values_ = T.mean_values_ := by
        rw [h]; unfold DataTransformer.mean_values_after
        rw [if_neg hcond]
      unfold DataTransformer.mean_values_after
      rw [h1]
      exact ⟨Iff.rfl, rfl, hchk⟩

/-- A call of `Transform` on a transformer that agrees with `T` passes the checks when
`T` does, stores the same values and leaves a transformer that agrees with `T`. -/
theorem agrees_Transform (T T1 : DataTransformer) (datum : Datum) (mem : Int → ℚ) (p : Int)
    (rand : Rand3) (ha : T.agrees T1 datum.channels) (hchk : T.Transform_checks datum) :
    ∃ mem', T.Transform datum mem p rand
        = .ok ({ T with mean_values_ := T.mean_values_after datum.channels }, mem') ∧
      T1.Transform datum mem p rand
        = .ok ({ T1 with mean_values_ := T.mean_values_after datum.channels }, mem') := by
  obtain ⟨hl, hafter, hchk1⟩ := agrees_mean_values T T1 datum.channels ha hchk.2.2.2.2
  obtain ⟨hp, hph, hdm, _⟩ := ha
  have hchk' : T1.Transform_checks datum := by
    obtain ⟨c1, c2, c3, c4, _⟩ := hchk
    refine ⟨c1, by rw [hp]; exact c2, by rw [hp]; exact c3, ?_, hchk1⟩
    rw [hp, hdm]; exact c4
  refine ⟨_, Transform_of_checks T datum mem p rand hchk, ?_⟩
  rw [Transform_of_checks T1 datum mem p rand hchk', hafter]
  have hs : T1.stored datum = T.stored datum := by
    funext c i
    unfold DataTransformer.stored
    rw [hafter, hp, hdm, decide_eq_decide.mpr hl]
  have e1 : T1.do_mirror rand = T.do_mirror rand := by
    unfold DataTransformer.do_mirror; rw [hp]
  have e2 : T1.out_height datum = T.out_height datum := by
    unfold DataTransformer.out_height; rw [hp]
  have e3 : T1.out_width datum = T.out_width datum := by
    unfold DataTransformer.out_width; rw [hp]
  have e4 : T1.h_off datum rand = T.h_off datum rand := by
    unfold DataTransformer.h_off; rw [hp, hph]
  have e5 : T1.w_off datum rand = T.w_off datum rand := by
    unfold DataTransformer.w_off; rw [hp, hph]
  rw [hs, e1, e2, e3, e4, e5]

/-! ## Properties of the raw-datum transform -/

/-- The centre offset `(dim - crop) / 2` of two natural numbers with `crop ≤ dim`. -/
theorem center_tdiv (dim crop : Nat) (h : crop ≤ dim) :
    ((dim : Int) - (crop : Int)).tdiv 2 = (((dim - crop) / 2 : Nat) : Int) := by
  rw [Int.tdiv_eq_ediv (by omega) (by norm_num)]
  omega

/-- The crop offset in phase TEST is the centre offset. -/
theorem crop_off_TEST (c dim : Nat) (hc0 : 0 < c) (h : c ≤ dim) (r : Nat) :
    crop_off Phase.TEST (c : Int) (dim : Int) r = (((dim - c) / 2 : Nat) : Int) := by
  have hcne : ((c : Nat) : Int) ≠ 0 := by exact_mod_cast (Nat.pos_iff_ne_zero.mp hc0)
  unfold crop_off
  rw [if_pos hcne, if_neg (by decide)]
  exact center_tdiv dim c h

/-- The planar index of a position of a `C × H × W` block lies in the block. -/
theorem planar_index_lt (C H W c h w : Nat) (hc : c < C) (hh : h < H) (hw : w < W) :
    (c * H + h) * W + w < C * H * W := by
  have a1 : (c * H + h + 1) * W ≤ C * H * W := by
    have : c * H + h + 1 ≤ C * H := by nlinarith
    exact Nat.mul_le_mul_right W this
  nlinarith

/-- A byte of a raw sample read at a natural index. -/
theorem byte_natCast (datum : Datum) (i : Nat) :
    datum.byte (i : Int) = ((datum.data.getD i 0).toNat : ℚ) := by
  unfold Datum.byte readAt
  rw [if_pos (Int.natCast_nonneg i), Int.toNat_natCast]

/-- C1: for a raw uint8 sample of `C ≥ 1` channels, height `H` and width `W`, a crop
size `c` with `0 < c ≤ min H W` (the value of the local `int crop_size`, which is the
configured one below `2^31`), phase TEST, mirror disabled, no mean source and
scale 1, `Transform(datum, out, rand)` succeeds for every `rand` and writes
`out[(ch*c + h)*c + w] = data[(ch*H + (H-c)/2 + h)*W + (W-c)/2 + w]` for all
`ch < C`, `h < c`, `w < c` (the source index lies inside the data): the unchanged
centre block in planar layout. -/
theorem C1_test_center_crop_copies_center_block (T : DataTransformer) (datum : Datum)
    (mem : Int → ℚ) (out : Int) (rand : Rand3) (C H W c : Nat)
    (hC : datum.channels = (C : Int)) (hH : datum.height = (H : Int))
    (hW : datum.width = (W : Int)) (hC1 : 1 ≤ C) (hlen : datum.data.length = C * H * W)
    (hcrop : int_of_uint32 T.param_.crop_size = (c : Int)) (hc0 : 0 < c) (hcH : c ≤ H)
    (hcW : c ≤ W)
    (hphase : T.phase_ = Phase.TEST) (hmirror : T.param_.mirror = false)
    (hmf : T.param_.has_mean_file = false) (hmv : T.mean_values_ = [])
    (hscale : T.param_.scale = 1) :
    ∃ T' mem', T.Transform datum mem out rand = .ok (T', mem') ∧
      ∀ ch h w : Nat, ch < C → h < c → w < c →
        (ch * H + (H - c) / 2 + h) * W + (W - c) / 2 + w < datum.data.length ∧
        mem' (out + (((ch * c + h) * c + w : Nat) : Int))
          = ((datum.data.getD ((ch * H + (H - c) / 2 + h) * W + (W - c) / 2 + w) 0).toNat : ℚ) := by
  have hcne : ((c : Nat) : Int) ≠ 0 := by exact_mod_cast (Nat.pos_iff_ne_zero.mp hc0)
  have hchk : T.Transform_checks datum := by
    refine ⟨by rw [hC]; exact_mod_cast hC1, by rw [hH, hcrop]; exact_mod_cast hcH,
      by rw [hW, hcrop]; exact_mod_cast hcW, fun h => ?_, fun h => ?_⟩
    · rw [hmf] at h; cases h
    · rw [hmv] at h; simp at h
  have hoh : T.out_height datum = (c : Int) := by
    unfold DataTransformer.out_height; rw [hcrop, if_pos hcne]
  have how : T.out_width datum = (c : Int) := by
    unfold DataTransformer.out_width; rw [hcrop, if_pos hcne]
  obtain ⟨mem', hrun, _, hv⟩ := Transform_spec T datum mem out rand C c c hchk hC hoh how
  refine ⟨_, mem', hrun, fun ch h w hch hh hw => ?_⟩
  have hrow : (H - c) / 2 + h < H := by omega
  have hcol : (W - c) / 2 + w < W := by omega
  have hidx : (ch * H + (H - c) / 2 + h) * W + (W - c) / 2 + w < C * H * W := by
    have := planar_index_lt C H W ch ((H - c) / 2 + h) ((W - c) / 2 + w) hch hrow hcol
    calc (ch * H + (H - c) / 2 + h) * W + (W - c) / 2 + w
        = (ch * H + ((H - c) / 2 + h)) * W + ((W - c) / 2 + w) := by ring
      _ < C * H * W := this
  refine ⟨by rw [hlen]; exact hidx, ?_⟩
  have hpos : 0 < datum.data.length := by rw [hlen]; omega
  have hdm : T.do_mirror rand = false := by
    unfold DataTransformer.do_mirror; rw [hmirror]; rfl
  have hsrc : T.src_index datum rand ch h (mirror_col (T.do_mirror rand) c w)
      = (((ch * H + (H - c) / 2 + h) * W + (W - c) / 2 + w : Nat) : Int) := by
    unfold DataTransformer.src_index DataTransformer.h_off DataTransformer.w_off
    rw [hdm, hcrop, hphase, hH, hW, crop_off_TEST c H hc0 hcH, crop_off_TEST c W hc0 hcW]
    simp only [mirror_col, Bool.false_eq_true, if_false]
    push_cast
    ring
  have e := hv ch h w hch hh hw
  rw [hsrc] at e
  have e' : (out + (((ch * c + h) * c + w : Nat) : Int))
      = out + (((ch : Int) * c + h) * c + w) := by push_cast; ring
  rw [e', e]
  unfold DataTransformer.stored element
  simp only [hpos, gt_iff_lt, decide_True, if_true, hscale, hmf, hmv, List.length_nil,
    lt_self_iff_false, decide_False, Bool.false_eq_true, if_false]
  exact byte_natCast datum _

/-- Witness of C1 at the end-to-end example: the `4 × 4` single-channel sample with
`crop_size = 2` yields rows and columns 1-2 of the input, the bytes `5, 6, 9, 10`. -/
theorem C1_witness_sample4x4 :
    ∃ T' mem', test_crop2.Transform sample4x4 (fun _ => 0) 0 ⟨7, 8, 9⟩ = .ok (T', mem') ∧
      mem' 0 = 5 ∧ mem' 1 = 6 ∧ mem' 2 = 9 ∧ mem' 3 = 10 := by
  obtain ⟨T', mem', hrun, hv⟩ :=
    C1_test_center_crop_copies_center_block test_crop2 sample4x4 (fun _ => 0) 0 ⟨7, 8, 9⟩
      1 4 4 2 rfl rfl rfl (by decide) (by decide) rfl (by decide) (by decide) (by decide)
      rfl rfl rfl rfl rfl
  refine ⟨T', mem', hrun, ?_, ?_, ?_, ?_⟩
  · have h := (hv 0 0 0 (by decide) (by decide) (by decide)).2
    simpa [sample4x4] using h
  · have h := (hv 0 0 1 (by decide) (by decide) (by decide)).2
    simpa [sample4x4] using h
  · have h := (hv 0 1 0 (by decide) (by decide) (by decide)).2
    simpa [sample4x4] using h
  · have h := (hv 0 1 1 (by decide) (by decide) (by decide)).2
    simpa [sample4x4] using h

/-- The value stored from a `uint8` sample without a mean file. -/
theorem stored_uint8_no_mean_file (T : DataTransformer) (datum : Datum) (c i : Int)
    (hu8 : 0 < datum.data.length) (hmf : T.param_.has_mean_file = false) :
    T.stored datum c i
      = if T.mean_values_ = [] then datum.byte i * T.param_.scale
        else (datum.byte i - readAt (T.mean_values_after datum.channels) c 0)
          * T.param_.scale := by
  unfold DataTransformer.stored element
  simp only [hu8, gt_iff_lt, decide_True, if_true, hmf, Bool.false_eq_true, if_false,
    Bool.not_false, Bool.and_true]
  by_cases hmv : T.mean_values_ = []
  · have h0 : ¬ (0 < T.mean_values_.length) := by simp [hmv]
    simp only [h0, decide_False, Bool.false_eq_true, if_false, if_pos hmv]
    split
    · next hs => rw [hs, mul_one]
    · rfl
  · have h0 : 0 < T.mean_values_.length := List.length_pos.mpr hmv
    simp only [h0, decide_True, if_true, if_neg hmv]
    split
    · next hs => rw [hs, mul_one]
    · rfl

/-- C2: for a raw uint8 sample that passes the checks, with mean values (of length 1
or of length `channels`) or no mean source, no mean file and any scale, `Transform`
succeeds and the value written for the source pixel of channel `c`, crop row `h`,
crop column `w`, at the output position where that pixel lands, is
`(pixel - mean_values[c]) * scale` (the single value when the list has length 1), and
`pixel * scale` when no mean value is configured. -/
theorem C2_mean_values_then_scale (T : DataTransformer) (datum : Datum) (mem : Int → ℚ)
    (out : Int) (rand : Rand3) (C Hh Ww : Nat)
    (hC : datum.channels = (C : Int)) (hC0 : 0 < C)
    (hH : (int_of_uint32 T.param_.crop_size) ≤ datum.height)
    (hW : (int_of_uint32 T.param_.crop_size) ≤ datum.width)
    (hu8 : 0 < datum.data.length) (hmf : T.param_.has_mean_file = false)
    (hmv : T.mean_values_ = [] ∨ T.mean_values_.length = 1 ∨ T.mean_values_.length = C)
    (hHh : T.out_height datum = (Hh : Int)) (hWw : T.out_width datum = (Ww : Int)) :
    ∃ T' mem', T.Transform datum mem out rand = .ok (T', mem') ∧
      ∀ c h w : Nat, c < C → h < Hh → w < Ww →
        mem' (out + (((c : Int) * Hh + h) * Ww + mirror_col (T.do_mirror rand) Ww w))
          = if T.mean_values_ = [] then
              datum.byte (T.src_index datum rand c h w) * T.param_.scale
            else
              (datum.byte (T.src_index datum rand c h w)
                - (if T.mean_values_.length = 1 then T.mean_values_.getD 0 0
                   else T.mean_values_.getD c 0)) * T.param_.scale := by
  have hchk : T.Transform_checks datum := by
    refine ⟨by rw [hC]; exact_mod_cast hC0, hH, hW, fun h => ?_, fun h => ?_⟩
    · rw [hmf] at h; cases h
    · rcases hmv with h0 | h1 | h2
      · rw [h0] at h; simp at h
      · exact Or.inl h1
      · right; rw [hC]; exact_mod_cast h2
  obtain ⟨mem', hrun, _, hv⟩ :=
    Transform_spec_mirrored T datum mem out rand C Hh Ww hchk hC hHh hWw
  refine ⟨_, mem', hrun, fun c h w hc hh hw => ?_⟩
  rw [hv c h w hc hh hw, stored_uint8_no_mean_file T datum _ _ hu8 hmf, hC,
    mean_values_after_read T C c hc]

/-- Witness of C2 at the end-to-end example: with `mean_values = [10]` and `scale = 2`
the `4 × 4` sample cropped to its centre gives `(pixel - 10) * 2` for the pixels
`5, 6, 9, 10`. -/
theorem C2_witness_mean10_scale2 :
    ∃ T' mem', test_crop2_mean10_scale2.Transform sample4x4 (fun _ => 0) 0 ⟨7, 8, 9⟩
        = .ok (T', mem') ∧
      mem' 0 = (5 - 10) * 2 ∧ mem' 1 = (6 - 10) * 2 ∧ mem' 2 = (9 - 10) * 2 ∧
      mem' 3 = (10 - 10) * 2 := by
  obtain ⟨T', mem', hrun, hv⟩ :=
    C2_mean_values_then_scale test_crop2_mean10_scale2 sample4x4 (fun _ => 0) 0 ⟨7, 8, 9⟩
      1 2 2 rfl (by decide) (by decide) (by decide) (by decide) rfl
      (Or.inr (Or.inl rfl)) rfl rfl
  refine ⟨T', mem', hrun, ?_, ?_, ?_, ?_⟩
  · have h := hv 0 0 0 (by decide) (by decide) (by decide)
    simpa [test_crop2_mean10_scale2, sample4x4, mirror_col, DataTransformer.do_mirror,
      DataTransformer.src_index, DataTransformer.h_off, DataTransformer.w_off, crop_off, int_of_uint32,
      Datum.byte, readAt, UInt8.size] using h
  · have h := hv 0 0 1 (by decide) (by decide) (by decide)
    simpa [test_crop2_mean10_scale2, sample4x4, mirror_col, DataTransformer.do_mirror,
      DataTransformer.src_index, DataTransformer.h_off, DataTransformer.w_off, crop_off, int_of_uint32,
      Datum.byte, readAt, UInt8.size] using h
  · have h := hv 0 1 0 (by decide) (by decide) (by decide)
    simpa [test_crop2_mean10_scale2, sample4x4, mirror_col, DataTransformer.do_mirror,
      DataTransformer.src_index, DataTransformer.h_off, DataTransformer.w_off, crop_off, int_of_uint32,
      Datum.byte, readAt, UInt8.size] using h
  · have h := hv 0 1 1 (by decide) (by decide) (by decide)
    simpa [test_crop2_mean10_scale2, sample4x4, mirror_col, DataTransformer.do_mirror,
      DataTransformer.src_index, DataTransformer.h_off, DataTransformer.w_off, crop_off, int_of_uint32,
      Datum.byte, readAt, UInt8.size] using h

/-- The value stored when a mean file is configured. -/
theorem stored_mean_file (T : DataTransformer) (datum : Datum) (c i : Int)
    (hmf : T.param_.has_mean_file = true) :
    T.stored datum c i = (datum.pixel i - T.data_mean_.cpu_data i) * T.param_.scale := by
  unfold DataTransformer.stored element Datum.pixel
  simp only [hmf, if_true]
  by_cases hu8 : datum.data.length > 0
  · simp only [hu8, decide_True, if_true]
    split
    · next hs => rw [hs, mul_one]
    · rfl
  · simp only [hu8, decide_False, Bool.false_eq_true, if_false]

/-- C3: with a mean file configured, for every raw sample that passes the checks,
every crop size, phase, mirror bit and rand triple, `Transform` succeeds and the
value written for the source pixel at channel `c`, crop row `h`, crop column `w`
(at output column `w`, or `width - 1 - w` when mirrored) is
`(data[i] - mean[i]) * scale` with the same index `i = (c*H + h_off + h)*W + w_off + w`
for the pixel and for the mean, `H`, `W` being the pre-crop dimensions of the sample. -/
theorem C3_mean_file_same_absolute_index (T : DataTransformer) (datum : Datum)
    (mem : Int → ℚ) (out : Int) (rand : Rand3) (C Hh Ww : Nat)
    (hmf : T.param_.has_mean_file = true) (hchk : T.Transform_checks datum)
    (hC : datum.channels = (C : Int))
    (hHh : T.out_height datum = (Hh : Int)) (hWw : T.out_width datum = (Ww : Int)) :
    ∃ T' mem', T.Transform datum mem out rand = .ok (T', mem') ∧
      ∀ c h w : Nat, c < C → h < Hh → w < Ww →
        mem' (out + (((c : Int) * Hh + h) * Ww
              + (if T.do_mirror rand = true then (Ww : Int) - 1 - w else w)))
          = (datum.pixel
                (((c : Int) * datum.height + T.h_off datum rand + h) * datum.width
                  + T.w_off datum rand + w)
              - T.data_mean_.cpu_data
                (((c : Int) * datum.height + T.h_off datum rand + h) * datum.width
                  + T.w_off datum rand + w)) * T.param_.scale := by
  obtain ⟨mem', hrun, _, hv⟩ :=
    Transform_spec_mirrored T datum mem out rand C Hh Ww hchk hC hHh hWw
  refine ⟨_, mem', hrun, fun c h w hc hh hw => ?_⟩
  have e := hv c h w hc hh hw
  rw [stored_mean_file T datum _ _ hmf] at e
  exact e

/-- Witness of C3: the `4 × 4` sample, centre crop of size 2, mirrored, with the mean
`mean[i] = 2 * i`: the pixels `5, 6, 9, 10` (indices `5, 6, 9, 10`) give
`5 - 2 * 5, 6 - 2 * 6, 9 - 2 * 9, 10 - 2 * 10`, written with the columns swapped. -/
theorem C3_witness_mean_file :
    ∃ T' mem', test_crop2_mirror_meanfile.Transform sample4x4 (fun _ => 0) 0 ⟨1, 0, 0⟩
        = .ok (T', mem') ∧
      mem' 1 = 5 - 2 * 5 ∧ mem' 0 = 6 - 2 * 6 ∧ mem' 3 = 9 - 2 * 9 ∧ mem' 2 = 10 - 2 * 10 := by
  obtain ⟨T', mem', hrun, hv⟩ :=
    C3_mean_file_same_absolute_index test_crop2_mirror_meanfile sample4x4 (fun _ => 0) 0
      ⟨1, 0, 0⟩ 1 2 2 rfl
      ⟨by decide, by decide, by decide, fun _ => ⟨rfl, rfl, rfl⟩, fun h => by simp [test_crop2_mirror_meanfile] at h⟩
      rfl rfl rfl
  refine ⟨T', mem', hrun, ?_, ?_, ?_, ?_⟩
  · have h := hv 0 0 0 (by decide) (by decide) (by decide)
    simpa [test_crop2_mirror_meanfile, sample4x4, DataTransformer.do_mirror,
      DataTransformer.h_off, DataTransformer.w_off, crop_off, int_of_uint32,
      Datum.pixel, Datum.byte, readAt, UInt8.size] using h
  · have h := hv 0 0 1 (by decide) (by decide) (by decide)
    simpa [test_crop2_mirror_meanfile, sample4x4, DataTransformer.do_mirror,
      DataTransformer.h_off, DataTransformer.w_off, crop_off, int_of_uint32,
      Datum.pixel, Datum.byte, readAt, UInt8.size] using h
  · have h := hv 0 1 0 (by decide) (by decide) (by decide)
    simpa [test_crop2_mirror_meanfile, sample4x4, DataTransformer.do_mirror,
      DataTransformer.h_off, DataTransformer.w_off, crop_off, int_of_uint32,
      Datum.pixel, Datum.byte, readAt, UInt8.size] using h
  · have h := hv 0 1 1 (by decide) (by decide) (by decide)
    simpa [test_crop2_mirror_meanfile, sample4x4, DataTransformer.do_mirror,
      DataTransformer.h_off, DataTransformer.w_off, crop_off, int_of_uint32,
      Datum.pixel, Datum.byte, readAt, UInt8.size] using h

/-- The source index depends on the rand triple through its crop entries only. -/
theorem src_index_congr (T : DataTransformer) (datum : Datum) (r1 r2 : Rand3)
    (h1 : r1.rand1 = r2.rand1) (h2 : r1.rand2 = r2.rand2) (c h w : Int) :
    T.src_index datum r1 c h w = T.src_index datum r2 c h w := by
  unfold DataTransformer.src_index DataTransformer.h_off DataTransformer.w_off
  rw [h1, h2]

/-- C4: with mirror enabled, for a raw sample that passes the checks and two rand
triples that agree on the crop entries, `rand[0]` odd in the first and even in the
second, both calls of `Transform` succeed, the output of the first at position
`(c, h, w)` equals the output of the second at `(c, h, width - 1 - w)` for every
position of the output shape, and both leave the cells outside the output alone. -/
theorem C4_mirror_flips_columns (T : DataTransformer) (datum : Datum) (mem : Int → ℚ)
    (out : Int) (r1 r2 : Rand3) (C Hh Ww : Nat)
    (hmirror : T.param_.mirror = true) (hchk : T.Transform_checks datum)
    (hC : datum.channels = (C : Int))
    (hHh : T.out_height datum = (Hh : Int)) (hWw : T.out_width datum = (Ww : Int))
    (hr1 : r1.rand1 = r2.rand1) (hr2 : r1.rand2 = r2.rand2)
    (hodd : r1.rand0 % 2 = 1) (heven : r2.rand0 % 2 = 0) :
    ∃ T1 mem1 T2 mem2,
      T.Transform datum mem out r1 = .ok (T1, mem1) ∧
      T.Transform datum mem out r2 = .ok (T2, mem2) ∧
      (∀ c h w : Nat, c < C → h < Hh → w < Ww →
        mem1 (out + (((c : Int) * Hh + h) * Ww + w))
          = mem2 (out + (((c : Int) * Hh + h) * Ww + ((Ww : Int) - 1 - w)))) ∧
      (∀ j, (j < out ∨ out + (C : Int) * Hh * Ww ≤ j) → mem1 j = mem j ∧ mem2 j = mem j) := by
  obtain ⟨mem1, hrun1, hf1, hv1⟩ := Transform_spec T datum mem out r1 C Hh Ww hchk hC hHh hWw
  obtain ⟨mem2, hrun2, hf2, hv2⟩ := Transform_spec T datum mem out r2 C Hh Ww hchk hC hHh hWw
  refine ⟨_, mem1, _, mem2, hrun1, hrun2, fun c h w hc hh hw => ?_,
    fun j hj => ⟨hf1 j hj, hf2 j hj⟩⟩
  have hd1 : T.do_mirror r1 = true := by
    unfold DataTransformer.do_mirror; rw [hmirror, hodd]; rfl
  have hd2 : T.do_mirror r2 = false := by
    unfold DataTransformer.do_mirror; rw [hmirror, heven]; rfl
  have e1 := hv1 c h w hc hh hw
  have e2 := hv2 c h (Ww - 1 - w) hc hh (by omega)
  have cast : (((Ww - 1 - w : Nat) : Int)) = (Ww : Int) - 1 - w := by omega
  rw [cast] at e2
  rw [e1, e2, hd1, hd2, src_index_congr T datum r1 r2 hr1 hr2]
  simp [mirror_col]

/-- Witness of C4: the `4 × 4` sample with centre crop 2 and mirror enabled, the
triples `(1, 0, 0)` (odd) and `(2, 0, 0)` (even). -/
theorem C4_witness_mirror :
    ∃ T1 mem1 T2 mem2,
      test_crop2_mirror.Transform sample4x4 (fun _ => 0) 0 ⟨1, 0, 0⟩ = .ok (T1, mem1) ∧
      test_crop2_mirror.Transform sample4x4 (fun _ => 0) 0 ⟨2, 0, 0⟩ = .ok (T2, mem2) ∧
      (∀ c h w : Nat, c < 1 → h < 2 → w < 2 →
        mem1 ((0 : Int) + (((c : Int) * (2 : Nat) + h) * (2 : Nat) + w))
          = mem2 ((0 : Int) + (((c : Int) * (2 : Nat) + h) * (2 : Nat)
              + (((2 : Nat) : Int) - 1 - w)))) ∧
      (∀ j, (j < 0 ∨ (0 : Int) + ((1 : Nat) : Int) * (2 : Nat) * (2 : Nat) ≤ j) →
        mem1 j = (fun _ => (0 : ℚ)) j ∧ mem2 j = (fun _ => (0 : ℚ)) j) :=
  C4_mirror_flips_columns test_crop2_mirror sample4x4 (fun _ => 0) 0 ⟨1, 0, 0⟩ ⟨2, 0, 0⟩
    1 2 2 rfl
    ⟨by decide, by decide, by decide, fun h => by simp [test_crop2_mirror] at h,
      fun h => by simp [test_crop2_mirror] at h⟩
    rfl rfl rfl rfl rfl rfl rfl

/-! ## The random draw sequencer -/

/-- With a generator, `Fill3Randoms` draws for the enabled transforms only. -/
theorem Fill3Randoms_some (param : TransformationParameter) (phase : Phase)
    (data_mean : MeanBlob) (mean_values : List ℚ) (g : RNG) :
    (DataTransformer.mk param phase data_mean mean_values (some g)).Fill3Randoms
      = .ok
        (⟨if param.mirror = true then (g.stream 0 % 2 ^ 32 + 1) % 2 ^ 32 else 0,
          if phase = Phase.TRAIN ∧ param.crop_size ≠ 0 then
            (g.stream (if param.mirror = true then 1 else 0) % 2 ^ 32 + 1) % 2 ^ 32 else 0,
          if phase = Phase.TRAIN ∧ param.crop_size ≠ 0 then
            (g.stream ((if param.mirror = true then 1 else 0) + 1) % 2 ^ 32 + 1) % 2 ^ 32
          else 0⟩,
         DataTransformer.mk param phase data_mean mean_values
          (some ⟨fun n => g.stream (n + ((if param.mirror = true then 1 else 0)
            + (if phase = Phase.TRAIN ∧ param.crop_size ≠ 0 then 2 else 0)))⟩)) := by
  unfold DataTransformer.Fill3Randoms DataTransformer.Rand RNG.next
  by_cases hm : param.mirror = true <;> by_cases hc : phase = Phase.TRAIN ∧ param.crop_size ≠ 0
  · simp [hm, hc, Nat.add_assoc]
  · simp [hm, hc]
  · simp [hm, hc, Nat.add_assoc]
  · simp [hm, hc]

/-- Without a generator, `Fill3Randoms` fails exactly when a value has to be drawn. -/
theorem Fill3Randoms_none (param : TransformationParameter) (phase : Phase)
    (data_mean : MeanBlob) (mean_values : List ℚ) :
    (DataTransformer.mk param phase data_mean mean_values none).Fill3Randoms
      = if param.mirror = true ∨ (phase = Phase.TRAIN ∧ param.crop_size ≠ 0) then
          .error Fatal.no_rng
        else .ok (⟨0, 0, 0⟩, DataTransformer.mk param phase data_mean mean_values none) := by
  unfold DataTransformer.Fill3Randoms DataTransformer.Rand
  by_cases hm : param.mirror = true <;> by_cases hc : phase = Phase.TRAIN ∧ param.crop_size ≠ 0
  · simp [hm, hc]
  · simp [hm, hc]
  · simp [hm, hc]
  · simp [hm, hc]

/-- The transformer left by `Fill3Randoms` differs from the one it was called on in
the generator only. -/
theorem Fill3Randoms_state (T T1 : DataTransformer) (rand : Rand3)
    (h : T.Fill3Randoms = .ok (rand, T1)) :
    T1.param_ = T.param_ ∧ T1.phase_ = T.phase_ ∧ T1.data_mean_ = T.data_mean_ ∧
      T1.mean_values_ = T.mean_values_ := by
  obtain ⟨param, phase, dm, mv, g⟩ := T
  cases g with
  | none =>
    rw [Fill3Randoms_none] at h
    split at h
    · cases h
    · cases h; exact ⟨rfl, rfl, rfl, rfl⟩
  | some g =>
    rw [Fill3Randoms_some] at h
    cases h; exact ⟨rfl, rfl, rfl, rfl⟩

/-- With mirror disabled and no training crop, `Fill3Randoms` returns `(0, 0, 0)` and
leaves the transformer, generator included, as it was. -/
theorem Fill3Randoms_no_draw (T : DataTransformer) (hmirror : T.param_.mirror = false)
    (hcrop : T.phase_ = Phase.TEST ∨ T.param_.crop_size = 0) :
    T.Fill3Randoms = .ok (⟨0, 0, 0⟩, T) := by
  have hc : ¬ (T.phase_ = Phase.TRAIN ∧ T.param_.crop_size ≠ 0) := by
    rintro ⟨h1, h2⟩
    rcases hcrop with h | h
    · rw [h] at h1; cases h1
    · exact h2 h
  unfold DataTransformer.Fill3Randoms
  simp [hmirror, hc]

/-- Counterexample to C5: from the generator `0, 1, 2, ...` in phase TRAIN with
`crop_size = 2`, `Fill3Randoms` with mirror disabled takes two values (the next value
of the generator is `2`) and yields the crop entries `(1, 2)`, while with mirror
enabled it takes three (the next value is `3`) and yields the crop entries `(2, 3)`. -/
theorem C5_counterexample_draws_depend_on_mirror :
    (∃ T1, (train_crop2 false).Fill3Randoms = .ok (⟨0, 1, 2⟩, T1) ∧
      T1.rng_.map (fun g => g.stream 0) = some 2) ∧
    (∃ T2, (train_crop2 true).Fill3Randoms = .ok (⟨1, 2, 3⟩, T2) ∧
      T2.rng_.map (fun g => g.stream 0) = some 3) :=
  ⟨⟨_, rfl, rfl⟩, ⟨_, rfl, rfl⟩⟩

/-- C5 (amended): `Fill3Randoms` fills the three entries in the fixed order mirror,
height offset, width offset, and takes a value from the generator only for an enabled
transform: first one value for the mirror entry iff mirror is enabled, then two values
for the two crop entries iff the phase is TRAIN and `crop_size ≠ 0`; each drawn entry
is the value plus one modulo `2^32`, an entry without a draw is `0`, and the generator
is left advanced by exactly the values taken. Without a generator the call fails
exactly when some value has to be drawn. -/
theorem C5_Fill3Randoms_draws_only_enabled (param : TransformationParameter) (phase : Phase)
    (data_mean : MeanBlob) (mean_values : List ℚ) (g : RNG) :
    (DataTransformer.mk param phase data_mean mean_values (some g)).Fill3Randoms
      = .ok
        (⟨if param.mirror = true then (g.stream 0 % 2 ^ 32 + 1) % 2 ^ 32 else 0,
          if phase = Phase.TRAIN ∧ param.crop_size ≠ 0 then
            (g.stream (if param.mirror = true then 1 else 0) % 2 ^ 32 + 1) % 2 ^ 32 else 0,
          if phase = Phase.TRAIN ∧ param.crop_size ≠ 0 then
            (g.stream ((if param.mirror = true then 1 else 0) + 1) % 2 ^ 32 + 1) % 2 ^ 32
          else 0⟩,
         DataTransformer.mk param phase data_mean mean_values
          (some ⟨fun n => g.stream (n + ((if param.mirror = true then 1 else 0)
            + (if phase = Phase.TRAIN ∧ param.crop_size ≠ 0 then 2 else 0)))⟩)) ∧
    (DataTransformer.mk param phase data_mean mean_values none).Fill3Randoms
      = if param.mirror = true ∨ (phase = Phase.TRAIN ∧ param.crop_size ≠ 0) then
          .error Fatal.no_rng
        else .ok (⟨0, 0, 0⟩, DataTransformer.mk param phase data_mean mean_values none) :=
  ⟨Fill3Randoms_some param phase data_mean mean_values g,
    Fill3Randoms_none param phase data_mean mean_values⟩

/-! ## The blob entry point -/

/-- The dimension checks pass exactly when the blob has the channels of the datum, the
output height and width of the transform, and `num ≥ 1`, the datum being at least as
large as the crop. -/
theorem Transform_check_dimensions_ok_iff (T : DataTransformer) (datum : Datum) (blob : TBlob) :
    T.Transform_check_dimensions datum blob = .ok () ↔
      blob.channels = datum.channels ∧ blob.height = T.out_height datum ∧
      blob.width = T.out_width datum ∧ blob.num ≥ 1 ∧
      T.out_height datum ≤ datum.height ∧ T.out_width datum ≤ datum.width := by
  unfold DataTransformer.Transform_check_dimensions DataTransformer.out_height
    DataTransformer.out_width
  dsimp only
  by_cases hcr : (int_of_uint32 T.param_.crop_size) ≠ 0
  · simp only [if_pos hcr]
    constructor
    · intro h
      split_ifs at h with h1 h2 h3 h4 h5 h6
      refine ⟨by omega, by omega, by omega, by omega, by omega, by omega⟩
    · rintro ⟨h1, h2, h3, h4, h5, h6⟩
      rw [if_neg (by omega), if_neg (by omega), if_neg (by omega), if_neg (by omega),
        if_neg (by omega), if_neg (by omega)]
  · simp only [if_neg hcr]
    constructor
    · intro h
      split_ifs at h with h1 h2 h3 h4 h5 h6
      refine ⟨by omega, by omega, by omega, by omega, by omega, by omega⟩
    · rintro ⟨h1, h2, h3, h4, h5, h6⟩
      rw [if_neg (by omega), if_neg (by omega), if_neg (by omega), if_neg (by omega),
        if_neg (by omega), if_neg (by omega)]

/-- A successful call of the blob entry point on a raw datum in host mode: the
dimension checks passed, `Fill3Randoms` drew the triple and `Transform` ran with it. -/
theorem TransformBlob_raw_host_ok (ext : External) (T : DataTransformer) (datum : Datum)
    (blob : TBlob) (mem : Int → ℚ) (r : DataTransformer × (Int → ℚ))
    (henc : datum.encoded = false)
    (hhost : (T.param_.use_gpu_transform && ext.gpu_mode) = false)
    (h : T.TransformBlob ext datum blob mem = .ok r) :
    T.Transform_check_dimensions datum blob = .ok () ∧
    ∃ rand T1, T.Fill3Randoms = .ok (rand, T1) ∧
      T1.Transform datum mem blob.cpu_data rand = .ok r := by
  unfold DataTransformer.TransformBlob at h
  rw [henc] at h
  simp only [Bool.false_eq_true, if_false, hhost] at h
  cases hd : T.Transform_check_dimensions datum blob with
  | error e => rw [hd] at h; cases h
  | ok u =>
    rw [hd] at h
    refine ⟨rfl, ?_⟩
    cases hf : T.Fill3Randoms with
    | error e => rw [hf] at h; cases h
    | ok v =>
      obtain ⟨rand, T1⟩ := v
      rw [hf] at h
      exact ⟨rand, T1, rfl, h⟩

/-- The blob entry point on a raw datum in host mode, when the dimension checks pass
and `Fill3Randoms` returns. -/
theorem TransformBlob_raw_host_eq (ext : External) (T T1 : DataTransformer) (datum : Datum)
    (blob : TBlob) (mem : Int → ℚ) (rand : Rand3)
    (henc : datum.encoded = false)
    (hhost : (T.param_.use_gpu_transform && ext.gpu_mode) = false)
    (hd : T.Transform_check_dimensions datum blob = .ok ())
    (hf : T.Fill3Randoms = .ok (rand, T1)) :
    T.TransformBlob ext datum blob mem = T1.Transform datum mem blob.cpu_data rand := by
  unfold DataTransformer.TransformBlob
  rw [henc]
  simp only [Bool.false_eq_true, if_false, hhost, hd, hf]

/-- The crop offset does not depend on the draw unless the phase is TRAIN and a crop
is configured. -/
theorem crop_off_no_draw (phase : Phase) (crop_size : Nat) (dim : Int) (a b : Nat)
    (h : phase = Phase.TEST ∨ crop_size = 0) :
    crop_off phase (int_of_uint32 crop_size) dim a
      = crop_off phase (int_of_uint32 crop_size) dim b := by
  unfold crop_off
  rcases h with h | h
  · subst h
    have e : ¬ (Phase.TEST = Phase.TRAIN) := by decide
    simp only [e, if_false]
  · subst h
    simp only [int_of_uint32_zero, ne_eq, not_true_eq_false, if_false]

/-- C6: with mirror disabled and no random crop enabled (phase TEST, or
`crop_size = 0`), `Fill3Randoms` returns `(0, 0, 0)` and leaves the transformer and its
generator untouched (also without a generator), `Transform(datum, out, rand)` gives
the same result for every two rand triples, and a second call of the blob entry
point on a raw datum (host mode), made on the transformer the first call left,
returns the output of the first. -/
theorem C6_deterministic_without_random_transform (ext : External) (T : DataTransformer)
    (datum : Datum) (mem : Int → ℚ) (hmirror : T.param_.mirror = false)
    (hcrop : T.phase_ = Phase.TEST ∨ T.param_.crop_size = 0) :
    T.Fill3Randoms = .ok (⟨0, 0, 0⟩, T) ∧
    (∀ (out : Int) (r1 r2 : Rand3),
      T.Transform datum mem out r1 = T.Transform datum mem out r2) ∧
    (∀ (blob : TBlob) (T1 : DataTransformer) (mem1 : Int → ℚ), datum.encoded = false →
      (T.param_.use_gpu_transform && ext.gpu_mode) = false →
      T.TransformBlob ext datum blob mem = .ok (T1, mem1) →
      T1.TransformBlob ext datum blob mem = .ok (T1, mem1)) := by
  have hfill := Fill3Randoms_no_draw T hmirror hcrop
  refine ⟨hfill, fun out r1 r2 => ?_, fun blob T1 mem1 henc hhost hrun => ?_⟩
  · unfold DataTransformer.Transform
    simp only [hmirror, Bool.false_and]
    rw [crop_off_no_draw T.phase_ T.param_.crop_size datum.height r1.rand1 r2.rand1 hcrop,
      crop_off_no_draw T.phase_ T.param_.crop_size datum.width r1.rand2 r2.rand2 hcrop]
  · obtain ⟨hd, rand, T0, hf, ht⟩ :=
      TransformBlob_raw_host_ok ext T datum blob mem (T1, mem1) henc hhost hrun
    rw [hfill] at hf
    cases hf
    have hchk := Transform_checks_of_ok T datum mem blob.cpu_data ⟨0, 0, 0⟩ (T1, mem1) ht
    have hT1 : T.agrees { T with mean_values_ := T.mean_values_after datum.channels }
        datum.channels := ⟨rfl, rfl, rfl, Or.inr rfl⟩
    obtain ⟨mem', e1, e2⟩ := agrees_Transform T _ datum mem blob.cpu_data ⟨0, 0, 0⟩ hT1 hchk
    rw [ht] at e1
    cases e1
    have hfill1 := Fill3Randoms_no_draw
      { T with mean_values_ := T.mean_values_after datum.channels } hmirror hcrop
    rw [TransformBlob_raw_host_eq ext
      { T with mean_values_ := T.mean_values_after datum.channels }
      { T with mean_values_ := T.mean_values_after datum.channels }
      datum blob mem ⟨0, 0, 0⟩ henc hhost hd hfill1, e2]

/-- Witness of C6: the transformer of phase TEST with `crop_size = 2` and no mirror,
on the `4 × 4` sample. -/
theorem C6_witness_test_crop2 :
    test_crop2.Fill3Randoms = .ok (⟨0, 0, 0⟩, test_crop2) ∧
    (∀ (out : Int) (r1 r2 : Rand3),
      test_crop2.Transform sample4x4 (fun _ => 0) out r1
        = test_crop2.Transform sample4x4 (fun _ => 0) out r2) ∧
    (∀ (blob : TBlob) (T1 : DataTransformer) (mem1 : Int → ℚ), sample4x4.encoded = false →
      (test_crop2.param_.use_gpu_transform && host_only.gpu_mode) = false →
      test_crop2.TransformBlob host_only sample4x4 blob (fun _ => 0) = .ok (T1, mem1) →
      T1.TransformBlob host_only sample4x4 blob (fun _ => 0) = .ok (T1, mem1)) :=
  C6_deterministic_without_random_transform host_only test_crop2 sample4x4 (fun _ => 0)
    rfl (Or.inl rfl)

/-! ## Shape inference -/

/-- The code of `InferBlobShape` on a shape of four entries. -/
theorem InferBlobShape_four (T : DataTransformer) (N C H W : Int) (use_gpu : Bool) :
    T.InferBlobShape [N, C, H, W] use_gpu =
      if ¬ (N = 1) then .error .shape_num_1
      else if ¬ (C > 0) then .error .channels_gt_0
      else if ¬ (H ≥ (int_of_uint32 T.param_.crop_size)) then .error .height_ge_crop_size
      else if ¬ (W ≥ (int_of_uint32 T.param_.crop_size)) then .error .width_ge_crop_size
      else if use_gpu then .ok [1, C, H, W]
      else .ok [1, C,
        if (int_of_uint32 T.param_.crop_size) ≠ 0 then (int_of_uint32 T.param_.crop_size) else H,
        if (int_of_uint32 T.param_.crop_size) ≠ 0 then (int_of_uint32 T.param_.crop_size) else W] := rfl

/-- The output shape inferred for a raw datum in host mode. -/
theorem InferBlobShapeDatum_raw_host (ext : External) (T : DataTransformer) (datum : Datum)
    (shape : List Int) (henc : datum.encoded = false)
    (h : T.InferBlobShapeDatum ext datum false = .ok shape) :
    shape = [1, datum.channels, T.out_height datum, T.out_width datum] ∧
      0 < datum.channels ∧ T.out_height datum ≤ datum.height ∧
      T.out_width datum ≤ datum.width := by
  unfold DataTransformer.InferBlobShapeDatum DataTransformer.InferDatumShape at h
  rw [henc] at h
  simp only [Bool.false_eq_true, if_false] at h
  rw [InferBlobShape_four] at h
  rw [if_neg (by simp)] at h
  by_cases h1 : datum.channels > 0
  swap
  · rw [if_pos h1] at h; cases h
  rw [if_neg (not_not.mpr h1)] at h
  by_cases h2 : datum.height ≥ (int_of_uint32 T.param_.crop_size)
  swap
  · rw [if_pos h2] at h; cases h
  rw [if_neg (not_not.mpr h2)] at h
  by_cases h3 : datum.width ≥ (int_of_uint32 T.param_.crop_size)
  swap
  · rw [if_pos h3] at h; cases h
  rw [if_neg (not_not.mpr h3), if_neg (by simp)] at h
  cases h
  refine ⟨rfl, h1, ?_, ?_⟩
  · unfold DataTransformer.out_height; split <;> omega
  · unfold DataTransformer.out_width; split <;> omega

/-- C7: for a raw datum whose output shape `InferBlobShape(datum, host mode)` infers
successfully, the inferred shape is `(1, channels, height, width)` with the channels of
the datum and the height and width of the region `Transform` writes; the dimension
checks of `Transform(datum, blob)` pass exactly for the blobs with these channels,
height and width and `num ≥ 1`, and the call fails for every other blob. -/
theorem C7_inferred_shape_is_transform_shape (ext : External) (T : DataTransformer)
    (datum : Datum) (shape : List Int) (henc : datum.encoded = false)
    (h : T.InferBlobShapeDatum ext datum false = .ok shape) :
    ∃ c hh w : Int, shape = [1, c, hh, w] ∧
      c = datum.channels ∧ hh = T.out_height datum ∧ w = T.out_width datum ∧
      (∀ blob : TBlob, T.Transform_check_dimensions datum blob = .ok () ↔
        (blob.channels = c ∧ blob.height = hh ∧ blob.width = w ∧ blob.num ≥ 1)) ∧
      (∀ (blob : TBlob) (mem : Int → ℚ),
        ¬ (blob.channels = c ∧ blob.height = hh ∧ blob.width = w ∧ blob.num ≥ 1) →
        ∃ e, T.TransformBlob ext datum blob mem = .error e) := by
  obtain ⟨hs, _, h2, h3⟩ := InferBlobShapeDatum_raw_host ext T datum shape henc h
  have key : ∀ blob : TBlob, T.Transform_check_dimensions datum blob = .ok () ↔
      (blob.channels = datum.channels ∧ blob.height = T.out_height datum ∧
        blob.width = T.out_width datum ∧ blob.num ≥ 1) := by
    intro blob
    rw [Transform_check_dimensions_ok_iff]
    constructor
    · rintro ⟨a, b, c, d, _, _⟩; exact ⟨a, b, c, d⟩
    · rintro ⟨a, b, c, d⟩; exact ⟨a, b, c, d, h2, h3⟩
  refine ⟨_, _, _, hs, rfl, rfl, rfl, key, fun blob mem hne => ?_⟩
  have hd : T.Transform_check_dimensions datum blob ≠ .ok () := fun hd => hne ((key blob).1 hd)
  unfold DataTransformer.TransformBlob
  rw [henc]
  simp only [Bool.false_eq_true, if_false]
  cases hc : T.Transform_check_dimensions datum blob with
  | error e => exact ⟨e, rfl⟩
  | ok u => exact absurd hc hd

/-- Witness of C7: the `4 × 4` sample and the transformer of phase TEST with
`crop_size = 2`, whose inferred shape is `(1, 1, 2, 2)`. -/
theorem C7_witness_sample4x4 :
    ∃ c hh w : Int, [1, 1, 2, 2] = [1, c, hh, w] ∧
      c = sample4x4.channels ∧ hh = test_crop2.out_height sample4x4 ∧
      w = test_crop2.out_width sample4x4 ∧
      (∀ blob : TBlob, test_crop2.Transform_check_dimensions sample4x4 blob = .ok () ↔
        (blob.channels = c ∧ blob.height = hh ∧ blob.width = w ∧ blob.num ≥ 1)) ∧
      (∀ (blob : TBlob) (mem : Int → ℚ),
        ¬ (blob.channels = c ∧ blob.height = hh ∧ blob.width = w ∧ blob.num ≥ 1) →
        ∃ e, test_crop2.TransformBlob host_only sample4x4 blob mem = .error e) :=
  C7_inferred_shape_is_transform_shape host_only test_crop2 sample4x4 [1, 1, 2, 2] rfl rfl

/-- C8 (divergence): `InferBlobShape` compares the dimensions with the local
`const int crop_size`, the configured `uint32` value converted to `int`. For a
configured `crop_size < 2^31` the claim holds: on `(1, C, H, W)` with `C > 0`,
`H ≥ crop_size` and `W ≥ crop_size` the call returns `(1, C, crop_size, crop_size)`
when `crop_size > 0` in host mode and `(1, C, H, W)` when `crop_size = 0` or in device
mode, and it fails in both modes when `H < crop_size` or `W < crop_size`. For a
configured `2^31 ≤ crop_size < 2^32` the local is the negative number
`crop_size - 2^32`: for every `C > 0` and `0 ≤ H, W < 2^31`, although `H < crop_size`
and `W < crop_size`, both checks pass and the call returns
`(1, C, crop_size - 2^32, crop_size - 2^32)` in host mode and `(1, C, H, W)` in device
mode. -/
theorem C8_InferBlobShape (T : DataTransformer) (C H W : Int) :
    (T.param_.crop_size < 2 ^ 31 →
      (0 < C → (T.param_.crop_size : Int) ≤ H → (T.param_.crop_size : Int) ≤ W →
        (0 < T.param_.crop_size → T.InferBlobShape [1, C, H, W] false
          = .ok [1, C, (T.param_.crop_size : Int), (T.param_.crop_size : Int)]) ∧
        (T.param_.crop_size = 0 → T.InferBlobShape [1, C, H, W] false = .ok [1, C, H, W]) ∧
        T.InferBlobShape [1, C, H, W] true = .ok [1, C, H, W]) ∧
      ((H < (T.param_.crop_size : Int) ∨ W < (T.param_.crop_size : Int)) →
        ∀ use_gpu : Bool, ∃ e, T.InferBlobShape [1, C, H, W] use_gpu = .error e)) ∧
    (2 ^ 31 ≤ T.param_.crop_size → T.param_.crop_size < 2 ^ 32 → 0 < C →
      0 ≤ H → H < 2 ^ 31 → 0 ≤ W → W < 2 ^ 31 →
      H < (T.param_.crop_size : Int) ∧ W < (T.param_.crop_size : Int) ∧
      T.InferBlobShape [1, C, H, W] false
        = .ok [1, C, (T.param_.crop_size : Int) - 2 ^ 32, (T.param_.crop_size : Int) - 2 ^ 32] ∧
      T.InferBlobShape [1, C, H, W] true = .ok [1, C, H, W]) := by
  constructor
  · intro h31
    have e31 := int_of_uint32_of_lt _ h31
    constructor
    · intro hC hH hW
      refine ⟨fun hc => ?_, fun hc => ?_, ?_⟩
      · have : (T.param_.crop_size : Int) ≠ 0 := by omega
        rw [InferBlobShape_four, e31, if_neg (by simp), if_neg (by omega), if_neg (by omega),
          if_neg (by omega), if_neg (by simp), if_pos this, if_pos this]
      · have : ¬ ((T.param_.crop_size : Int) ≠ 0) := by simp [hc]
        rw [InferBlobShape_four, e31, if_neg (by simp), if_neg (by omega), if_neg (by omega),
          if_neg (by omega), if_neg (by simp), if_neg this, if_neg this]
      · rw [InferBlobShape_four, e31, if_neg (by simp), if_neg (by omega), if_neg (by omega),
          if_neg (by omega), if_pos rfl]
    · intro h use_gpu
      rw [InferBlobShape_four, e31, if_neg (by simp)]
      by_cases hC : C > 0
      · rw [if_neg (not_not.mpr hC)]
        by_cases hH : H ≥ (T.param_.crop_size : Int)
        · have hW : ¬ (W ≥ (T.param_.crop_size : Int)) := by omega
          rw [if_neg (not_not.mpr hH), if_pos hW]
          exact ⟨_, rfl⟩
        · rw [if_pos hH]
          exact ⟨_, rfl⟩
      · rw [if_pos hC]
        exact ⟨_, rfl⟩
  · intro h31 h32 hC hH hH2 hW hW2
    obtain ⟨e, hneg⟩ := int_of_uint32_of_ge _ h31 h32
    have hne : int_of_uint32 T.param_.crop_size ≠ 0 := by omega
    have hlt : (2 : Int) ^ 31 ≤ (T.param_.crop_size : Int) := by exact_mod_cast h31
    refine ⟨by omega, by omega, ?_, ?_⟩
    · rw [InferBlobShape_four, if_neg (by simp), if_neg (by omega), if_neg (by omega),
        if_neg (by omega), if_neg (by simp), if_pos hne, if_pos hne, e]
    · rw [InferBlobShape_four, if_neg (by simp), if_neg (by omega), if_neg (by omega),
        if_neg (by omega), if_pos rfl]

/-- Witness of C8: the configured `crop_size = 4294967295` on the shape `(1, 3, 8, 6)`:
both dimensions are below the configured value, yet the call returns
`(1, 3, -1, -1)`. -/
theorem C8_witness_crop_4294967295 :
    (8 : Int) < (test_crop_4294967295.param_.crop_size : Int) ∧
    (6 : Int) < (test_crop_4294967295.param_.crop_size : Int) ∧
    test_crop_4294967295.InferBlobShape [1, 3, 8, 6] false = .ok [1, 3, -1, -1] ∧
    test_crop_4294967295.InferBlobShape [1, 3, 8, 6] true = .ok [1, 3, 8, 6] :=
  (C8_InferBlobShape test_crop_4294967295 3 8 6).2 (by decide) (by decide) (by decide)
    (by decide) (by decide) (by decide) (by decide)

/-! ## Shapes of the variable-sized pipeline -/

/-- Counterexample to C9: with `crop_size = 2 > 0` and the random-resize bounds
`lower = 5`, `upper = 0`, `var_sized_transforms_shape` fails on the shape
`(1, 3, 8, 8)` at the test of the bounds instead of returning `(1, 3, 2, 2)`. -/
theorem C9_counterexample_mismatched_bounds :
    0 < train_crop2_resize_5_0.param_.crop_size ∧
    train_crop2_resize_5_0.var_sized_transforms_shape [1, 3, 8, 8]
      = .error Fatal.resize_bounds ∧
    train_crop2_resize_5_0.var_sized_transforms_shape [1, 3, 8, 8] ≠ .ok [1, 3, 2, 2] :=
  ⟨by decide, rfl, fun h => by
    have e : train_crop2_resize_5_0.var_sized_transforms_shape [1, 3, 8, 8]
        = .error Fatal.resize_bounds := rfl
    rw [e] at h
    cases h⟩

/-- C9 (amended): for every shape of four axes `(N, C, H, W)`,
`var_sized_transforms_shape` fails when exactly one random-resize bound is nonzero;
otherwise it returns `(1, C, crop_size, crop_size)` whenever `crop_size > 0` (in both
phases, with or without resize; the two entries are the configured value converted to
`int`, which is the value itself below `2^31`), fails when the resize is enabled and `crop_size = 0`,
and without any step returns the input shape unless its height or width is `0`. When
the bounds are both zero or both nonzero, this is the shape after the enabled steps in
the order random resize, random crop, centre crop, returned when its height and width
are nonzero, the call failing exactly when one of them is `0`. -/
theorem C9_var_sized_transforms_shape (T : DataTransformer) (N C H W : Int) :
    T.var_sized_transforms_shape [N, C, H, W] =
      (if (T.param_.img_rand_resize_lower = 0 ∧ T.param_.img_rand_resize_upper ≠ 0) ∨
          (T.param_.img_rand_resize_lower ≠ 0 ∧ T.param_.img_rand_resize_upper = 0) then
        .error Fatal.resize_bounds
      else if 0 < T.param_.crop_size then
        .ok [1, C, (int_of_uint32 T.param_.crop_size), (int_of_uint32 T.param_.crop_size)]
      else if T.param_.img_rand_resize_lower ≠ 0 then .error Fatal.var_sized_height_0
      else if H = 0 then .error Fatal.var_sized_height_0
      else if W = 0 then .error Fatal.var_sized_width_0
      else .ok [N, C, H, W]) ∧
    (((T.param_.img_rand_resize_lower = 0 ∧ T.param_.img_rand_resize_upper = 0) ∨
        (T.param_.img_rand_resize_lower ≠ 0 ∧ T.param_.img_rand_resize_upper ≠ 0)) →
      ((var_sized_steps (decide (T.param_.img_rand_resize_lower ≠ 0))
            T.var_sized_image_random_crop_enabled T.var_sized_image_center_crop_enabled
            (int_of_uint32 T.param_.crop_size) [N, C, H, W]).getD 2 0 ≠ 0 ∧
          (var_sized_steps (decide (T.param_.img_rand_resize_lower ≠ 0))
            T.var_sized_image_random_crop_enabled T.var_sized_image_center_crop_enabled
            (int_of_uint32 T.param_.crop_size) [N, C, H, W]).getD 3 0 ≠ 0 →
        T.var_sized_transforms_shape [N, C, H, W]
          = .ok (var_sized_steps (decide (T.param_.img_rand_resize_lower ≠ 0))
            T.var_sized_image_random_crop_enabled T.var_sized_image_center_crop_enabled
            (int_of_uint32 T.param_.crop_size) [N, C, H, W])) ∧
      ((var_sized_steps (decide (T.param_.img_rand_resize_lower ≠ 0))
            T.var_sized_image_random_crop_enabled T.var_sized_image_center_crop_enabled
            (int_of_uint32 T.param_.crop_size) [N, C, H, W]).getD 2 0 = 0 ∨
          (var_sized_steps (decide (T.param_.img_rand_resize_lower ≠ 0))
            T.var_sized_image_random_crop_enabled T.var_sized_image_center_crop_enabled
            (int_of_uint32 T.param_.crop_size) [N, C, H, W]).getD 3 0 = 0 ↔
        ∃ e, T.var_sized_transforms_shape [N, C, H, W] = .error e)) := by
  unfold DataTransformer.var_sized_transforms_shape
    DataTransformer.var_sized_image_random_resize_shape
    DataTransformer.var_sized_image_random_crop_shape
    DataTransformer.var_sized_image_center_crop_shape
    DataTransformer.var_sized_image_random_resize_enabled
    DataTransformer.var_sized_image_random_crop_enabled
    DataTransformer.var_sized_image_center_crop_enabled
    var_sized_steps
  by_cases hl : T.param_.img_rand_resize_lower = 0 <;>
    by_cases hu : T.param_.img_rand_resize_upper = 0 <;>
    by_cases hc : T.param_.crop_size = 0 <;>
    rcases hph : T.phase_ <;> by_cases hH : H = 0 <;> by_cases hW : W = 0 <;>
    simp [hl, hu, hc, hH, hW, Nat.pos_iff_ne_zero, int_of_uint32_eq_zero_iff]

/-- Witness of C9 (amended): phase TEST, `crop_size = 2`, no resize, on the shape
`(1, 3, 8, 6)`: the centre crop yields `(1, 3, 2, 2)`. -/
theorem C9_witness_center_crop :
    test_crop2.var_sized_transforms_shape [1, 3, 8, 6]
      = .ok (var_sized_steps false false true 2 [1, 3, 8, 6]) :=
  ((C9_var_sized_transforms_shape test_crop2 1 3 8 6).2 (Or.inl ⟨rfl, rfl⟩)).1
    ⟨by decide, by decide⟩

/-! ## The batch driver -/

/-- The checks of `Transform` pass for a transformer that agrees with `T` exactly when
they pass for `T`. -/
theorem agrees_checks_iff (T T1 : DataTransformer) (datum : Datum)
    (ha : T.agrees T1 datum.channels) :
    T1.Transform_checks datum ↔ T.Transform_checks datum := by
  obtain ⟨hp, _, hdm, hmv⟩ := ha
  unfold DataTransformer.Transform_checks
  rw [hp, hdm]
  have key : (T1.mean_values_.length > 0 →
        T1.mean_values_.length = 1 ∨ (T1.mean_values_.length : Int) = datum.channels) ↔
      (T.mean_values_.length > 0 →
        T.mean_values_.length = 1 ∨ (T.mean_values_.length : Int) = datum.channels) := by
    rcases hmv with h | h
    · rw [h]
    · by_cases hcond : decide (T.mean_values_.length > 0) = true ∧ datum.channels > 1 ∧
          T.mean_values_.length = 1
      · obtain ⟨m, hm⟩ := List.length_eq_one.mp hcond.2.2
        have h1 : T1.mean_values_ = List.replicate datum.channels.toNat m := by
          rw [h]; unfold DataTransformer.mean_values_after
          rw [if_pos hcond, hm, replicate_mean_value_singleton m _ (by omega)]
        have hl : T1.mean_values_.length = datum.channels.toNat := by
          rw [h1, List.length_replicate]
        have hC1 : datum.channels > 1 := hcond.2.1
        constructor
        · intro _ _; exact Or.inl hcond.2.2
        · intro _ _; right; rw [hl]; omega
      · have h1 : T1.mean_values_ = T.mean_values_ := by
          rw [h]; unfold DataTransformer.mean_values_after
          rw [if_neg hcond]
        rw [h1]
  rw [key]

/-- Changing `mean_values_` does not change what `Fill3Randoms` draws. -/
theorem Fill3Randoms_mean_values (T : DataTransformer) (mv : List ℚ) :
    ({ T with mean_values_ := mv }).Fill3Randoms
      = (T.Fill3Randoms).map (fun r => (r.1, { r.2 with mean_values_ := mv })) := by
  obtain ⟨param, phase, dm, mv0, g⟩ := T
  cases g with
  | none =>
    simp only [Fill3Randoms_none]
    split <;> rfl
  | some g =>
    simp only [Fill3Randoms_some]
    rfl

/-- Changing `mean_values_` does not change the triples successive calls draw. -/
theorem nth_Fill3Randoms_mean_values (k : Nat) (T : DataTransformer) (mv : List ℚ) :
    ({ T with mean_values_ := mv }).nth_Fill3Randoms k
      = (T.nth_Fill3Randoms k).map (fun r => (r.1, { r.2 with mean_values_ := mv })) := by
  induction k generalizing T with
  | zero =>
    unfold DataTransformer.nth_Fill3Randoms
    exact Fill3Randoms_mean_values T mv
  | succ k ih =>
    unfold DataTransformer.nth_Fill3Randoms
    rw [Fill3Randoms_mean_values]
    cases hf : T.Fill3Randoms with
    | error e => rfl
    | ok v =>
      obtain ⟨r, T1⟩ := v
      simp only [Except.map]
      exact ih T1

/-- The triple drawn by a transformer with other mean values, when the original
draws one. -/
theorem nth_Fill3Randoms_of_mean_values (k : Nat) (T : DataTransformer) (mv : List ℚ)
    (rand : Rand3) (Tk : DataTransformer)
    (h : ({ T with mean_values_ := mv }).nth_Fill3Randoms k = .ok (rand, Tk)) :
    ∃ Tk', T.nth_Fill3Randoms k = .ok (rand, Tk') := by
  rw [nth_Fill3Randoms_mean_values] at h
  cases hf : T.nth_Fill3Randoms k with
  | error e => rw [hf] at h; cases h
  | ok v =>
    obtain ⟨r, T1⟩ := v
    rw [hf] at h
    simp only [Except.map] at h
    cases h
    exact ⟨T1, rfl⟩

/-- The offset of sample `item_id` in a blob of `C × Hh × Ww` samples. -/
theorem TBlob_offset_eq (blob : TBlob) (item_id : Int) :
    blob.offset item_id = item_id * (blob.channels * blob.height * blob.width) := by
  unfold TBlob.offset
  ring

/-- The loop of the batch driver on raw datums in host mode, started at `item_id` on a
transformer `Tc` that agrees with `T0`: the memory outside the regions of the samples
is unchanged, and the region of each sample holds what `T0.Transform` writes for it
under the triple drawn for it. -/
theorem TransformVector_loop_spec (ext : External) (blob : TBlob) (T0 : DataTransformer)
    (C Hh Ww : Nat) (hC : blob.channels = (C : Int)) (hH : blob.height = (Hh : Int))
    (hW : blob.width = (Ww : Int))
    (hhost : (T0.param_.use_gpu_transform && ext.gpu_mode) = false) :
    ∀ (ds : List Datum) (item_id : Nat) (Tc : DataTransformer) (mem : Int → ℚ)
      (r : DataTransformer × (Int → ℚ)),
      (∀ d ∈ ds, d.encoded = false) → T0.agrees Tc blob.channels →
      DataTransformer.TransformVector_loop ext blob item_id ds Tc mem = .ok r →
      (∀ j, (j < blob.cpu_data + (item_id : Int) * ((C : Int) * Hh * Ww) ∨
          blob.cpu_data + ((item_id : Int) + ds.length) * ((C : Int) * Hh * Ww) ≤ j) →
        r.2 j = mem j) ∧
      (∀ (k : Nat) (d : Datum), ds[k]? = some d →
        ∃ rand Tk, Tc.nth_Fill3Randoms k = .ok (rand, Tk) ∧
          ∀ mem0 : Int → ℚ, ∃ r0,
            T0.Transform d mem0
              (blob.cpu_data + ((item_id : Int) + k) * ((C : Int) * Hh * Ww)) rand = .ok r0 ∧
            ∀ j, 0 ≤ j → j < (C : Int) * Hh * Ww →
              r.2 (blob.cpu_data + ((item_id : Int) + k) * ((C : Int) * Hh * Ww) + j)
                = r0.2 (blob.cpu_data + ((item_id : Int) + k) * ((C : Int) * Hh * Ww) + j)) := by
  intro ds
  have hS : (0 : Int) ≤ (C : Int) * Hh * Ww := by positivity
  induction ds with
  | nil =>
    intro item_id Tc mem r _ _ hrun
    unfold DataTransformer.TransformVector_loop at hrun
    cases hrun
    exact ⟨fun j _ => rfl, fun k d hk => by simp at hk⟩
  | cons d rest ih =>
    intro item_id Tc mem r henc ha hrun
    unfold DataTransformer.TransformVector_loop at hrun
    simp only at hrun
    cases hb : Tc.TransformBlob ext d
        { num := 1, channels := blob.channels, height := blob.height, width := blob.width,
          cpu_data := blob.cpu_data + blob.offset (item_id : Int) } mem with
    | error e => rw [hb] at hrun; cases hrun
    | ok v =>
      obtain ⟨T1, mem1⟩ := v
      rw [hb] at hrun
      simp only at hrun
      have hencd : d.encoded = false := henc d (List.mem_cons_self d rest)
      have hhostc : (Tc.param_.use_gpu_transform && ext.gpu_mode) = false := by
        rw [ha.1]; exact hhost
      obtain ⟨hd, rand, Tc1, hfill, htr⟩ :=
        TransformBlob_raw_host_ok ext Tc d _ mem (T1, mem1) hencd hhostc hb
      rw [Transform_check_dimensions_ok_iff] at hd
      obtain ⟨hdc, hdh, hdw, _, _, _⟩ := hd
      simp only at hdc hdh hdw htr
      rw [TBlob_offset_eq, hC, hH, hW] at htr
      -- the transformer after the draw agrees with `T0`
      obtain ⟨s1, s2, s3, s4⟩ := Fill3Randoms_state Tc Tc1 rand hfill
      have ha1 : T0.agrees Tc1 d.channels := by
        rw [← hdc]
        exact ⟨s1.trans ha.1, s2.trans ha.2.1, s3.trans ha.2.2.1, by rw [s4]; exact ha.2.2.2⟩
      have hchk1 := Transform_checks_of_ok Tc1 d mem _ rand (T1, mem1) htr
      have hchk0 : T0.Transform_checks d := (agrees_checks_iff T0 Tc1 d ha1).1 hchk1
      have hdC : d.channels = (C : Int) := by rw [← hdc, hC]
      have hoh : T0.out_height d = (Hh : Int) := by
        have : T0.out_height d = Tc.out_height d := by
          unfold DataTransformer.out_height; rw [ha.1]
        rw [this, ← hdh, hH]
      have how : T0.out_width d = (Ww : Int) := by
        have : T0.out_width d = Tc.out_width d := by
          unfold DataTransformer.out_width; rw [ha.1]
        rw [this, ← hdw, hW]
      obtain ⟨mem', e0, e1⟩ := agrees_Transform T0 Tc1 d mem
        (blob.cpu_data + (item_id : Int) * ((C : Int) * Hh * Ww)) rand ha1 hchk0
      rw [htr] at e1
      cases e1
      have ha2 : T0.agrees
          { Tc1 with mean_values_ := T0.mean_values_after d.channels } blob.channels :=
        ⟨ha1.1, ha1.2.1, ha1.2.2.1, Or.inr (by rw [hdc])⟩
      obtain ⟨ihf, ihv⟩ := ih (item_id + 1) _ mem1 r
        (fun x hx => henc x (List.mem_cons_of_mem d hx)) ha2 hrun
      obtain ⟨m0, em0, hf0, _⟩ := Transform_spec T0 d mem
        (blob.cpu_data + (item_id : Int) * ((C : Int) * Hh * Ww)) rand C Hh Ww hchk0 hdC hoh how
      rw [e0] at em0
      cases em0
      have hlen : (0 : Int) ≤ (rest.length : Int) * ((C : Int) * Hh * Ww) :=
        mul_nonneg (Int.natCast_nonneg _) hS
      constructor
      · intro j hj
        have c1 : ((item_id + 1 : Nat) : Int) * ((C : Int) * Hh * Ww)
            = (item_id : Int) * ((C : Int) * Hh * Ww) + (C : Int) * Hh * Ww := by
          push_cast; ring
        have c2 : (((item_id + 1 : Nat) : Int) + (rest.length : Int)) * ((C : Int) * Hh * Ww)
            = (item_id : Int) * ((C : Int) * Hh * Ww) + (C : Int) * Hh * Ww
              + (rest.length : Int) * ((C : Int) * Hh * Ww) := by
          push_cast; ring
        have c3 : ((item_id : Int) + ((d :: rest).length : Int)) * ((C : Int) * Hh * Ww)
            = (item_id : Int) * ((C : Int) * Hh * Ww) + (C : Int) * Hh * Ww
              + (rest.length : Int) * ((C : Int) * Hh * Ww) := by
          simp only [List.length_cons]; push_cast; ring
        rw [c3] at hj
        rw [ihf j (by rw [c1, c2]; rcases hj with h | h
                      · left; linarith
                      · right; linarith)]
        exact hf0 j (by rcases hj with h | h
                        · left; linarith
                        · right; linarith)
      · intro k d' hk
        cases k with
        | zero =>
          simp only [List.getElem?_cons_zero, Option.some.injEq] at hk
          subst hk
          refine ⟨rand, Tc1, hfill, fun mem0 => ?_⟩
          obtain ⟨m1, em1, _, _⟩ := Transform_spec T0 d mem0
            (blob.cpu_data + (item_id : Int) * ((C : Int) * Hh * Ww)) rand C Hh Ww
            hchk0 hdC hoh how
          have z : (blob.cpu_data + ((item_id : Int) + ((0 : Nat) : Int)) * ((C : Int) * Hh * Ww))
              = blob.cpu_data + (item_id : Int) * ((C : Int) * Hh * Ww) := by
            push_cast; ring
          rw [z]
          refine ⟨_, em1, fun j hj0 hj1 => ?_⟩
          have c1 : ((item_id + 1 : Nat) : Int) * ((C : Int) * Hh * Ww)
              = (item_id : Int) * ((C : Int) * Hh * Ww) + (C : Int) * Hh * Ww := by
            push_cast; ring
          rw [ihf _ (by left; rw [c1]; linarith)]
          exact Transform_region_indep T0 d mem mem0 _ rand C Hh Ww _ _ hdC hoh how e0 em1
            j hj0 hj1
        | succ k =>
          simp only [List.getElem?_cons_succ] at hk
          obtain ⟨rand', Tk, hnth, hv⟩ := ihv k d' hk
          obtain ⟨Tk', hnth'⟩ := nth_Fill3Randoms_of_mean_values k Tc1 _ rand' Tk hnth
          have hn : Tc.nth_Fill3Randoms (k + 1) = .ok (rand', Tk') := by
            rw [DataTransformer.nth_Fill3Randoms, hfill]
            exact hnth'
          refine ⟨rand', Tk', hn, fun mem0 => ?_⟩
          have z : ((item_id : Int) + ((k + 1 : Nat) : Int))
              = (((item_id + 1 : Nat) : Int) + (k : Int)) := by
            push_cast; ring
          rw [z]
          exact hv mem0

/-- C10: after a successful `Transform(vector<Datum>, blob)` on raw datums in host
mode, the batch has `1 ≤ n ≤ num` samples; for each `i < n` the region
`[i*C*H'*W', (i+1)*C*H'*W')` of the output holds exactly what the single-sample
`Transform` writes there for sample `i` under the `i`-th triple that successive calls
of `Fill3Randoms` draw (whatever the memory that call starts from); the regions of
distinct samples are disjoint; and the cells at index `≥ n*C*H'*W'` (or below `0`) are
left unchanged.  The blob has a height `≥ 0`, as every `Blob` has (`Reshape` checks
`CHECK_GE(shape[i], 0)`); the model carries the dimensions as integers. -/
theorem C10_batch_regions (ext : External) (T : DataTransformer) (datum_vector : List Datum)
    (blob : TBlob) (mem : Int → ℚ) (T' : DataTransformer) (mem' : Int → ℚ)
    (hraw : ∀ d ∈ datum_vector, d.encoded = false)
    (hhost : (T.param_.use_gpu_transform && ext.gpu_mode) = false)
    (hblob : 0 ≤ blob.height)
    (hrun : T.TransformVector ext datum_vector blob mem = .ok (T', mem')) :
    1 ≤ datum_vector.length ∧ (datum_vector.length : Int) ≤ blob.num ∧
    (∀ (i : Nat) (d : Datum), datum_vector[i]? = some d →
      ∃ rand Ti, T.nth_Fill3Randoms i = .ok (rand, Ti) ∧
        ∀ mem0 : Int → ℚ, ∃ r0,
          T.Transform d mem0
            (blob.cpu_data + (i : Int) * (blob.channels * blob.height * blob.width)) rand
            = .ok r0 ∧
          ∀ j, 0 ≤ j → j < blob.channels * blob.height * blob.width →
            mem' (blob.cpu_data + (i : Int) * (blob.channels * blob.height * blob.width) + j)
              = r0.2 (blob.cpu_data
                  + (i : Int) * (blob.channels * blob.height * blob.width) + j)) ∧
    (∀ (i i' : Nat) (j j' : Int), i ≠ i' →
      0 ≤ j → j < blob.channels * blob.height * blob.width →
      0 ≤ j' → j' < blob.channels * blob.height * blob.width →
      (i : Int) * (blob.channels * blob.height * blob.width) + j
        ≠ (i' : Int) * (blob.channels * blob.height * blob.width) + j') ∧
    (∀ j, (j < 0 ∨
        (datum_vector.length : Int) * (blob.channels * blob.height * blob.width) ≤ j) →
      mem' (blob.cpu_data + j) = mem (blob.cpu_data + j)) := by
  unfold DataTransformer.TransformVector at hrun
  simp only at hrun
  by_cases hn0 : (datum_vector.length : Int) > 0
  swap
  · rw [if_pos hn0] at hrun; cases hrun
  rw [if_neg (not_not.mpr hn0)] at hrun
  by_cases hn1 : (datum_vector.length : Int) ≤ blob.num
  swap
  · rw [if_pos hn1] at hrun; cases hrun
  rw [if_neg (not_not.mpr hn1)] at hrun
  have hdisj : ∀ (i i' : Nat) (j j' : Int), i ≠ i' →
      0 ≤ j → j < blob.channels * blob.height * blob.width →
      0 ≤ j' → j' < blob.channels * blob.height * blob.width →
      (i : Int) * (blob.channels * blob.height * blob.width) + j
        ≠ (i' : Int) * (blob.channels * blob.height * blob.width) + j' := by
    intro i i' j j' hne hj0 hj1 hj0' hj1' heq
    rcases Nat.lt_or_gt_of_ne hne with h | h
    · have h' : (i : Int) + 1 ≤ i' := by exact_mod_cast h
      have := mul_le_mul_of_nonneg_right h'
        (le_trans hj0 (le_of_lt hj1) : (0 : Int) ≤ blob.channels * blob.height * blob.width)
      linarith
    · have h' : (i' : Int) + 1 ≤ i := by exact_mod_cast h
      have := mul_le_mul_of_nonneg_right h'
        (le_trans hj0 (le_of_lt hj1) : (0 : Int) ≤ blob.channels * blob.height * blob.width)
      linarith
  -- the dimensions of the blob are those of the output of the first sample
  obtain ⟨C, Hh, Ww, hC, hH, hW⟩ : ∃ C Hh Ww : Nat, blob.channels = (C : Int) ∧
      blob.height = (Hh : Int) ∧ blob.width = (Ww : Int) := by
    cases hds : datum_vector with
    | nil => rw [hds] at hn0; simp at hn0
    | cons d rest =>
      rw [hds] at hrun hraw
      unfold DataTransformer.TransformVector_loop at hrun
      simp only at hrun
      cases hb : T.TransformBlob ext d
          { num := 1, channels := blob.channels, height := blob.height, width := blob.width,
            cpu_data := blob.cpu_data + blob.offset ((0 : Nat) : Int) } mem with
      | error e => rw [hb] at hrun; cases hrun
      | ok v =>
        obtain ⟨hd, rand, Tc1, hfill, htr⟩ :=
          TransformBlob_raw_host_ok ext T d _ mem v (hraw d (List.mem_cons_self d rest))
            hhost hb
        rw [Transform_check_dimensions_ok_iff] at hd
        obtain ⟨hdc, hdh, hdw, _, _, _⟩ := hd
        simp only at hdc hdh hdw
        have hchk1 := Transform_checks_of_ok Tc1 d mem _ rand v htr
        obtain ⟨s1, _, _, _⟩ := Fill3Randoms_state T Tc1 rand hfill
        have hcr : 0 ≤ int_of_uint32 Tc1.param_.crop_size := by
          rw [s1]
          unfold DataTransformer.out_height at hdh
          by_cases h0 : int_of_uint32 T.param_.crop_size = 0
          · omega
          · rw [if_pos h0] at hdh; omega
        obtain ⟨C, Hh, Ww, _, e1, e2, e3⟩ := Transform_dims Tc1 d hchk1 hcr
        refine ⟨C, Hh, Ww, by rw [hdc, e1], ?_, ?_⟩
        · rw [hdh, ← e2]; unfold DataTransformer.out_height; rw [s1]
        · rw [hdw, ← e3]; unfold DataTransformer.out_width; rw [s1]
  obtain ⟨hf, hv⟩ := TransformVector_loop_spec ext blob T C Hh Ww hC hH hW hhost
    datum_vector 0 T mem (T', mem') hraw (agrees_refl T blob.channels) hrun
  rw [hC, hH, hW] at hdisj ⊢
  refine ⟨by omega, hn1, fun i d hi => ?_, hdisj, fun j hj => ?_⟩
  · obtain ⟨rand, Ti, hnth, h⟩ := hv i d hi
    refine ⟨rand, Ti, hnth, fun mem0 => ?_⟩
    obtain ⟨r0, e, hreg⟩ := h mem0
    have z : (((0 : Nat) : Int) + (i : Int)) = (i : Int) := by push_cast; ring
    rw [z] at e hreg
    exact ⟨r0, e, hreg⟩
  · have hS : (0 : Int) ≤ (C : Int) * Hh * Ww := by positivity
    apply hf
    rcases hj with h | h
    · left; push_cast; linarith
    · right; push_cast; linarith

/-- Witness of C10: a batch of three `4 × 4` samples into a blob of shape
`(3, 1, 2, 2)`, phase TRAIN with `crop_size = 2`, mirror enabled and the counting
generator. -/
theorem C10_witness_batch_of_three :
    ∃ T' mem',
      (train_crop2 true).TransformVector host_only [sample4x4, sample4x4, sample4x4]
        blob_3x1x2x2 (fun _ => 0) = .ok (T', mem') ∧
      (∀ (i : Nat) (d : Datum), [sample4x4, sample4x4, sample4x4][i]? = some d →
        ∃ rand Ti, (train_crop2 true).nth_Fill3Randoms i = .ok (rand, Ti) ∧
          ∀ mem0 : Int → ℚ, ∃ r0,
            (train_crop2 true).Transform d mem0
              (blob_3x1x2x2.cpu_data + (i : Int)
                * (blob_3x1x2x2.channels * blob_3x1x2x2.height * blob_3x1x2x2.width)) rand
              = .ok r0 ∧
            ∀ j, 0 ≤ j →
              j < blob_3x1x2x2.channels * blob_3x1x2x2.height * blob_3x1x2x2.width →
              mem' (blob_3x1x2x2.cpu_data + (i : Int)
                  * (blob_3x1x2x2.channels * blob_3x1x2x2.height * blob_3x1x2x2.width) + j)
                = r0.2 (blob_3x1x2x2.cpu_data + (i : Int)
                  * (blob_3x1x2x2.channels * blob_3x1x2x2.height * blob_3x1x2x2.width)
                  + j)) ∧
      (∀ j, (j < 0 ∨ (3 : Int) * (1 * 2 * 2) ≤ j) → mem' (0 + j) = 0) := by
  have hrun : ∃ r, (train_crop2 true).TransformVector host_only
      [sample4x4, sample4x4, sample4x4] blob_3x1x2x2 (fun _ => 0) = .ok r := ⟨_, rfl⟩
  obtain ⟨⟨T', mem'⟩, hrun⟩ := hrun
  have h := C10_batch_regions host_only (train_crop2 true) [sample4x4, sample4x4, sample4x4]
    blob_3x1x2x2 (fun _ => 0) T' mem' (fun d hd => by simp at hd; rw [hd]; rfl) rfl
    (by decide) hrun
  exact ⟨T', mem', hrun, h.2.2.1, fun j hj => h.2.2.2.2 j hj⟩

/-! ## The batch-size checks -/

/-- C11: the raw-sample batch driver fails on its batch-size checks exactly when the
sequence is empty (`datum_num > 0` fails) or longer than the `num` of the output
tensor (`datum_num ≤ num` fails); for every length `n` with `1 ≤ n ≤ num` both checks
pass and the driver runs its loop over the samples. -/
theorem C11_TransformVector_batch_size_checks (ext : External) (T : DataTransformer)
    (datum_vector : List Datum) (blob : TBlob) (mem : Int → ℚ) :
    T.TransformVector ext datum_vector blob mem =
      if datum_vector.length = 0 then .error Fatal.no_datum_to_add
      else if blob.num < (datum_vector.length : Int) then .error Fatal.too_many_datums
      else DataTransformer.TransformVector_loop ext blob 0 datum_vector T mem := by
  unfold DataTransformer.TransformVector
  simp only
  by_cases h0 : datum_vector.length = 0
  · rw [if_pos h0, if_pos (by omega)]
  · rw [if_neg h0, if_neg (by omega)]
    by_cases h1 : blob.num < (datum_vector.length : Int)
    · rw [if_pos h1, if_pos (by omega)]
    · rw [if_neg h1, if_neg (by omega)]

/-- Counterexample to C12: a sequence of one image into an output tensor with
`num = 2` (so `1 ≤ k ≤ num`) fails the batch-size check `CHECK_EQ(mat_num, num)` of the
decoded-image batch driver. -/
theorem C12_counterexample_fewer_images_than_num :
    (1 : Int) ≤ ([image4x4].length : Int) ∧ ([image4x4].length : Int) ≤ blob_2x1x2x2.num ∧
    test_crop2.TransformMatVector host_only [image4x4] blob_2x1x2x2 (fun _ => 0)
      = .error Fatal.mat_num_eq_num :=
  ⟨by decide, by decide, rfl⟩

/-- C12 (amended): the decoded-image batch driver passes its batch-size checks exactly
when the sequence is not empty and its length equals the `num` of the output tensor;
it fails them when the sequence is empty (`mat_num > 0`) and when its length differs
from `num`, shorter or longer (`mat_num == num`). -/
theorem C12_TransformMatVector_batch_size_checks (ext : External) (T : DataTransformer)
    (mat_vector : List CvMat) (blob : TBlob) (mem : Int → ℚ) :
    T.TransformMatVector ext mat_vector blob mem =
      if mat_vector.length = 0 then .error Fatal.no_mat_to_add
      else if (mat_vector.length : Int) ≠ blob.num then .error Fatal.mat_num_eq_num
      else DataTransformer.TransformMatVector_loop ext blob 0 mat_vector T mem := by
  unfold DataTransformer.TransformMatVector
  simp only
  by_cases h0 : mat_vector.length = 0
  · rw [if_pos h0, if_pos (by omega)]
  · rw [if_neg h0, if_neg (by omega)]

/-! ## Broadcast of a single mean value -/

/-- C13: for a sample of `C > 1` channels, `Transform` with the mean value list `[m]`
gives the same result (same failure, or same output memory and same transformer
afterwards) as with the explicit list of `C` values `m`, for every other
configuration, phase and rand triple. -/
theorem C13_single_mean_value_broadcast (T : DataTransformer) (m : ℚ) (datum : Datum)
    (mem : Int → ℚ) (out : Int) (rand : Rand3) (C : Nat)
    (hC : datum.channels = (C : Int)) (hC1 : 1 < C) :
    ({ T with mean_values_ := [m] }).Transform datum mem out rand
      = ({ T with mean_values_ := List.replicate C m }).Transform datum mem out rand := by
  have hrep : replicate_mean_value [m] (C : Int) = List.replicate C m := by
    rw [replicate_mean_value_singleton m (C : Int) (by omega), Int.toNat_natCast]
  have hlen : (List.replicate C m).length = C := List.length_replicate _ _
  have hCi : (C : Int) > 1 := by exact_mod_cast hC1
  have hne : C ≠ 1 := by omega
  have hpos : 0 < C := by omega
  unfold DataTransformer.Transform
  simp [hC, hlen, hrep, hCi, hne, hpos]

/-- Witness of C13: the sample of three channels with the mean value `10`. -/
theorem C13_witness_three_channels :
    ({ test_crop2 with mean_values_ := [10] }).Transform sample3x2x2 (fun _ => 0) 0 ⟨0, 0, 0⟩
      = ({ test_crop2 with mean_values_ := List.replicate 3 10 }).Transform sample3x2x2
          (fun _ => 0) 0 ⟨0, 0, 0⟩ :=
  C13_single_mean_value_broadcast test_crop2 10 sample3x2x2 (fun _ => 0) 0 ⟨0, 0, 0⟩ 3 rfl
    (by decide)

/-! ## Mirroring twice -/

/-- The float read from an output taken as a sample. -/
theorem sample_of_output_float (mem : Int → ℚ) (out : Int) (C Hh Ww : Nat) (i : Nat)
    (hi : i < C * Hh * Ww) :
    (sample_of_output mem out C Hh Ww).float (i : Int) = mem (out + (i : Int)) := by
  unfold Datum.float readAt sample_of_output
  rw [if_pos (Int.natCast_nonneg i), Int.toNat_natCast]
  rw [List.getD_eq_getElem?_getD, List.getElem?_map, List.getElem?_range hi]
  rfl

/-- C14: let `A` be the output of `Transform` for a raw sample with the mirror bit off
and `B` the output with the mirror bit on, with the same crop entries, no mean and
scale 1. Then `Transform` of `B`, taken as a sample of the output shape, without a
crop and with the mirror bit on, succeeds and writes exactly `A`. -/
theorem C14_mirror_twice_is_identity (T : DataTransformer) (datum : Datum) (mem : Int → ℚ)
    (out : Int) (r_off r_on : Rand3) (C Hh Ww : Nat) (mem2 : Int → ℚ) (out2 : Int)
    (hmirror : T.param_.mirror = true) (hmf : T.param_.has_mean_file = false)
    (hmv : T.mean_values_ = []) (hscale : T.param_.scale = 1)
    (hchk : T.Transform_checks datum) (hC : datum.channels = (C : Int))
    (hHh : T.out_height datum = (Hh : Int)) (hWw : T.out_width datum = (Ww : Int))
    (hr1 : r_on.rand1 = r_off.rand1) (hr2 : r_on.rand2 = r_off.rand2)
    (heven : r_off.rand0 % 2 = 0) (hodd : r_on.rand0 % 2 = 1) :
    ∃ TA A TB B TA2 A2,
      T.Transform datum mem out r_off = .ok (TA, A) ∧
      T.Transform datum mem out r_on = .ok (TB, B) ∧
      ({ T with param_ := { T.param_ with crop_size := 0 } }).Transform
        (sample_of_output B out C Hh Ww) mem2 out2 r_on = .ok (TA2, A2) ∧
      ∀ j : Int, 0 ≤ j → j < (C : Int) * Hh * Ww → A2 (out2 + j) = A (out + j) := by
  obtain ⟨A, hA, _, hvA⟩ := Transform_spec T datum mem out r_off C Hh Ww hchk hC hHh hWw
  obtain ⟨B, hB, _, hvB⟩ := Transform_spec T datum mem out r_on C Hh Ww hchk hC hHh hWw
  have hCpos : 0 < C := by
    have := hchk.1; rw [hC] at this; exact_mod_cast this
  -- the second transform: no crop, same options
  have hchk2 : ({ T with param_ := { T.param_ with crop_size := 0 } }).Transform_checks
      (sample_of_output B out C Hh Ww) := by
    refine ⟨?_, ?_, ?_, fun h => ?_, fun h => ?_⟩
    · show ((C : Nat) : Int) > 0
      exact_mod_cast hCpos
    · show ((Hh : Nat) : Int) ≥ ((0 : Nat) : Int)
      exact_mod_cast Nat.zero_le Hh
    · show ((Ww : Nat) : Int) ≥ ((0 : Nat) : Int)
      exact_mod_cast Nat.zero_le Ww
    · have h' : T.param_.has_mean_file = true := h
      rw [hmf] at h'; cases h'
    · have h' : T.mean_values_.length > 0 := h
      rw [hmv] at h'; simp at h'
  obtain ⟨A2, hA2, _, hvA2⟩ := Transform_spec
    ({ T with param_ := { T.param_ with crop_size := 0 } })
    (sample_of_output B out C Hh Ww) mem2 out2 r_on C Hh Ww hchk2 rfl rfl rfl
  refine ⟨_, A, _, B, _, A2, hA, hB, hA2, fun j hj0 hj1 => ?_⟩
  obtain ⟨c, h, x, hc, hh, hx, rfl⟩ := planar_index_surj C Hh Ww j hj0 hj1
  have hd_off : T.do_mirror r_off = false := by
    unfold DataTransformer.do_mirror; rw [hmirror, heven]; rfl
  have hd_on : T.do_mirror r_on = true := by
    unfold DataTransformer.do_mirror; rw [hmirror, hodd]; rfl
  have hd2 : ({ T with param_ := { T.param_ with crop_size := 0 } }).do_mirror r_on = true :=
    hd_on
  have hxm : Ww - 1 - x < Ww := by omega
  have cast : (((Ww - 1 - x : Nat) : Int)) = (Ww : Int) - 1 - x := by omega
  -- the value of `A2`
  have e2 := hvA2 c h x hc hh hx
  rw [hd2] at e2
  have hsrc2 : ({ T with param_ := { T.param_ with crop_size := 0 } }).src_index
      (sample_of_output B out C Hh Ww) r_on c h (mirror_col true Ww x)
      = (((c * Hh + h) * Ww + (Ww - 1 - x) : Nat) : Int) := by
    unfold DataTransformer.src_index DataTransformer.h_off DataTransformer.w_off crop_off
      mirror_col sample_of_output
    simp only [int_of_uint32_zero, Nat.cast_zero, ne_eq, not_true_eq_false, if_false, if_true]
    push_cast
    rw [cast]
    ring
  have hst2 : ∀ i : Nat, i < C * Hh * Ww →
      ({ T with param_ := { T.param_ with crop_size := 0 } }).stored
        (sample_of_output B out C Hh Ww) c (i : Int) = B (out + (i : Int)) := by
    intro i hi
    have hdata : (sample_of_output B out C Hh Ww).data.length = 0 := rfl
    unfold DataTransformer.stored element
    simp only [hdata, gt_iff_lt, lt_self_iff_false, decide_False, Bool.false_eq_true,
      if_false, hmf, hmv, List.length_nil, hscale, mul_one]
    exact sample_of_output_float B out C Hh Ww i hi
  rw [hsrc2, hst2 _ (planar_index_lt C Hh Ww c h (Ww - 1 - x) hc hh hxm)] at e2
  -- the value of `B` there, and the value of `A`
  have eB := hvB c h (Ww - 1 - x) hc hh hxm
  have eA := hvA c h x hc hh hx
  rw [hd_on] at eB
  rw [hd_off] at eA
  have hmm : mirror_col true (Ww : Int) (((Ww - 1 - x : Nat) : Int)) = (x : Int) := by
    unfold mirror_col; rw [cast]; simp
  have hm0 : mirror_col false (Ww : Int) (x : Int) = (x : Int) := by
    unfold mirror_col; simp
  rw [hmm] at eB
  rw [hm0] at eA
  have hidx : (out + ((((c * Hh + h) * Ww + (Ww - 1 - x) : Nat)) : Int))
      = out + (((c : Int) * Hh + h) * Ww + ((Ww - 1 - x : Nat) : Int)) := by
    push_cast; ring
  rw [e2, hidx, eB, eA, src_index_congr T datum r_on r_off hr1 hr2]

/-- Witness of C14: the `4 × 4` sample with centre crop 2 and mirror enabled, the
triple `(2, 0, 0)` for the mirror bit off and `(1, 0, 0)` for the mirror bit on. -/
theorem C14_witness_sample4x4 :
    ∃ TA A TB B TA2 A2,
      test_crop2_mirror.Transform sample4x4 (fun _ => 0) 0 ⟨2, 0, 0⟩ = .ok (TA, A) ∧
      test_crop2_mirror.Transform sample4x4 (fun _ => 0) 0 ⟨1, 0, 0⟩ = .ok (TB, B) ∧
      ({ test_crop2_mirror with
          param_ := { test_crop2_mirror.param_ with crop_size := 0 } }).Transform
        (sample_of_output B 0 1 2 2) (fun _ => 0) 100 ⟨1, 0, 0⟩ = .ok (TA2, A2) ∧
      ∀ j : Int, 0 ≤ j → j < ((1 : Nat) : Int) * (2 : Nat) * (2 : Nat) →
        A2 (100 + j) = A (0 + j) :=
  C14_mirror_twice_is_identity test_crop2_mirror sample4x4 (fun _ => 0) 0 ⟨2, 0, 0⟩ ⟨1, 0, 0⟩
    1 2 2 (fun _ => 0) 100 rfl rfl rfl rfl
    ⟨by decide, by decide, by decide, fun h => by simp [test_crop2_mirror] at h,
      fun h => by simp [test_crop2_mirror] at h⟩
    rfl rfl rfl rfl rfl rfl rfl

/-! ## Crop of the size of the image -/

/-- The crop offset is `0` when the dimension equals the crop size. -/
theorem crop_off_eq_dim (phase : Phase) (crop_size : Int) (rand : Nat) :
    crop_off phase crop_size crop_size rand = 0 := by
  unfold crop_off
  split
  · split
    · have : (crop_size - crop_size + 1).toNat = 1 := by omega
      rw [this, Nat.mod_one]
      rfl
    · rw [sub_self]
      rfl
  · rfl

/-- C15: for a raw sample whose height and width both equal `crop_size` (the local
`int crop_size` of `Transform`), the crop
offsets are `h_off = w_off = 0` in both phases and for every rand triple (the
expression of both the raw path and `TransformPtr`), the output has the height and
width of the sample, and the source index of crop position `(c, h, w)` is the plain
planar index `(c*H + h)*W + w`: the crop is a no-op. -/
theorem C15_crop_of_image_size_is_no_op (T : DataTransformer) (datum : Datum) (rand : Rand3)
    (hH : datum.height = (int_of_uint32 T.param_.crop_size))
    (hW : datum.width = (int_of_uint32 T.param_.crop_size)) :
    T.h_off datum rand = 0 ∧ T.w_off datum rand = 0 ∧
    T.out_height datum = datum.height ∧ T.out_width datum = datum.width ∧
    (∀ c h w : Int,
      T.src_index datum rand c h w = (c * datum.height + h) * datum.width + w) ∧
    (∀ (phase : Phase) (r : Nat),
      crop_off phase (int_of_uint32 T.param_.crop_size) datum.height r = 0 ∧
      crop_off phase (int_of_uint32 T.param_.crop_size) datum.width r = 0) := by
  have h1 : T.h_off datum rand = 0 := by
    unfold DataTransformer.h_off; rw [hH]; exact crop_off_eq_dim _ _ _
  have h2 : T.w_off datum rand = 0 := by
    unfold DataTransformer.w_off; rw [hW]; exact crop_off_eq_dim _ _ _
  refine ⟨h1, h2, ?_, ?_, fun c h w => ?_, fun phase r => ?_⟩
  · unfold DataTransformer.out_height; rw [hH]; split <;> rfl
  · unfold DataTransformer.out_width; rw [hW]; split <;> rfl
  · unfold DataTransformer.src_index; rw [h1, h2]; ring
  · rw [hH, hW]; exact ⟨crop_off_eq_dim _ _ _, crop_off_eq_dim _ _ _⟩

/-- Witness of C15: the `2 × 2` sample in phase TRAIN with `crop_size = 2` and the
draws `(1, 7, 9)`. -/
theorem C15_witness_train_crop2 :
    (train_crop2 true).h_off sample2x2 ⟨1, 7, 9⟩ = 0 ∧
    (train_crop2 true).w_off sample2x2 ⟨1, 7, 9⟩ = 0 ∧
    (train_crop2 true).out_height sample2x2 = sample2x2.height ∧
    (train_crop2 true).out_width sample2x2 = sample2x2.width :=
  ⟨(C15_crop_of_image_size_is_no_op (train_crop2 true) sample2x2 ⟨1, 7, 9⟩ rfl rfl).1,
   (C15_crop_of_image_size_is_no_op (train_crop2 true) sample2x2 ⟨1, 7, 9⟩ rfl rfl).2.1,
   (C15_crop_of_image_size_is_no_op (train_crop2 true) sample2x2 ⟨1, 7, 9⟩ rfl rfl).2.2.1,
   (C15_crop_of_image_size_is_no_op (train_crop2 true) sample2x2 ⟨1, 7, 9⟩ rfl rfl).2.2.2.1⟩

/-! ## The force flags -/

/-- Counterexample to C16: with `force_color = true` and `force_gray = true` and the
raw `4 × 4` sample, `InferDatumShape` returns `(1, 1, 4, 4)`, and `TransformPtrEntry`
and `Transform(datum, blob)` return instead of failing. -/
theorem C16_counterexample_raw_sample_ignores_flags :
    test_crop2_force_both.param_.force_color = true ∧
    test_crop2_force_both.param_.force_gray = true ∧
    sample4x4.encoded = false ∧
    test_crop2_force_both.InferDatumShape host_only sample4x4 = .ok [1, 1, 4, 4] ∧
    (∃ r, test_crop2_force_both.TransformPtrEntry host_only sample4x4 (fun _ => 0) 0
      ⟨0, 0, 0⟩ false 0 = .ok r) ∧
    (∃ r, test_crop2_force_both.TransformBlob host_only sample4x4 blob_1x1x2x2 (fun _ => 0)
      = .ok r) :=
  ⟨rfl, rfl, rfl, rfl, ⟨_, rfl⟩, ⟨_, rfl⟩⟩

/-- C16 (amended): with `force_color = true` and `force_gray = true`,
`Transform(datum, blob)`, `TransformPtrEntry` and `InferDatumShape` fail on the check of
the two flags for every encoded sample. For a raw sample the flags are not checked:
`InferDatumShape` returns the declared shape, `TransformPtrEntry` is the raw
`Transform` (after the label is written), and `Transform(datum, blob)` goes on to its
dimension checks, the draws and the raw transform. -/
theorem C16_force_flags_checked_for_encoded_only (ext : External) (T : DataTransformer)
    (datum : Datum) (blob : TBlob) (mem : Int → ℚ) (p : Int) (rand : Rand3)
    (output_labels : Bool) (label : Int)
    (hc : T.param_.force_color = true) (hg : T.param_.force_gray = true) :
    (datum.encoded = true →
      T.TransformBlob ext datum blob mem = .error Fatal.force_color_and_force_gray ∧
      T.TransformPtrEntry ext datum mem p rand output_labels label
        = .error Fatal.force_color_and_force_gray ∧
      T.InferDatumShape ext datum = .error Fatal.force_color_and_force_gray) ∧
    (datum.encoded = false →
      T.InferDatumShape ext datum = .ok [1, datum.channels, datum.height, datum.width] ∧
      T.TransformPtrEntry ext datum mem p rand output_labels label
        = T.Transform datum
            (if output_labels = true then Function.update mem label (datum.label : ℚ) else mem)
            p rand ∧
      T.TransformBlob ext datum blob mem
        = match T.Transform_check_dimensions datum blob with
          | .error e => .error e
          | .ok _ =>
            match T.Fill3Randoms with
            | .error e => .error e
            | .ok (rand, T1) =>
              if (T.param_.use_gpu_transform && ext.gpu_mode) = true then
                ext.TransformGPU T1 datum mem blob.cpu_data rand
              else T1.Transform datum mem blob.cpu_data rand) := by
  constructor
  · intro he
    unfold DataTransformer.TransformBlob DataTransformer.TransformPtrEntry
      DataTransformer.InferDatumShape
    simp [he, hc, hg]
  · intro he
    unfold DataTransformer.TransformBlob DataTransformer.TransformPtrEntry
      DataTransformer.InferDatumShape DataTransformer.TransformPtrInt
    simp only [he, Bool.false_eq_true, if_false]
    refine ⟨?_, ?_, ?_⟩ <;> trivial

/-- Witness of C16 (amended): an encoded sample with both flags set. -/
theorem C16_witness_encoded_sample :
    test_crop2_force_both.TransformBlob host_only encoded_sample blob_1x1x2x2 (fun _ => 0)
      = .error Fatal.force_color_and_force_gray ∧
    test_crop2_force_both.TransformPtrEntry host_only encoded_sample (fun _ => 0) 0 ⟨0, 0, 0⟩
      false 0 = .error Fatal.force_color_and_force_gray ∧
    test_crop2_force_both.InferDatumShape host_only encoded_sample
      = .error Fatal.force_color_and_force_gray :=
  (C16_force_flags_checked_for_encoded_only host_only test_crop2_force_both encoded_sample
    blob_1x1x2x2 (fun _ => 0) 0 ⟨0, 0, 0⟩ false 0 rfl rfl).1 rfl

/-! ## The constructor -/

/-- The loop of the constructor copies the configured mean values in order. -/
theorem push_back_mean_values_eq (mean_value : List ℚ) :
    push_back_mean_values mean_value = mean_value := by
  unfold push_back_mean_values
  have key : ∀ n : Nat, n ≤ mean_value.length →
      (List.range n).foldl
        (fun (mean_values_ : List ℚ) (c : Nat) =>
          mean_values_ ++ [readAt mean_value (c : Int) 0]) []
        = mean_value.take n := by
    intro n
    induction n with
    | zero => intro _; rfl
    | succ n ih =>
      intro hn
      rw [List.range_succ, List.foldl_append, ih (by omega)]
      simp only [List.foldl_cons, List.foldl_nil]
      have hlt : n < mean_value.length := by omega
      have hr : readAt mean_value (n : Int) 0 = mean_value[n] := by
        unfold readAt
        rw [if_pos (Int.natCast_nonneg n), Int.toNat_natCast, List.getD_eq_getElem?_getD,
          List.getElem?_eq_getElem hlt]
        rfl
      rw [hr, List.take_succ, List.getElem?_eq_getElem hlt]
      rfl
  rw [key _ (le_refl _), List.take_length]

/-- C17: constructing the pipeline fails exactly when the configuration has a mean
file and a non-empty list of mean values at the same time; otherwise the constructor
returns a transformer whose configuration and phase are the given ones, whose mean
blob is the one read from the mean file (when there is one) and whose list
`mean_values_` equals the configured values in order. -/
theorem C17_constructor (ext : External) (param : TransformationParameter) (phase : Phase) :
    DataTransformer.construct ext param phase =
      if param.has_mean_file = true ∧ param.mean_value ≠ [] then
        .error Fatal.mean_file_and_mean_value
      else
        .ok { param_ := param, phase_ := phase,
              data_mean_ := if param.has_mean_file = true then ext.ReadMeanFile param.mean_file
                            else {},
              mean_values_ := param.mean_value, rng_ := none } := by
  unfold DataTransformer.construct
  by_cases hf : param.has_mean_file = true <;> by_cases hv : param.mean_value = []
  · simp [hf, hv]
  · have : 0 < param.mean_value.length := List.length_pos.mpr hv
    simp [hf, hv]
  · simp [hf, hv]
  · have : 0 < param.mean_value.length := List.length_pos.mpr hv
    simp [hf, hv, this, push_back_mean_values_eq]

/-! ## Failing checks of `Transform` -/

/-- The first failing check of `Transform`, if any: the code of `Transform` up to the
loop nest. -/
theorem Transform_eq_checks (T : DataTransformer) (datum : Datum) (mem : Int → ℚ) (p : Int)
    (rand : Rand3) :
    T.Transform datum mem p rand =
      if ¬ (datum.channels > 0) then .error Fatal.channels_gt_0
      else if ¬ (datum.height ≥ (int_of_uint32 T.param_.crop_size)) then
        .error Fatal.height_ge_crop_size
      else if ¬ (datum.width ≥ (int_of_uint32 T.param_.crop_size)) then
        .error Fatal.width_ge_crop_size
      else if T.param_.has_mean_file = true ∧ ¬ (datum.channels = T.data_mean_.channels) then
        .error Fatal.mean_channels
      else if T.param_.has_mean_file = true ∧ ¬ (datum.height = T.data_mean_.height) then
        .error Fatal.mean_height
      else if T.param_.has_mean_file = true ∧ ¬ (datum.width = T.data_mean_.width) then
        .error Fatal.mean_width
      else if T.mean_values_.length > 0 ∧
          ¬ (T.mean_values_.length = 1 ∨ (T.mean_values_.length : Int) = datum.channels) then
        .error Fatal.mean_values_size
      else
        .ok ({ T with mean_values_ := T.mean_values_after datum.channels },
          loopC (fun (mem : Int → ℚ) c top_index data_index =>
              Function.update mem (p + top_index) (T.stored datum c data_index))
            (T.do_mirror rand) (if T.do_mirror rand then -1 else 1)
            datum.channels datum.height datum.width (T.out_height datum) (T.out_width datum)
            (T.h_off datum rand) (T.w_off datum rand) mem) := by
  by_cases hc : T.Transform_checks datum
  · rw [Transform_of_checks T datum mem p rand hc]
    obtain ⟨h1, h2, h3, h4, h5⟩ := hc
    have e4 : ¬ (T.param_.has_mean_file = true ∧ ¬ datum.channels = T.data_mean_.channels) :=
      fun h => h.2 (h4 h.1).1
    have e5 : ¬ (T.param_.has_mean_file = true ∧ ¬ datum.height = T.data_mean_.height) :=
      fun h => h.2 (h4 h.1).2.1
    have e6 : ¬ (T.param_.has_mean_file = true ∧ ¬ datum.width = T.data_mean_.width) :=
      fun h => h.2 (h4 h.1).2.2
    have e7 : ¬ (T.mean_values_.length > 0 ∧
        ¬ (T.mean_values_.length = 1 ∨ (T.mean_values_.length : Int) = datum.channels)) :=
      fun h => h.2 (h5 h.1)
    rw [if_neg (not_not.mpr h1), if_neg (not_not.mpr h2), if_neg (not_not.mpr h3),
      if_neg e4, if_neg e5, if_neg e6, if_neg e7]
  · unfold DataTransformer.Transform
    dsimp only
    by_cases h1 : datum.channels > 0
    swap
    · rw [if_pos h1, if_pos h1]
    rw [if_neg (not_not.mpr h1), if_neg (not_not.mpr h1)]
    by_cases h2 : datum.height ≥ (int_of_uint32 T.param_.crop_size)
    swap
    · rw [if_pos h2, if_pos h2]
    rw [if_neg (not_not.mpr h2), if_neg (not_not.mpr h2)]
    by_cases h3 : datum.width ≥ (int_of_uint32 T.param_.crop_size)
    swap
    · rw [if_pos h3, if_pos h3]
    rw [if_neg (not_not.mpr h3), if_neg (not_not.mpr h3)]
    by_cases h4 : T.param_.has_mean_file = true ∧ ¬ datum.channels = T.data_mean_.channels
    · rw [if_pos h4, if_pos h4]
    rw [if_neg h4, if_neg h4]
    by_cases h5 : T.param_.has_mean_file = true ∧ ¬ datum.height = T.data_mean_.height
    · rw [if_pos h5, if_pos h5]
    rw [if_neg h5, if_neg h5]
    by_cases h6 : T.param_.has_mean_file = true ∧ ¬ datum.width = T.data_mean_.width
    · rw [if_pos h6, if_pos h6]
    rw [if_neg h6, if_neg h6]
    by_cases h7 : T.mean_values_.length > 0 ∧
        ¬ (T.mean_values_.length = 1 ∨ (T.mean_values_.length : Int) = datum.channels)
    · rw [if_pos h7, if_pos (⟨decide_eq_true h7.1, h7.2⟩)]
    · exfalso
      apply hc
      refine ⟨h1, h2, h3, fun hm => ⟨?_, ?_, ?_⟩, fun hl => ?_⟩
      · by_contra hne; exact h4 ⟨hm, hne⟩
      · by_contra hne; exact h5 ⟨hm, hne⟩
      · by_contra hne; exact h6 ⟨hm, hne⟩
      · by_contra hne; exact h7 ⟨hl, hne⟩

/-- C18 (divergence): `Transform` compares the dimensions of the sample with the local
`const int crop_size`, the configured `uint32` value converted to `int`. For a
configured `crop_size < 2^31` the claim holds: when `crop_size` exceeds the height or
the width of a raw sample, `Transform(datum, out, rand)` fails, for every phase and
rand triple, at one of its first three checks, hence before the loop nest writes any
output element (for a sample with channels, at the crop check itself); when
`crop_size` is at most the height and the width it does not fail on a crop check, and if
moreover the sample has channels and the mean source matches it returns. For a
configured `2^31 ≤ crop_size < 2^32` the local is the negative number
`crop_size - 2^32`: for every sample with channels and a matching mean source, of
height and width `≥ 0` and small enough for the offset expressions
`datum_height - crop_size + 1` and `datum_width - crop_size + 1` to stay below `2^31`,
although `crop_size` exceeds the height and the width, both crop checks pass, the
loops over the negative height run no store, and the call returns with the output
memory unchanged, for every phase and rand triple. -/
theorem C18_crop_larger_than_sample_fails (T : DataTransformer) (datum : Datum)
    (mem : Int → ℚ) (out : Int) (rand : Rand3) :
    (T.param_.crop_size < 2 ^ 31 →
      ((datum.height < (T.param_.crop_size : Int) ∨ datum.width < (T.param_.crop_size : Int)) →
        (T.Transform datum mem out rand = .error Fatal.channels_gt_0 ∨
          T.Transform datum mem out rand = .error Fatal.height_ge_crop_size ∨
          T.Transform datum mem out rand = .error Fatal.width_ge_crop_size) ∧
        (datum.channels > 0 →
          T.Transform datum mem out rand = .error Fatal.height_ge_crop_size ∨
          T.Transform datum mem out rand = .error Fatal.width_ge_crop_size)) ∧
      (((T.param_.crop_size : Int) ≤ datum.height ∧ (T.param_.crop_size : Int) ≤ datum.width) →
        T.Transform datum mem out rand ≠ .error Fatal.height_ge_crop_size ∧
        T.Transform datum mem out rand ≠ .error Fatal.width_ge_crop_size ∧
        (T.Transform_checks datum → ∃ r, T.Transform datum mem out rand = .ok r))) ∧
    (2 ^ 31 ≤ T.param_.crop_size → T.param_.crop_size < 2 ^ 32 → datum.channels > 0 →
      0 ≤ datum.height → datum.height - ((T.param_.crop_size : Int) - 2 ^ 32) + 1 < 2 ^ 31 →
      0 ≤ datum.width → datum.width - ((T.param_.crop_size : Int) - 2 ^ 32) + 1 < 2 ^ 31 →
      (T.param_.has_mean_file = true →
        datum.channels = T.data_mean_.channels ∧ datum.height = T.data_mean_.height ∧
        datum.width = T.data_mean_.width) →
      (T.mean_values_.length > 0 →
        T.mean_values_.length = 1 ∨ (T.mean_values_.length : Int) = datum.channels) →
      datum.height < (T.param_.crop_size : Int) ∧ datum.width < (T.param_.crop_size : Int) ∧
      T.Transform datum mem out rand
        = .ok ({ T with mean_values_ := T.mean_values_after datum.channels }, mem)) := by
  constructor
  · intro h31
    have e31 := int_of_uint32_of_lt _ h31
    rw [Transform_eq_checks, e31]
    constructor
    · intro hlt
      by_cases h1 : datum.channels > 0
      · rw [if_neg (not_not.mpr h1)]
        by_cases h2 : datum.height ≥ (T.param_.crop_size : Int)
        · rw [if_neg (not_not.mpr h2), if_pos (by omega)]
          exact ⟨Or.inr (Or.inr rfl), fun _ => Or.inr rfl⟩
        · rw [if_pos h2]
          exact ⟨Or.inr (Or.inl rfl), fun _ => Or.inl rfl⟩
      · rw [if_pos h1]
        exact ⟨Or.inl rfl, fun h => absurd h h1⟩
    · rintro ⟨hH, hW⟩
      refine ⟨?_, ?_, fun hc => ?_⟩
      · split_ifs <;> simp
      · split_ifs <;> simp
      · obtain ⟨h1, h2, h3, h4, h5⟩ := hc
        rw [e31] at h2 h3
        have e4 : ¬ (T.param_.has_mean_file = true ∧ ¬ datum.channels = T.data_mean_.channels) :=
          fun h => h.2 (h4 h.1).1
        have e5 : ¬ (T.param_.has_mean_file = true ∧ ¬ datum.height = T.data_mean_.height) :=
          fun h => h.2 (h4 h.1).2.1
        have e6 : ¬ (T.param_.has_mean_file = true ∧ ¬ datum.width = T.data_mean_.width) :=
          fun h => h.2 (h4 h.1).2.2
        have e7 : ¬ (T.mean_values_.length > 0 ∧
            ¬ (T.mean_values_.length = 1 ∨ (T.mean_values_.length : Int) = datum.channels)) :=
          fun h => h.2 (h5 h.1)
        rw [if_neg (not_not.mpr h1), if_neg (not_not.mpr h2), if_neg (not_not.mpr h3),
          if_neg e4, if_neg e5, if_neg e6, if_neg e7]
        exact ⟨_, rfl⟩
  · intro h31 h32 h1 hH0 hH1 hW0 hW1 h4 h5
    obtain ⟨e, hneg⟩ := int_of_uint32_of_ge _ h31 h32
    have c32 : ((T.param_.crop_size : Nat) : Int) < 2 ^ 32 := by exact_mod_cast h32
    have c31 : (2 : Int) ^ 31 ≤ ((T.param_.crop_size : Nat) : Int) := by exact_mod_cast h31
    refine ⟨by omega, by omega, ?_⟩
    have hchk : T.Transform_checks datum := ⟨h1, by omega, by omega, h4, h5⟩
    rw [Transform_of_checks T datum mem out rand hchk]
    have ht : (T.out_height datum).toNat = 0 := by
      unfold DataTransformer.out_height
      rw [if_pos (by omega)]
      omega
    rw [loopC_of_toNat_zero _ _ _ _ _ _ _ _ _ _ _ ht]

/-- Witness of C18: the `2 × 2` sample with `crop_size = 4` in phase TRAIN fails at the
crop check, and with the configured `crop_size = 4294967295` in phase TEST, a crop
larger than the sample, the call returns and leaves the memory as it was. -/
theorem C18_witness_crop_4294967295_on_2x2 :
    (({ param_ := { crop_size := 4 }, phase_ := Phase.TRAIN } : DataTransformer).Transform
        sample2x2 (fun _ => 0) 0 ⟨1, 7, 9⟩ = .error Fatal.height_ge_crop_size ∨
      ({ param_ := { crop_size := 4 }, phase_ := Phase.TRAIN } : DataTransformer).Transform
        sample2x2 (fun _ => 0) 0 ⟨1, 7, 9⟩ = .error Fatal.width_ge_crop_size) ∧
    (sample2x2.height < (test_crop_4294967295.param_.crop_size : Int) ∧
      sample2x2.width < (test_crop_4294967295.param_.crop_size : Int) ∧
      test_crop_4294967295.Transform sample2x2 (fun _ => 0) 0 ⟨1, 7, 9⟩
        = .ok ({ test_crop_4294967295 with
            mean_values_ := test_crop_4294967295.mean_values_after sample2x2.channels },
          fun _ => 0)) :=
  ⟨(((C18_crop_larger_than_sample_fails
      ({ param_ := { crop_size := 4 }, phase_ := Phase.TRAIN } : DataTransformer)
      sample2x2 (fun _ => 0) 0 ⟨1, 7, 9⟩).1 (by decide)).1 (Or.inl (by decide))).2 (by decide),
   (C18_crop_larger_than_sample_fails test_crop_4294967295 sample2x2 (fun _ => 0) 0
      ⟨1, 7, 9⟩).2 (by decide) (by decide) (by decide) (by decide) (by decide) (by decide)
      (by decide) (fun h => by simp [test_crop_4294967295] at h)
      (fun h => by simp [test_crop_4294967295] at h)⟩

/-! ## Enablement of the random resize -/

/-- C19: `var_sized_image_random_resize_enabled` returns `true` exactly when both
random-resize bounds are nonzero, `false` exactly when both are zero, and fails (with
the message that both must be zero or both nonzero) exactly when one of the two is
nonzero and the other zero. -/
theorem C19_random_resize_enabled (T : DataTransformer) :
    (T.var_sized_image_random_resize_enabled = .ok true ↔
      (T.param_.img_rand_resize_lower ≠ 0 ∧ T.param_.img_rand_resize_upper ≠ 0)) ∧
    (T.var_sized_image_random_resize_enabled = .ok false ↔
      (T.param_.img_rand_resize_lower = 0 ∧ T.param_.img_rand_resize_upper = 0)) ∧
    (T.var_sized_image_random_resize_enabled = .error Fatal.resize_bounds ↔
      ((T.param_.img_rand_resize_lower ≠ 0 ∧ T.param_.img_rand_resize_upper = 0) ∨
       (T.param_.img_rand_resize_lower = 0 ∧ T.param_.img_rand_resize_upper ≠ 0))) ∧
    ((∃ e, T.var_sized_image_random_resize_enabled = .error e) ↔
      ((T.param_.img_rand_resize_lower ≠ 0 ∧ T.param_.img_rand_resize_upper = 0) ∨
       (T.param_.img_rand_resize_lower = 0 ∧ T.param_.img_rand_resize_upper ≠ 0))) := by
  unfold DataTransformer.var_sized_image_random_resize_enabled
  by_cases hl : T.param_.img_rand_resize_lower = 0 <;>
    by_cases hu : T.param_.img_rand_resize_upper = 0 <;>
    simp [hl, hu, int_of_uint32_eq_zero_iff]

/-- Witness of C19: the bounds `lower = 5`, `upper = 0` make the call fail. -/
theorem C19_witness_lower5_upper0 :
    train_crop2_resize_5_0.var_sized_image_random_resize_enabled
      = .error Fatal.resize_bounds :=
  (C19_random_resize_enabled train_crop2_resize_5_0).2.2.1.mpr
    (Or.inl ⟨by decide, rfl⟩)

/-! ## The dimensions of the mean file -/

/-- The transformer after a successful call of `Transform`: only `mean_values_` can differ. -/
theorem Transform_state (T : DataTransformer) (datum : Datum) (mem : Int → ℚ) (p : Int)
    (rand : Rand3) (r : DataTransformer × (Int → ℚ))
    (h : T.Transform datum mem p rand = .ok r) :
    r.1 = { T with mean_values_ := T.mean_values_after datum.channels } := by
  have hc := Transform_checks_of_ok T datum mem p rand r h
  rw [Transform_of_checks T datum mem p rand hc] at h
  injection h with h
  rw [← h]

/-- A transformer that agrees with `T` fails as `T` does on a sample that does not pass
the checks of `T`, when the check on the number of mean values is not the one that
fails. -/
theorem agrees_Transform_error (T T1 : DataTransformer) (datum : Datum) (mem : Int → ℚ)
    (p : Int) (rand : Rand3) (ha : T.agrees T1 datum.channels)
    (hmv : T.mean_values_.length > 0 →
      T.mean_values_.length = 1 ∨ (T.mean_values_.length : Int) = datum.channels)
    (hn : ¬ T.Transform_checks datum) :
    T1.Transform datum mem p rand = T.Transform datum mem p rand := by
  obtain ⟨_, _, hchk1⟩ := agrees_mean_values T T1 datum.channels ha hmv
  obtain ⟨hp, hph, hdm, _⟩ := ha
  have e7 : ¬ (T.mean_values_.length > 0 ∧
      ¬ (T.mean_values_.length = 1 ∨ (T.mean_values_.length : Int) = datum.channels)) :=
    fun h => h.2 (hmv h.1)
  have e7' : ¬ (T1.mean_values_.length > 0 ∧
      ¬ (T1.mean_values_.length = 1 ∨ (T1.mean_values_.length : Int) = datum.channels)) :=
    fun h => h.2 (hchk1 h.1)
  rw [Transform_eq_checks, Transform_eq_checks, hp, hdm]
  by_cases c1 : ¬ (datum.channels > 0)
  · simp only [if_pos c1]
  by_cases c2 : ¬ (datum.height ≥ (int_of_uint32 T.param_.crop_size))
  · simp only [if_neg c1, if_pos c2]
  by_cases c3 : ¬ (datum.width ≥ (int_of_uint32 T.param_.crop_size))
  · simp only [if_neg c1, if_neg c2, if_pos c3]
  by_cases c4 : T.param_.has_mean_file = true ∧ ¬ (datum.channels = T.data_mean_.channels)
  · simp only [if_neg c1, if_neg c2, if_neg c3, if_pos c4]
  by_cases c5 : T.param_.has_mean_file = true ∧ ¬ (datum.height = T.data_mean_.height)
  · simp only [if_neg c1, if_neg c2, if_neg c3, if_neg c4, if_pos c5]
  by_cases c6 : T.param_.has_mean_file = true ∧ ¬ (datum.width = T.data_mean_.width)
  · simp only [if_neg c1, if_neg c2, if_neg c3, if_neg c4, if_neg c5, if_pos c6]
  exfalso
  apply hn
  refine ⟨not_not.mp c1, not_not.mp c2, not_not.mp c3, fun hf => ⟨?_, ?_, ?_⟩, hmv⟩
  · by_contra hh; exact c4 ⟨hf, hh⟩
  · by_contra hh; exact c5 ⟨hf, hh⟩
  · by_contra hh; exact c6 ⟨hf, hh⟩

/-- A call of `TransformPtr` fails or leaves the transformer with `mean_values_`
replicated. -/
theorem TransformPtr_result (T : DataTransformer) (cv_img : CvMat) (mem : Int → ℚ) (p : Int)
    (rand : Rand3) :
    (∃ e, T.TransformPtr cv_img mem p rand = .error e) ∨
    ∃ mem', T.TransformPtr cv_img mem p rand
      = .ok ({ T with mean_values_ := T.mean_values_after cv_img.channels }, mem') := by
  unfold DataTransformer.TransformPtr
  dsimp only
  by_cases c0 : ¬ (cv_img.depth_8U = true)
  · rw [if_pos c0]; exact Or.inl ⟨_, rfl⟩
  rw [if_neg c0]
  by_cases c1 : ¬ (cv_img.channels > 0)
  · rw [if_pos c1]; exact Or.inl ⟨_, rfl⟩
  rw [if_neg c1]
  by_cases c2 : ¬ (cv_img.rows ≥ (int_of_uint32 T.param_.crop_size))
  · rw [if_pos c2]; exact Or.inl ⟨_, rfl⟩
  rw [if_neg c2]
  by_cases c3 : ¬ (cv_img.cols ≥ (int_of_uint32 T.param_.crop_size))
  · rw [if_pos c3]; exact Or.inl ⟨_, rfl⟩
  rw [if_neg c3]
  by_cases c4 : T.param_.has_mean_file = true ∧ ¬ (cv_img.channels = T.data_mean_.channels)
  · rw [if_pos c4]; exact Or.inl ⟨_, rfl⟩
  rw [if_neg c4]
  by_cases c5 : T.param_.has_mean_file = true ∧ ¬ (cv_img.rows = T.data_mean_.height)
  · rw [if_pos c5]; exact Or.inl ⟨_, rfl⟩
  rw [if_neg c5]
  by_cases c6 : T.param_.has_mean_file = true ∧ ¬ (cv_img.cols = T.data_mean_.width)
  · rw [if_pos c6]; exact Or.inl ⟨_, rfl⟩
  rw [if_neg c6]
  by_cases c7 : decide (T.mean_values_.length > 0) = true ∧
        ¬ (T.mean_values_.length = 1 ∨ (T.mean_values_.length : Int) = cv_img.channels)
  · rw [if_pos c7]; exact Or.inl ⟨_, rfl⟩
  rw [if_neg c7]
  by_cases c8 : ¬ (cv_img.has_data = true)
  · rw [if_pos c8]; exact Or.inl ⟨_, rfl⟩
  rw [if_neg c8]
  exact Or.inr ⟨_, rfl⟩

/-- The transformer after a successful call of `TransformPtr`: only `mean_values_` can
differ. -/
theorem TransformPtr_state (T : DataTransformer) (cv_img : CvMat) (mem : Int → ℚ) (p : Int)
    (rand : Rand3) (r : DataTransformer × (Int → ℚ))
    (h : T.TransformPtr cv_img mem p rand = .ok r) :
    r.1 = { T with mean_values_ := T.mean_values_after cv_img.channels } := by
  rcases TransformPtr_result T cv_img mem p rand with ⟨e, he⟩ | ⟨mem', hm⟩
  · rw [he] at h; cases h
  · rw [hm] at h; injection h with h; rw [← h]

/-- The list `mean_values_` after a call on a sample of `C` channels: a single value is
repeated once per channel when `C > 1`, any other list is left as it is. -/
theorem mean_values_after_eq (T : DataTransformer) (C : Int) :
    T.mean_values_after C
      = if T.mean_values_.length = 1 ∧ C > 1 then
          List.replicate C.toNat (T.mean_values_.getD 0 0)
        else T.mean_values_ := by
  unfold DataTransformer.mean_values_after
  by_cases h : T.mean_values_.length = 1 ∧ C > 1
  · obtain ⟨m, hm⟩ := List.length_eq_one.mp h.1
    rw [if_pos h, if_pos ⟨by rw [h.1]; rfl, h.2, h.1⟩, hm,
      replicate_mean_value_singleton m C (by omega)]
    rfl
  · rw [if_neg h, if_neg (fun hh => h ⟨hh.2.2, hh.2.1⟩)]

/-! ## C21: the state a call leaves behind -/

/-- C21 (counterexample): the pipeline with the single mean value `10`, after a call on
the sample of three channels, holds the list `[10, 10, 10]`, not the list `[10]` it
held before; the next call on the sample of one channel then fails on the check of the
number of mean values, while the same call on the pipeline as constructed succeeds. -/
theorem C21_counterexample_replicated_mean_values :
    ∃ T' mem', test_crop2_mean10.Transform sample3x2x2 (fun _ => 0) 0 ⟨0, 0, 0⟩
        = .ok (T', mem') ∧
      T'.mean_values_ = [10, 10, 10] ∧ T'.mean_values_ ≠ test_crop2_mean10.mean_values_ ∧
      (∃ r, test_crop2_mean10.Transform sample4x4 (fun _ => 0) 0 ⟨0, 0, 0⟩ = .ok r) ∧
      T'.Transform sample4x4 (fun _ => 0) 0 ⟨0, 0, 0⟩ = .error Fatal.mean_values_size := by
  have hc : test_crop2_mean10.Transform_checks sample3x2x2 := by
    refine ⟨by decide, by decide, by decide, ?_, ?_⟩
    · intro h; cases h
    · intro _; exact Or.inl rfl
  refine ⟨_, _, Transform_of_checks _ _ _ _ _ hc, rfl, ?_, ⟨_, rfl⟩, rfl⟩
  intro h
  have := congrArg List.length h
  revert this
  decide

/-- C21 (amended): a successful call of `Transform` leaves the configuration, the phase,
the mean blob and the generator as they were; the list of mean values is left as it was
unless it holds exactly one value and the sample has more than one channel, and then it
becomes that value repeated once per channel. Every later call on a sample with the
same number of channels gives the result (same failure, or same transformer and
memory) that it gives on the pipeline before the call. The same holds for the state after
a successful call of `TransformPtr`. -/
theorem C21_Transform_leaves_state (T : DataTransformer) (datum : Datum) (mem : Int → ℚ)
    (out : Int) (rand : Rand3) (T' : DataTransformer) (mem' : Int → ℚ)
    (h : T.Transform datum mem out rand = .ok (T', mem')) :
    T'.param_ = T.param_ ∧ T'.phase_ = T.phase_ ∧ T'.data_mean_ = T.data_mean_ ∧
    T'.rng_ = T.rng_ ∧
    T'.mean_values_
      = (if T.mean_values_.length = 1 ∧ datum.channels > 1 then
          List.replicate datum.channels.toNat (T.mean_values_.getD 0 0)
        else T.mean_values_) ∧
    (∀ (datum2 : Datum) (mem2 : Int → ℚ) (out2 : Int) (rand2 : Rand3),
      datum2.channels = datum.channels →
      T'.Transform datum2 mem2 out2 rand2 = T.Transform datum2 mem2 out2 rand2) ∧
    (∀ (cv_img : CvMat) (memp : Int → ℚ) (ptr : Int) (randp : Rand3) (Tp : DataTransformer)
      (memp' : Int → ℚ), T.TransformPtr cv_img memp ptr randp = .ok (Tp, memp') →
      Tp.param_ = T.param_ ∧ Tp.phase_ = T.phase_ ∧ Tp.data_mean_ = T.data_mean_ ∧
      Tp.rng_ = T.rng_ ∧
      Tp.mean_values_
        = (if T.mean_values_.length = 1 ∧ cv_img.channels > 1 then
            List.replicate cv_img.channels.toNat (T.mean_values_.getD 0 0)
          else T.mean_values_)) := by
  have hc := Transform_checks_of_ok T datum mem out rand _ h
  have hT : T' = { T with mean_values_ := T.mean_values_after datum.channels } :=
    Transform_state T datum mem out rand _ h
  subst hT
  refine ⟨rfl, rfl, rfl, rfl, mean_values_after_eq T datum.channels, ?_, ?_⟩
  · intro datum2 mem2 out2 rand2 h2
    have ha : T.agrees { T with mean_values_ := T.mean_values_after datum.channels }
        datum2.channels := ⟨rfl, rfl, rfl, Or.inr (by rw [h2])⟩
    by_cases hc2 : T.Transform_checks datum2
    · obtain ⟨m, e1, e2⟩ := agrees_Transform T _ datum2 mem2 out2 rand2 ha hc2
      rw [e1, e2]
    · exact agrees_Transform_error T _ datum2 mem2 out2 rand2 ha
        (by rw [h2]; exact hc.2.2.2.2) hc2
  · intro cv_img memp ptr randp Tp memp' hp
    have hTp : Tp = { T with mean_values_ := T.mean_values_after cv_img.channels } :=
      TransformPtr_state T cv_img memp ptr randp _ hp
    subst hTp
    exact ⟨rfl, rfl, rfl, rfl, mean_values_after_eq T cv_img.channels⟩

/-- Witness of C21: the pipeline with the single mean value `10` on the sample of three
channels. -/
theorem C21_witness_three_channels :
    ∃ T' mem', test_crop2_mean10.Transform sample3x2x2 (fun _ => 0) 0 ⟨0, 0, 0⟩
        = .ok (T', mem') ∧
      T'.rng_ = test_crop2_mean10.rng_ ∧
      T'.mean_values_ = List.replicate 3 10 := by
  obtain ⟨r, hr⟩ : ∃ r, test_crop2_mean10.Transform sample3x2x2 (fun _ => 0) 0 ⟨0, 0, 0⟩
      = .ok r := ⟨_, rfl⟩
  obtain ⟨T', mem'⟩ := r
  have h := C21_Transform_leaves_state test_crop2_mean10 sample3x2x2 (fun _ => 0) 0
    ⟨0, 0, 0⟩ T' mem' hr
  exact ⟨T', mem', hr, h.2.2.2.1, h.2.2.2.2.1⟩

/-! ## C23: phase TEST and the rand triple -/

/-- C23 (counterexample): in phase TEST with mirror enabled, `Fill3Randoms` yields the
triple `(1, 0, 0)` from a generator whose next value is `0` and `(2, 0, 0)` from one
whose next value is `1`; on the `4 × 4` sample with `crop_size = 2`, `Transform` stores
`6` at output index `0` for the first triple and `5` for the second. -/
theorem C23_counterexample_test_mirror_follows_the_draw :
    (∃ T1, ({ test_crop2_mirror with rng_ := some counting_rng }).Fill3Randoms
        = .ok (⟨1, 0, 0⟩, T1)) ∧
    (∃ T2, ({ test_crop2_mirror with rng_ := some counting_rng_from_1 }).Fill3Randoms
        = .ok (⟨2, 0, 0⟩, T2)) ∧
    ∃ r1 r2, test_crop2_mirror.Transform sample4x4 (fun _ => 0) 0 ⟨1, 0, 0⟩ = .ok r1 ∧
      test_crop2_mirror.Transform sample4x4 (fun _ => 0) 0 ⟨2, 0, 0⟩ = .ok r2 ∧
      r1.2 0 = 6 ∧ r2.2 0 = 5 := by
  have hc : test_crop2_mirror.Transform_checks sample4x4 :=
    ⟨by decide, by decide, by decide, fun h => by simp [test_crop2_mirror] at h,
      fun h => by simp [test_crop2_mirror] at h⟩
  obtain ⟨m1, e1, -, v1⟩ := Transform_spec test_crop2_mirror sample4x4 (fun _ => 0) 0
    ⟨1, 0, 0⟩ 1 2 2 hc rfl rfl rfl
  obtain ⟨m2, e2, -, v2⟩ := Transform_spec test_crop2_mirror sample4x4 (fun _ => 0) 0
    ⟨2, 0, 0⟩ 1 2 2 hc rfl rfl rfl
  refine ⟨⟨_, rfl⟩, ⟨_, rfl⟩, _, _, e1, e2, ?_, ?_⟩
  · have h := v1 0 0 0 (by decide) (by decide) (by decide)
    simpa [DataTransformer.stored, element, DataTransformer.src_index, DataTransformer.h_off,
      DataTransformer.w_off, crop_off, int_of_uint32, DataTransformer.do_mirror, mirror_col,
      test_crop2_mirror, sample4x4, Datum.byte, readAt, DataTransformer.mean_values_after,
      UInt8.size] using h
  · have h := v2 0 0 0 (by decide) (by decide) (by decide)
    simpa [DataTransformer.stored, element, DataTransformer.src_index, DataTransformer.h_off,
      DataTransformer.w_off, crop_off, int_of_uint32, DataTransformer.do_mirror, mirror_col,
      test_crop2_mirror, sample4x4, Datum.byte, readAt, DataTransformer.mean_values_after,
      UInt8.size] using h

/-- In phase TEST the crop offset does not depend on the rand entry. -/
theorem crop_off_TEST_rand (crop_size datum_dim : Int) (r1 r2 : Nat) :
    crop_off Phase.TEST crop_size datum_dim r1 = crop_off Phase.TEST crop_size datum_dim r2 := by
  unfold crop_off
  simp

/-- C23 (amended): in phase TEST the crop offsets of the raw path are the centred ones,
`(datum_dim - crop_size) / 2` (`0` without a crop), for every rand triple, and
`Transform(datum, out, rand)` gives the same result for two rand triples whenever
mirror is disabled or the two entries `rand[0]` have the same parity: the output
depends on the triple through the parity of `rand[0]` only, and only when mirror is
enabled. -/
theorem C23_TEST_output_follows_mirror_parity (T : DataTransformer) (datum : Datum)
    (mem : Int → ℚ) (out : Int) (r1 r2 : Rand3) (hph : T.phase_ = Phase.TEST)
    (hpar : T.param_.mirror = true → r1.rand0 % 2 = r2.rand0 % 2) :
    T.Transform datum mem out r1 = T.Transform datum mem out r2 ∧
    T.h_off datum r1
      = (if (int_of_uint32 T.param_.crop_size) ≠ 0 then
          (datum.height - (int_of_uint32 T.param_.crop_size)).tdiv 2 else 0) ∧
    T.w_off datum r1
      = (if (int_of_uint32 T.param_.crop_size) ≠ 0 then
          (datum.width - (int_of_uint32 T.param_.crop_size)).tdiv 2 else 0) := by
  have hm : T.do_mirror r1 = T.do_mirror r2 := by
    unfold DataTransformer.do_mirror
    cases hmir : T.param_.mirror with
    | false => rfl
    | true => rw [hpar hmir]
  have hh : T.h_off datum r1 = T.h_off datum r2 := by
    unfold DataTransformer.h_off; rw [hph]; exact crop_off_TEST_rand _ _ _ _
  have hw : T.w_off datum r1 = T.w_off datum r2 := by
    unfold DataTransformer.w_off; rw [hph]; exact crop_off_TEST_rand _ _ _ _
  refine ⟨?_, ?_, ?_⟩
  · rw [Transform_eq_checks, Transform_eq_checks, hm, hh, hw]
  · unfold DataTransformer.h_off crop_off; rw [hph]; simp
  · unfold DataTransformer.w_off crop_off; rw [hph]; simp

/-- Witness of C23: mirror enabled, the triples `(1, 5, 7)` and `(3, 0, 0)`. -/
theorem C23_witness_odd_draws :
    test_crop2_mirror.Transform sample4x4 (fun _ => 0) 0 ⟨1, 5, 7⟩
      = test_crop2_mirror.Transform sample4x4 (fun _ => 0) 0 ⟨3, 0, 0⟩ :=
  (C23_TEST_output_follows_mirror_parity test_crop2_mirror sample4x4 (fun _ => 0) 0
    ⟨1, 5, 7⟩ ⟨3, 0, 0⟩ rfl (fun _ => rfl)).1

/-! ## C24: the two raw representations -/

/-- Reading the list of the byte values as numbers is reading the byte. -/
theorem readAt_map_byte (l : List UInt8) (i : Int) :
    readAt (l.map (fun b => (b.toNat : ℚ))) i 0 = ((readAt l i 0).toNat : ℚ) := by
  unfold readAt
  by_cases h : 0 ≤ i
  · rw [if_pos h, if_pos h]
    have := List.getD_map (fun (b : UInt8) => (b.toNat : ℚ)) (d := (0 : UInt8)) (l := l)
      (n := i.toNat)
    simpa using this
  · rw [if_neg h, if_neg h]; simp

/-- C24: for every configuration (mean file, mean values or none; any scale, the value
`1` included), phase and rand triple, a raw sample that carries bytes and a raw sample
of the same shape that carries no bytes and the float list of the same values at the
same indices give the same result of `Transform`: the same failure, or the same
transformer afterwards and the same memory, hence the same output at every position. -/
theorem C24_uint8_and_float_agree (T : DataTransformer) (d8 df : Datum) (mem : Int → ℚ)
    (out : Int) (rand : Rand3)
    (hc : df.channels = d8.channels) (hh : df.height = d8.height) (hw : df.width = d8.width)
    (h8 : d8.data ≠ []) (hf : df.data = [])
    (hval : df.float_data = d8.data.map (fun b => (b.toNat : ℚ))) :
    T.Transform d8 mem out rand = T.Transform df mem out rand := by
  have hl8 : d8.data.length > 0 := List.length_pos.mpr h8
  have hs : T.stored df = T.stored d8 := by
    funext c i
    unfold DataTransformer.stored element Datum.byte Datum.float
    rw [hf, hval, hc, readAt_map_byte]
    simp only [List.length_nil, gt_iff_lt, lt_self_iff_false, decide_False, hl8, decide_True,
      Bool.false_eq_true, if_false, if_true]
    by_cases hs1 : T.param_.scale = 1
    · rw [if_pos hs1, hs1]
      by_cases hmv : 0 < T.mean_values_.length <;>
        cases T.param_.has_mean_file <;> simp [hmv]
    · rw [if_neg hs1]
      by_cases hmv : 0 < T.mean_values_.length <;>
        cases T.param_.has_mean_file <;> simp [hmv]
  rw [Transform_eq_checks, Transform_eq_checks]
  unfold DataTransformer.out_height DataTransformer.out_width DataTransformer.h_off
    DataTransformer.w_off
  rw [hs, hc, hh, hw]

/-- Witness of C24: the `2 × 2` sample as bytes and as floats, with scale `1` and the mean
value `10`. -/
theorem C24_witness_sample2x2 :
    test_crop2_mean10.Transform sample2x2 (fun _ => 0) 0 ⟨0, 0, 0⟩
      = test_crop2_mean10.Transform float_sample2x2 (fun _ => 0) 0 ⟨0, 0, 0⟩ :=
  C24_uint8_and_float_agree test_crop2_mean10 sample2x2 float_sample2x2 (fun _ => 0) 0
    ⟨0, 0, 0⟩ rfl rfl rfl (by decide) rfl (by simp [float_sample2x2, sample2x2, UInt8.size])

/-! ## C25: the crop offsets -/

/-- The crop offset in phase TRAIN is the rand entry modulo the number of offsets. -/
theorem crop_off_TRAIN (c dim : Nat) (hc0 : 0 < c) (h : c ≤ dim) (r : Nat) :
    crop_off Phase.TRAIN (c : Int) (dim : Int) r = ((r % (dim - c + 1) : Nat) : Int) := by
  have hcne : ((c : Nat) : Int) ≠ 0 := by exact_mod_cast (Nat.pos_iff_ne_zero.mp hc0)
  have e : ((dim : Int) - (c : Int) + 1).toNat = dim - c + 1 := by omega
  unfold crop_off
  rw [if_pos hcne, if_pos rfl, e]

/-- The crop offset is not negative and leaves room for the output along its axis. -/
theorem crop_off_bounds (phase : Phase) (c dim : Nat) (h : c ≤ dim) (r : Nat) :
    0 ≤ crop_off phase (c : Int) (dim : Int) r ∧
    crop_off phase (c : Int) (dim : Int) r
      + (if (c : Int) ≠ 0 then (c : Int) else (dim : Int)) ≤ (dim : Int) := by
  rcases Nat.eq_zero_or_pos c with h0 | h0
  · subst h0
    unfold crop_off
    simp
  · have hcne : ((c : Nat) : Int) ≠ 0 := by exact_mod_cast (Nat.pos_iff_ne_zero.mp h0)
    rw [if_pos hcne]
    cases phase with
    | TRAIN =>
      rw [crop_off_TRAIN c dim h0 h r]
      have := Nat.mod_lt r (show 0 < dim - c + 1 by omega)
      omega
    | TEST =>
      rw [crop_off_TEST c dim h0 h r]
      have := Nat.div_le_self (dim - c) 2
      omega

/-- C25: for a raw sample of height `H` and width `W` and `0 < crop_size ≤ min(H, W)`
(the value `c` of the local `int crop_size`, which is the configured one below `2^31`):
in phase TRAIN, for every rand triple, `h_off = rand[1] mod (H - crop_size + 1)` and
`w_off = rand[2] mod (W - crop_size + 1)`, and every pair of offsets `a ≤ H - crop_size`,
`b ≤ W - crop_size` is produced by some rand triple; in phase TEST the offsets are
`floor((H - crop_size) / 2)` and `floor((W - crop_size) / 2)`; in every phase `h_off`
depends on `rand[1]` only and `w_off` on `rand[2]` only, both lie between `0` and
`dim - crop_size`, the output is `crop_size × crop_size`, and the window lies inside the
image. The centre crop of the variable-sized pipeline succeeds on an image of that size
and takes the `crop_size × crop_size` block at the same centre offsets. -/
theorem C25_crop_offsets (T : DataTransformer) (datum : Datum) (H W c : Nat)
    (hH : datum.height = (H : Int)) (hW : datum.width = (W : Int))
    (hc : int_of_uint32 T.param_.crop_size = (c : Int)) (hc0 : 0 < c) (hcH : c ≤ H)
    (hcW : c ≤ W) :
    (T.phase_ = Phase.TRAIN →
      (∀ rand : Rand3,
        T.h_off datum rand = ((rand.rand1 % (H - c + 1) : Nat) : Int) ∧
        T.w_off datum rand = ((rand.rand2 % (W - c + 1) : Nat) : Int)) ∧
      (∀ a b : Nat, a ≤ H - c → b ≤ W - c →
        ∃ rand : Rand3, T.h_off datum rand = (a : Int) ∧ T.w_off datum rand = (b : Int))) ∧
    (T.phase_ = Phase.TEST →
      ∀ rand : Rand3,
        T.h_off datum rand = (((H - c) / 2 : Nat) : Int) ∧
        T.w_off datum rand = (((W - c) / 2 : Nat) : Int)) ∧
    (∀ r1 r2 : Rand3, r1.rand1 = r2.rand1 → T.h_off datum r1 = T.h_off datum r2) ∧
    (∀ r1 r2 : Rand3, r1.rand2 = r2.rand2 → T.w_off datum r1 = T.w_off datum r2) ∧
    (∀ rand : Rand3,
      0 ≤ T.h_off datum rand ∧ T.h_off datum rand ≤ (H : Int) - c ∧
      0 ≤ T.w_off datum rand ∧ T.w_off datum rand ≤ (W : Int) - c ∧
      T.out_height datum = (c : Int) ∧ T.out_width datum = (c : Int) ∧
      T.h_off datum rand + T.out_height datum ≤ datum.height ∧
      T.w_off datum rand + T.out_width datum ≤ datum.width) ∧
    (∀ img : CvMat, img.rows = (H : Int) → img.cols = (W : Int) →
      T.var_sized_image_center_crop img
        = .ok { img with
                rows := (c : Int), cols := (c : Int),
                ptr := fun h i =>
                  img.ptr ((((H - c) / 2 : Nat) : Int) + h)
                    ((((W - c) / 2 : Nat) : Int) * img.channels + i) }) := by
  have hcne : ((c : Nat) : Int) ≠ 0 := by exact_mod_cast (Nat.pos_iff_ne_zero.mp hc0)
  have hci : (0 : Int) < (c : Int) := by exact_mod_cast hc0
  refine ⟨fun hph => ⟨fun rand => ?_, fun a b ha hb => ⟨⟨0, a, b⟩, ?_, ?_⟩⟩, fun hph rand => ?_,
    fun r1 r2 h => ?_, fun r1 r2 h => ?_, fun rand => ?_, fun img hr hcl => ?_⟩
  · unfold DataTransformer.h_off DataTransformer.w_off
    rw [hH, hW, hc, hph]
    exact ⟨crop_off_TRAIN c H hc0 hcH _, crop_off_TRAIN c W hc0 hcW _⟩
  · unfold DataTransformer.h_off
    rw [hH, hc, hph, crop_off_TRAIN c H hc0 hcH _]
    show ((a % (H - c + 1) : Nat) : Int) = a
    rw [Nat.mod_eq_of_lt (by omega)]
  · unfold DataTransformer.w_off
    rw [hW, hc, hph, crop_off_TRAIN c W hc0 hcW _]
    show ((b % (W - c + 1) : Nat) : Int) = b
    rw [Nat.mod_eq_of_lt (by omega)]
  · unfold DataTransformer.h_off DataTransformer.w_off
    rw [hH, hW, hc, hph]
    exact ⟨crop_off_TEST c H hc0 hcH _, crop_off_TEST c W hc0 hcW _⟩
  · unfold DataTransformer.h_off; rw [h]
  · unfold DataTransformer.w_off; rw [h]
  · have bh := crop_off_bounds T.phase_ c H hcH rand.rand1
    have bw := crop_off_bounds T.phase_ c W hcW rand.rand2
    rw [if_pos hcne] at bh bw
    unfold DataTransformer.h_off DataTransformer.w_off DataTransformer.out_height
      DataTransformer.out_width
    simp only [hH, hW, hc, if_pos hcne]
    refine ⟨bh.1, by omega, bw.1, by omega, ?_, ?_, bh.2, bw.2⟩ <;> trivial
  · unfold DataTransformer.var_sized_image_center_crop
    dsimp only
    rw [hc, hr, hcl, if_neg (not_not.mpr hci), if_neg (not_not.mpr (by omega)),
      if_neg (not_not.mpr (by omega)), center_tdiv H c hcH, center_tdiv W c hcW]

/-- Witness of C25: the `4 × 4` sample in phase TRAIN with `crop_size = 2` and the draws
`rand[1] = 5`, `rand[2] = 7`. -/
theorem C25_witness_train_crop2 :
    (train_crop2 false).h_off sample4x4 ⟨0, 5, 7⟩ = 2 ∧
    (train_crop2 false).w_off sample4x4 ⟨0, 5, 7⟩ = 1 :=
  ((C25_crop_offsets (train_crop2 false) sample4x4 4 4 2 rfl rfl rfl (by decide) (by decide)
    (by decide)).1 rfl).1 ⟨0, 5, 7⟩

/-! ## C22: the generator installed by `InitRand` -/

/-- C22: `InitRand` installs a generator iff mirror is enabled or the phase is TRAIN with
`crop_size ≠ 0`, and clears it otherwise, leaving the process-wide seed source alone
when it clears. When it installs one and `random_seed ≥ 0`, the generator is the one
seeded with exactly `random_seed` and the seed source is not consulted (it is returned
as it was), so two pipelines with the same non-negative seed start from the same
generator, whatever their seed sources; only with a negative `random_seed` is the seed
the next value of the process-wide source, which is advanced by one. -/
theorem C22_InitRand (ext : External) (T : DataTransformer) (seeds : SeedSource) :
    T.InitRand ext seeds
      = (if T.param_.mirror = true ∨ (T.phase_ = Phase.TRAIN ∧ T.param_.crop_size ≠ 0) then
          if T.param_.random_seed ≥ 0 then
            ({ T with rng_ := some (ext.new_RNG T.param_.random_seed.toNat) }, seeds)
          else
            ({ T with rng_ := some (ext.new_RNG (seeds.stream 0 % 2 ^ 64)) },
              ⟨fun n => seeds.stream (n + 1)⟩)
        else ({ T with rng_ := none }, seeds)) ∧
    ((T.InitRand ext seeds).1.rng_.isSome = true ↔
      (T.param_.mirror = true ∨ (T.phase_ = Phase.TRAIN ∧ T.param_.crop_size ≠ 0))) ∧
    (∀ (T2 : DataTransformer) (seeds2 : SeedSource),
      (T.param_.mirror = true ∨ (T.phase_ = Phase.TRAIN ∧ T.param_.crop_size ≠ 0)) →
      (T2.param_.mirror = true ∨ (T2.phase_ = Phase.TRAIN ∧ T2.param_.crop_size ≠ 0)) →
      T.param_.random_seed ≥ 0 → T2.param_.random_seed = T.param_.random_seed →
      (T.InitRand ext seeds).1.rng_ = (T2.InitRand ext seeds2).1.rng_ ∧
      (T.InitRand ext seeds).1.rng_ = some (ext.new_RNG T.param_.random_seed.toNat) ∧
      (T.InitRand ext seeds).2 = seeds ∧ (T2.InitRand ext seeds2).2 = seeds2) := by
  have key : ∀ (T : DataTransformer) (seeds : SeedSource), T.InitRand ext seeds
      = (if T.param_.mirror = true ∨ (T.phase_ = Phase.TRAIN ∧ T.param_.crop_size ≠ 0) then
          if T.param_.random_seed ≥ 0 then
            ({ T with rng_ := some (ext.new_RNG T.param_.random_seed.toNat) }, seeds)
          else
            ({ T with rng_ := some (ext.new_RNG (seeds.stream 0 % 2 ^ 64)) },
              ⟨fun n => seeds.stream (n + 1)⟩)
        else ({ T with rng_ := none }, seeds)) := by
    intro T seeds
    unfold DataTransformer.InitRand SeedSource.next_seed
    by_cases hn : T.param_.mirror = true ∨ (T.phase_ = Phase.TRAIN ∧ T.param_.crop_size ≠ 0)
    · have hb : (T.param_.mirror ||
          (decide (T.phase_ = Phase.TRAIN) && decide (T.param_.crop_size ≠ 0))) = true := by
        simpa using hn
      by_cases hs : T.param_.random_seed ≥ 0
      · simp only [hb, if_true, if_pos hn, if_pos hs]
      · simp only [hb, if_true, if_pos hn, if_neg hs]
    · have hb : ¬ (T.param_.mirror ||
          (decide (T.phase_ = Phase.TRAIN) && decide (T.param_.crop_size ≠ 0))) = true := by
        simpa using hn
      simp only [if_neg hb, if_neg hn]
  refine ⟨key T seeds, ?_, ?_⟩
  · rw [key]
    by_cases hn : T.param_.mirror = true ∨ (T.phase_ = Phase.TRAIN ∧ T.param_.crop_size ≠ 0)
    · rw [if_pos hn]
      by_cases hs : T.param_.random_seed ≥ 0
      · rw [if_pos hs]; exact ⟨fun _ => hn, fun _ => rfl⟩
      · rw [if_neg hs]; exact ⟨fun _ => hn, fun _ => rfl⟩
    · rw [if_neg hn]
      exact ⟨fun h => (by cases h), fun h => absurd h hn⟩
  · intro T2 seeds2 hn hn2 hs h2
    have hs2 : T2.param_.random_seed ≥ 0 := by rw [h2]; exact hs
    rw [key T seeds, key T2 seeds2, if_pos hn, if_pos hn2, if_pos hs, if_pos hs2, h2]
    exact ⟨rfl, rfl, rfl, rfl⟩

/-! ## The random resize of the variable-sized pipeline -/

/-- A fold over a list of concatenated blocks is the fold of the folds over the blocks. -/
theorem foldl_flatMap_eq {α β σ : Type} (f : σ → β → σ) (g : α → List β) (l : List α) (s : σ) :
    (l.flatMap g).foldl f s = l.foldl (fun s a => (g a).foldl f s) s := by
  induction l generalizing s with
  | nil => rfl
  | cons a l ih => rw [List.flatMap_cons, List.foldl_append, ih, List.foldl_cons]

/-- Appending one record per element builds the list of the records. -/
theorem foldl_append_singleton {α β : Type} (F : α → β) (l : List α) (init : List β) :
    l.foldl (fun acc a => acc ++ [F a]) init = init ++ l.map F := by
  induction l generalizing init with
  | nil => simp
  | cons a l ih => rw [List.foldl_cons, ih, List.map_cons, List.append_assoc]; rfl

/-- The innermost loop as a fold over the columns: iteration `x` runs the body at
`top_index + m * x` and `data_index + x`. -/
theorem loopW_eq_foldl {σ : Type} (body : σ → Int → Int → σ) (m : Int) (n : Nat) (s : σ)
    (t d : Int) :
    loopW body m (n : Int) s t d
      = ((List.range n).foldl (fun s (x : Nat) => body s (t + m * (x : Int)) (d + (x : Int))) s,
          t + m * (n : Int), d + (n : Int)) := by
  unfold loopW
  rw [Int.toNat_natCast]
  induction n with
  | zero => simp
  | succ k ih =>
    rw [List.range_succ, List.foldl_append, List.foldl_append, ih]
    simp only [List.foldl_cons, List.foldl_nil]
    refine Prod.ext rfl (Prod.ext ?_ ?_)
    · show t + m * (k : Int) + m = t + m * ((k + 1 : Nat) : Int)
      push_cast; ring
    · show d + (k : Int) + 1 = d + ((k + 1 : Nat) : Int)
      push_cast; ring

/-- The loop nest as one fold over the triples `(c, h, w)` in the order of the iterations,
with the `top_index` and the `data_index` of each iteration in closed form. -/
theorem loopC_eq_foldl {σ : Type} (body : σ → Int → Int → Int → σ) (do_mirror : Bool)
    (C h w : Nat) (datum_height datum_width h_off w_off : Int) (s : σ) :
    loopC body do_mirror (if do_mirror then -1 else 1) (C : Int) datum_height datum_width
        (h : Int) (w : Int) h_off w_off s
      = (List.product (List.range C) (List.product (List.range h) (List.range w))).foldl
          (fun s (p : Nat × Nat × Nat) =>
            body s (p.1 : Int)
              ((if do_mirror then ((p.1 : Int) * (h : Int) + (p.2.1 : Int) + 1) * (w : Int) - 1
                else ((p.1 : Int) * (h : Int) + (p.2.1 : Int)) * (w : Int))
                + (if do_mirror then -1 else 1) * (p.2.2 : Int))
              (((p.1 : Int) * datum_height + h_off + (p.2.1 : Int)) * datum_width + w_off
                + (p.2.2 : Int))) s := by
  unfold loopC loopH List.product
  simp only [Int.toNat_natCast, loopW_eq_foldl, foldl_flatMap_eq, List.foldl_map]

/-- The accesses of `Transform`, one per iteration `(c, h, w)` of the loop nest. -/
theorem Transform_accesses_eq (T : DataTransformer) (datum : Datum) (rand : Rand3)
    (C h w : Nat) (hC : datum.channels = (C : Int)) (hh : T.out_height datum = (h : Int))
    (hw : T.out_width datum = (w : Int)) :
    T.Transform_accesses datum rand
      = (List.product (List.range C) (List.product (List.range h) (List.range w))).map
          (fun (p : Nat × Nat × Nat) =>
            ((p.1 : Int),
              ((p.1 : Int) * (h : Int) + (p.2.1 : Int)) * (w : Int)
                + mirror_col (T.do_mirror rand) (w : Int) (p.2.2 : Int),
              T.src_index datum rand (p.1 : Int) (p.2.1 : Int) (p.2.2 : Int))) := by
  unfold DataTransformer.Transform_accesses
  rw [hC, hh, hw, loopC_eq_foldl, foldl_append_singleton, List.nil_append]
  apply List.map_congr_left
  intro p _
  refine Prod.ext rfl (Prod.ext ?_ rfl)
  cases T.do_mirror rand
  · simp only [mirror_col, Bool.false_eq_true, if_false]; ring
  · simp only [mirror_col, if_true]; ring

/-- The accesses of `Transform` by output position: position `(c, y, x)` is written at its
planar index from the source index of the crop position `(c, y, mirror_col x)`. -/
theorem Transform_accesses_mem (T : DataTransformer) (datum : Datum) (rand : Rand3)
    (C h w : Nat) (hC : datum.channels = (C : Int)) (hh : T.out_height datum = (h : Int))
    (hw : T.out_width datum = (w : Int)) (a : Int × Int × Int) :
    a ∈ T.Transform_accesses datum rand ↔
      ∃ c y x : Nat, c < C ∧ y < h ∧ x < w ∧
        a = ((c : Int), ((c : Int) * (h : Int) + (y : Int)) * (w : Int) + (x : Int),
          T.src_index datum rand (c : Int) (y : Int)
            (mirror_col (T.do_mirror rand) (w : Int) (x : Int))) := by
  rw [Transform_accesses_eq T datum rand C h w hC hh hw, List.mem_map]
  constructor
  · rintro ⟨⟨c, y, x⟩, hp, rfl⟩
    obtain ⟨hc, hyx⟩ := List.mem_product.mp hp
    obtain ⟨hy, hx⟩ := List.mem_product.mp hyx
    rw [List.mem_range] at hc hy hx
    obtain ⟨x', hx', e⟩ := mirror_col_range (T.do_mirror rand) w x hx
    refine ⟨c, y, x', hc, hy, hx', ?_⟩
    rw [← e, mirror_col_mirror_col]
  · rintro ⟨c, y, x, hc, hy, hx, rfl⟩
    obtain ⟨x', hx', e⟩ := mirror_col_range (T.do_mirror rand) w x hx
    refine ⟨(c, y, x'), ?_, ?_⟩
    · exact List.mem_product.mpr ⟨List.mem_range.mpr hc,
        List.mem_product.mpr ⟨List.mem_range.mpr hy, List.mem_range.mpr hx'⟩⟩
    · show ((c : Int), ((c : Int) * (h : Int) + (y : Int)) * (w : Int)
          + mirror_col (T.do_mirror rand) (w : Int) (x' : Int),
          T.src_index datum rand (c : Int) (y : Int) (x' : Int)) = _
      rw [← e, mirror_col_mirror_col]

/-- A row-major index determines its row and its column. -/
theorem pair_index_inj (W a x a' x' : Nat) (hx : x < W) (hx' : x' < W)
    (e : a * W + x = a' * W + x') : a = a' ∧ x = x' := by
  have hW : 0 < W := by omega
  have h1 : (a * W + x) / W = a := by
    rw [Nat.add_comm, Nat.add_mul_div_right _ _ hW, Nat.div_eq_of_lt hx, Nat.zero_add]
  have h2 : (a' * W + x') / W = a' := by
    rw [Nat.add_comm, Nat.add_mul_div_right _ _ hW, Nat.div_eq_of_lt hx', Nat.zero_add]
  have ha : a = a' := by rw [← h1, ← h2, e]
  subst ha
  exact ⟨rfl, by omega⟩

/-- A planar index determines its channel, its row and its column. -/
theorem planar_index_inj (H W c h w c' h' w' : Nat) (hh : h < H) (hw : w < W) (hh' : h' < H)
    (hw' : w' < W) (e : (c * H + h) * W + w = (c' * H + h') * W + w') :
    c = c' ∧ h = h' ∧ w = w' := by
  obtain ⟨e1, e2⟩ := pair_index_inj W _ _ _ _ hw hw' e
  obtain ⟨e3, e4⟩ := pair_index_inj H _ _ _ _ hh hh' e1
  exact ⟨e3, e4, e2⟩

/-- An output height that is not negative means the conversion of `crop_size` to `int`
kept its value. -/
theorem out_height_nat_crop (T : DataTransformer) (datum : Datum) (h : Nat)
    (hh : T.out_height datum = (h : Int)) :
    int_of_uint32 T.param_.crop_size = (T.param_.crop_size : Int) := by
  refine (int_of_uint32_nonneg _ ?_).2
  unfold DataTransformer.out_height at hh
  by_cases h0 : int_of_uint32 T.param_.crop_size = 0
  · omega
  · rw [if_pos h0] at hh; omega

/-- The crop window of `Transform` lies inside the sample. -/
theorem Transform_window (T : DataTransformer) (datum : Datum) (rand : Rand3) (H W : Nat)
    (hH : datum.height = (H : Int)) (hW : datum.width = (W : Int))
    (hcH : T.param_.crop_size ≤ H) (hcW : T.param_.crop_size ≤ W)
    (hi : int_of_uint32 T.param_.crop_size = (T.param_.crop_size : Int)) :
    0 ≤ T.h_off datum rand ∧ T.h_off datum rand + T.out_height datum ≤ (H : Int) ∧
    0 ≤ T.w_off datum rand ∧ T.w_off datum rand + T.out_width datum ≤ (W : Int) := by
  have bh := crop_off_bounds T.phase_ T.param_.crop_size H hcH rand.rand1
  have bw := crop_off_bounds T.phase_ T.param_.crop_size W hcW rand.rand2
  unfold DataTransformer.h_off DataTransformer.w_off DataTransformer.out_height
    DataTransformer.out_width
  rw [hH, hW, hi]
  exact ⟨bh.1, bh.2, bw.1, bw.2⟩

/-- The source index as the planar index of the position `(c, h_off + y, w_off + x)` of
the sample. -/
theorem src_index_nat (T : DataTransformer) (datum : Datum) (rand : Rand3) (H W h w : Nat)
    (hH : datum.height = (H : Int)) (hW : datum.width = (W : Int))
    (hh : T.out_height datum = (h : Int)) (hw : T.out_width datum = (w : Int))
    (hcH : T.param_.crop_size ≤ H) (hcW : T.param_.crop_size ≤ W) :
    ∃ ho wo : Nat, ho + h ≤ H ∧ wo + w ≤ W ∧ T.h_off datum rand = (ho : Int) ∧
      T.w_off datum rand = (wo : Int) ∧
      ∀ c y x : Nat, T.src_index datum rand (c : Int) (y : Int) (x : Int)
        = (((c * H + (ho + y)) * W + (wo + x) : Nat) : Int) := by
  obtain ⟨a, b, c, d⟩ := Transform_window T datum rand H W hH hW hcH hcW
    (out_height_nat_crop T datum h hh)
  obtain ⟨ho, hho⟩ := Int.eq_ofNat_of_zero_le a
  obtain ⟨wo, hwo⟩ := Int.eq_ofNat_of_zero_le c
  rw [hh, hho] at b
  rw [hw, hwo] at d
  refine ⟨ho, wo, by omega, by omega, hho, hwo, fun c y x => ?_⟩
  unfold DataTransformer.src_index
  rw [hH, hW, hho, hwo]
  push_cast
  ring

/-- The memory after `Transform` is the memory after the stores of its accesses, taken in
order. -/
theorem Transform_accesses_fold (T : DataTransformer) (datum : Datum) (rand : Rand3)
    (C h w : Nat) (hC : datum.channels = (C : Int)) (hh : T.out_height datum = (h : Int))
    (hw : T.out_width datum = (w : Int)) (mem : Int → ℚ) (out : Int)
    (hchk : T.Transform_checks datum) :
    T.Transform datum mem out rand
      = .ok ({ T with mean_values_ := T.mean_values_after datum.channels },
          (T.Transform_accesses datum rand).foldl
            (fun mem a => Function.update mem (out + a.2.1) (T.stored datum a.1 a.2.2)) mem) := by
  rw [Transform_of_checks T datum mem out rand hchk,
    Transform_accesses_eq T datum rand C h w hC hh hw, List.foldl_map, hC, hh, hw,
    loopC_eq_foldl]
  have e : ∀ p : Nat × Nat × Nat,
      (if T.do_mirror rand = true then ((p.1 : Int) * (h : Int) + (p.2.1 : Int) + 1) * (w : Int) - 1
        else ((p.1 : Int) * (h : Int) + (p.2.1 : Int)) * (w : Int))
        + (if T.do_mirror rand = true then -1 else 1) * (p.2.2 : Int)
      = ((p.1 : Int) * (h : Int) + (p.2.1 : Int)) * (w : Int)
        + mirror_col (T.do_mirror rand) (w : Int) (p.2.2 : Int) := by
    intro p
    cases T.do_mirror rand
    · simp only [mirror_col, Bool.false_eq_true, if_false]; ring
    · simp only [mirror_col, if_true]; ring
  simp only [e]
  rfl


/-! ## C29: the indices read and written -/

/-- C29: for a raw sample of `C` channels, height `H`, width `W` and `C * H * W` bytes,
with `crop_size ≤ min(H, W)` and output height `h` and width `w`, for every phase,
mirror flag and rand triple: every access of the loop nest of `Transform` has its
channel in `[0, C)`, the output index it writes in `[0, C * h * w)` and the source (and
mean-file) index it reads in `[0, C * H * W)`, inside the data; there are `C * h * w`
accesses; every output index in `[0, C * h * w)` is written exactly once; no source
index is read twice; the accesses are exactly the pairs of the planar index of an
output position `(c, y, x)` with the source index of the crop position
`(c, h_off + y, w_off + mirror_col x)`; and the memory `Transform` returns is the
memory after the stores of these accesses. -/
theorem C29_Transform_accesses (T : DataTransformer) (datum : Datum) (rand : Rand3)
    (C H W h w : Nat) (hC : datum.channels = (C : Int))
    (hH : datum.height = (H : Int)) (hW : datum.width = (W : Int))
    (hlen : datum.data.length = C * H * W)
    (hcH : T.param_.crop_size ≤ H) (hcW : T.param_.crop_size ≤ W)
    (hh : T.out_height datum = (h : Int)) (hw : T.out_width datum = (w : Int)) :
    (∀ a ∈ T.Transform_accesses datum rand,
      0 ≤ a.1 ∧ a.1 < (C : Int) ∧ 0 ≤ a.2.1 ∧ a.2.1 < (C : Int) * h * w ∧
      0 ≤ a.2.2 ∧ a.2.2 < (C : Int) * H * W ∧ a.2.2 < (datum.data.length : Int)) ∧
    (T.Transform_accesses datum rand).length = C * h * w ∧
    (∀ j : Int, 0 ≤ j → j < (C : Int) * h * w →
      ((T.Transform_accesses datum rand).map (fun a => a.2.1)).count j = 1) ∧
    ((T.Transform_accesses datum rand).map (fun a => a.2.2)).Nodup ∧
    (∀ a, a ∈ T.Transform_accesses datum rand ↔
      ∃ c y x : Nat, c < C ∧ y < h ∧ x < w ∧
        a = ((c : Int), ((c : Int) * (h : Int) + (y : Int)) * (w : Int) + (x : Int),
          T.src_index datum rand (c : Int) (y : Int)
            (mirror_col (T.do_mirror rand) (w : Int) (x : Int)))) ∧
    (∀ (mem : Int → ℚ) (out : Int), T.Transform_checks datum →
      T.Transform datum mem out rand
        = .ok ({ T with mean_values_ := T.mean_values_after datum.channels },
            (T.Transform_accesses datum rand).foldl
              (fun mem a => Function.update mem (out + a.2.1) (T.stored datum a.1 a.2.2))
              mem)) := by
  obtain ⟨ho, wo, hoh, wow, -, -, hsrc⟩ :=
    src_index_nat T datum rand H W h w hH hW hh hw hcH hcW
  have hmem := Transform_accesses_mem T datum rand C h w hC hh hw
  have htop : ∀ c y x : Nat, ((c : Int) * (h : Int) + (y : Int)) * (w : Int) + (x : Int)
      = (((c * h + y) * w + x : Nat) : Int) := by
    intro c y x; push_cast; ring
  have hnd : (List.product (List.range C) (List.product (List.range h) (List.range w))).Nodup :=
    List.Nodup.product (List.nodup_range C)
      (List.Nodup.product (List.nodup_range h) (List.nodup_range w))
  have hprod : ∀ c y x : Nat,
      (c, y, x) ∈ List.product (List.range C) (List.product (List.range h) (List.range w)) →
      c < C ∧ y < h ∧ x < w := by
    intro c y x hp
    obtain ⟨hc, hyx⟩ := List.mem_product.mp hp
    obtain ⟨hy, hx⟩ := List.mem_product.mp hyx
    exact ⟨List.mem_range.mp hc, List.mem_range.mp hy, List.mem_range.mp hx⟩
  have htopnd : ((T.Transform_accesses datum rand).map (fun a => a.2.1)).Nodup := by
    rw [Transform_accesses_eq T datum rand C h w hC hh hw, List.map_map]
    refine List.Nodup.map_on ?_ hnd
    rintro ⟨c, y, x⟩ hp ⟨c', y', x'⟩ hp' e
    obtain ⟨hc, hy, hx⟩ := hprod _ _ _ hp
    obtain ⟨hc', hy', hx'⟩ := hprod _ _ _ hp'
    obtain ⟨z, hz, ez⟩ := mirror_col_range (T.do_mirror rand) w x hx
    obtain ⟨z', hz', ez'⟩ := mirror_col_range (T.do_mirror rand) w x' hx'
    simp only [Function.comp] at e
    rw [ez, ez', htop, htop] at e
    obtain ⟨e1, e2, e3⟩ := planar_index_inj h w c y z c' y' z' hy hz hy' hz'
      (by exact_mod_cast e)
    have e4 : (x : Int) = (x' : Int) := by
      rw [← mirror_col_mirror_col (T.do_mirror rand) (w : Int) (x : Int),
        ← mirror_col_mirror_col (T.do_mirror rand) (w : Int) (x' : Int), ez, ez', e3]
    have e5 : x = x' := by exact_mod_cast e4
    rw [e1, e2, e5]
  refine ⟨?_, ?_, ?_, ?_, hmem, fun mem out hchk =>
    Transform_accesses_fold T datum rand C h w hC hh hw mem out hchk⟩
  · intro a ha
    obtain ⟨c, y, x, hc, hy, hx, rfl⟩ := (hmem a).mp ha
    obtain ⟨z, hz, ez⟩ := mirror_col_range (T.do_mirror rand) w x hx
    have b1 := planar_index_lt C h w c y x hc hy hx
    have b2 := planar_index_lt C H W c (ho + y) (wo + z) hc (by omega) (by omega)
    have b1' : (((c * h + y) * w + x : Nat) : Int) < ((C * h * w : Nat) : Int) := by
      exact_mod_cast b1
    have b2' : (((c * H + (ho + y)) * W + (wo + z) : Nat) : Int) < ((C * H * W : Nat) : Int) := by
      exact_mod_cast b2
    have cC : ((C * h * w : Nat) : Int) = (C : Int) * h * w := by push_cast; ring
    have cH : ((C * H * W : Nat) : Int) = (C : Int) * H * W := by push_cast; ring
    simp only
    rw [ez, hsrc, htop, hlen, ← cC, ← cH]
    exact ⟨Int.natCast_nonneg _, by exact_mod_cast hc, Int.natCast_nonneg _, b1',
      Int.natCast_nonneg _, b2', b2'⟩
  · rw [Transform_accesses_eq T datum rand C h w hC hh hw, List.length_map]
    refine (List.length_product (List.range C) _).trans ?_
    refine (congrArg _ (List.length_product (List.range h) (List.range w))).trans ?_
    rw [List.length_range, List.length_range, List.length_range, Nat.mul_assoc]
  · intro j hj0 hj1
    apply List.count_eq_one_of_mem htopnd
    obtain ⟨c, y, x, hc, hy, hx, ej⟩ := planar_index_surj C h w j hj0 hj1
    rw [List.mem_map]
    exact ⟨_, (hmem _).mpr ⟨c, y, x, hc, hy, hx, rfl⟩, ej.symm⟩
  · rw [Transform_accesses_eq T datum rand C h w hC hh hw, List.map_map]
    refine List.Nodup.map_on ?_ hnd
    rintro ⟨c, y, x⟩ hp ⟨c', y', x'⟩ hp' e
    obtain ⟨hc, hy, hx⟩ := hprod _ _ _ hp
    obtain ⟨hc', hy', hx'⟩ := hprod _ _ _ hp'
    simp only [Function.comp] at e
    rw [hsrc, hsrc] at e
    obtain ⟨e1, e2, e3⟩ := planar_index_inj H W c (ho + y) (wo + x) c' (ho + y') (wo + x')
      (by omega) (by omega) (by omega) (by omega) (by exact_mod_cast e)
    have e2' : y = y' := by omega
    have e3' : x = x' := by omega
    rw [e1, e2', e3']

/-- Witness of C29: the `4 × 4` sample with `crop_size = 2`, mirrored: four accesses, and
the output index `3` is written exactly once. -/
theorem C29_witness_sample4x4 :
    (test_crop2_mirror.Transform_accesses sample4x4 ⟨1, 0, 0⟩).length = 1 * 2 * 2 ∧
    ((test_crop2_mirror.Transform_accesses sample4x4 ⟨1, 0, 0⟩).map (fun a => a.2.1)).count 3
      = 1 :=
  ⟨(C29_Transform_accesses test_crop2_mirror sample4x4 ⟨1, 0, 0⟩ 1 4 4 2 2 rfl rfl rfl rfl
      (by decide) (by decide) rfl rfl).2.1,
    (C29_Transform_accesses test_crop2_mirror sample4x4 ⟨1, 0, 0⟩ 1 4 4 2 2 rfl rfl rfl rfl
      (by decide) (by decide) rfl rfl).2.2.1 3 (by decide) (by decide)⟩

/-! ## Draws without a generator -/

/-- Without a generator every draw `Rand(n)` fails. -/
theorem Rand_n_none (T : DataTransformer) (n : Int) (h : T.rng_ = none) :
    T.Rand_n n = .error Fatal.no_rng := by
  unfold DataTransformer.Rand_n DataTransformer.Rand
  rw [h]

/-- With mirror disabled and no training crop, `InitRand` leaves the transformer without
a generator. -/
theorem InitRand_cleared (ext : External) (T : DataTransformer) (seeds : SeedSource)
    (hclear : ¬ (T.param_.mirror = true ∨ (T.phase_ = Phase.TRAIN ∧ T.param_.crop_size ≠ 0))) :
    (T.InitRand ext seeds).1 = { T with rng_ := none } := by
  unfold DataTransformer.InitRand
  have hb : ¬ (T.param_.mirror ||
      (decide (T.phase_ = Phase.TRAIN) && decide (T.param_.crop_size ≠ 0))) = true := by
    simpa using hclear
  simp only [if_neg hb]

/-- Without a generator and with mirror disabled, the first part of the decoded-image
transform fails at its first draw as soon as one of its augmentations draws: the
rotation, the random min-side, the colour shift, the brightness or the smoothing. -/
theorem TransformCvMat_augment_no_rng (ops : CvOps) (u : UniformDraws) (T : DataTransformer)
    (cv_img : CvMat)
    (hrng : T.rng_ = none) (hmirror : T.param_.mirror = false)
    (hdraw : (T.param_.max_rotation_angle > 0 ∧ T.phase_ = Phase.TRAIN) ∨
      (T.param_.min_side_min > 0 ∧ T.param_.min_side_max > 0) ∨
      (T.param_.max_color_shift > 0 ∧ T.phase_ = Phase.TRAIN ∧
        u.prob_color_shift > 1 - T.param_.apply_probability) ∨
      (T.param_.contrast_brightness_adjustment = true ∧ T.phase_ = Phase.TRAIN ∧
        u.prob_brightness > 1 - T.param_.apply_probability) ∨
      (T.param_.smooth_filtering = true ∧ T.phase_ = Phase.TRAIN ∧ T.param_.max_smooth > 1 ∧
        u.prob_smooth > 1 - T.param_.apply_probability)) :
    T.TransformCvMat_augment ops u cv_img = .error Fatal.no_rng := by
  have hR : ∀ n, T.Rand_n n = .error Fatal.no_rng := fun n => Rand_n_none T n hrng
  unfold DataTransformer.TransformCvMat_augment
  simp only [hmirror, Bool.false_and, Bool.false_eq_true, if_false, pure_bind]
  by_cases h1 : (decide (T.param_.max_rotation_angle > 0) && decide (T.phase_ = Phase.TRAIN))
      = true
  · simp only [h1, if_true, hR]
    rfl
  simp only [h1, if_false, pure_bind, Bool.false_eq_true]
  by_cases h2 : (decide (T.param_.min_side_min > 0) && decide (T.param_.min_side_max > 0))
      = true
  · simp only [h2, if_true, hR]
    rfl
  simp only [h2, if_false, pure_bind, Bool.false_eq_true]
  by_cases h3 : (decide (T.param_.max_color_shift > 0) && decide (T.phase_ = Phase.TRAIN) &&
      decide (u.prob_color_shift > 1 - T.param_.apply_probability)) = true
  · simp only [h3, if_true, hR]
    rfl
  simp only [h3, if_false, pure_bind, Bool.false_eq_true]
  by_cases h4 : (T.param_.contrast_brightness_adjustment && decide (T.phase_ = Phase.TRAIN) &&
      decide (u.prob_brightness > 1 - T.param_.apply_probability)) = true
  · simp only [h4, if_true, hR]
    rfl
  simp only [h4, if_false, pure_bind, Bool.false_eq_true]
  by_cases h5 : (T.param_.smooth_filtering && decide (T.phase_ = Phase.TRAIN) &&
      decide (T.param_.max_smooth > 1) &&
      decide (u.prob_smooth > 1 - T.param_.apply_probability)) = true
  · simp only [h5, if_true, hR]
    rfl
  exfalso
  rcases hdraw with h | h | h | h | h
  · exact h1 (by simp [h.1, h.2])
  · exact h2 (by simp [h.1, h.2])
  · exact h3 (by simp [h.1, h.2.1, h.2.2])
  · exact h4 (by simp [h.1, h.2.1, h.2.2])
  · exact h5 (by simp [h.1, h.2.1, h.2.2.1, h.2.2.2])

/-- A failure of the first part of the decoded-image transform is the failure of the
transform. -/
theorem TransformCvMat_of_augment_error (ops : CvOps) (u : UniformDraws) (T : DataTransformer)
    (cv_img : CvMat) (transformed_blob : TBlob) (mem : Int → ℚ) (e : Fatal)
    (h : T.TransformCvMat_augment ops u cv_img = .error e) :
    T.TransformCvMat ops u cv_img transformed_blob mem = .error e := by
  unfold DataTransformer.TransformCvMat
  rw [h]

/-- After `InitRand`, `Fill3Randoms` succeeds, for every configuration and phase. -/
theorem Fill3Randoms_after_InitRand (ext : External) (T : DataTransformer)
    (seeds : SeedSource) : ∃ r, (T.InitRand ext seeds).1.Fill3Randoms = .ok r := by
  by_cases hn : T.param_.mirror = true ∨ (T.phase_ = Phase.TRAIN ∧ T.param_.crop_size ≠ 0)
  · have hb : (T.param_.mirror ||
        (decide (T.phase_ = Phase.TRAIN) && decide (T.param_.crop_size ≠ 0))) = true := by
      simpa using hn
    unfold DataTransformer.InitRand
    simp only [hb, if_true]
    exact ⟨_, Fill3Randoms_some T.param_ T.phase_ T.data_mean_ T.mean_values_ _⟩
  · rw [InitRand_cleared ext T seeds hn]
    refine ⟨_, Fill3Randoms_no_draw _ ?_ ?_⟩
    · cases hm : T.param_.mirror with
      | false => rfl
      | true => exact absurd (Or.inl hm) hn
    · rcases hph : T.phase_ with _ | _
      · right
        by_contra hc
        exact hn (Or.inr ⟨hph, hc⟩)
      · left; rfl


/-! ## C30: draws after `InitRand` -/

/-- C30 (divergence): for every configuration and phase in which `InitRand` clears the
generator (mirror disabled and no training crop), `Fill3Randoms` on the raw path
succeeds without a draw, but the decoded-image `Transform` fails on the check
`CHECK(rng_)` of `Rand` as soon as one of its augmentations draws: the rotation (phase
TRAIN, `max_rotation_angle > 0`), the random min-side (`min_side_min > 0` and
`min_side_max > 0`, in any phase), the colour shift, the brightness or the smoothing
(phase TRAIN, enabled and selected by their probability draw). -/
theorem C30_cleared_generator_is_drawn_from (ext : External) (ops : CvOps) (u : UniformDraws)
    (T : DataTransformer) (seeds : SeedSource) (cv_img : CvMat) (transformed_blob : TBlob)
    (mem : Int → ℚ)
    (hclear : ¬ (T.param_.mirror = true ∨ (T.phase_ = Phase.TRAIN ∧ T.param_.crop_size ≠ 0)))
    (hdraw : (T.param_.max_rotation_angle > 0 ∧ T.phase_ = Phase.TRAIN) ∨
      (T.param_.min_side_min > 0 ∧ T.param_.min_side_max > 0) ∨
      (T.param_.max_color_shift > 0 ∧ T.phase_ = Phase.TRAIN ∧
        u.prob_color_shift > 1 - T.param_.apply_probability) ∨
      (T.param_.contrast_brightness_adjustment = true ∧ T.phase_ = Phase.TRAIN ∧
        u.prob_brightness > 1 - T.param_.apply_probability) ∨
      (T.param_.smooth_filtering = true ∧ T.phase_ = Phase.TRAIN ∧ T.param_.max_smooth > 1 ∧
        u.prob_smooth > 1 - T.param_.apply_probability)) :
    (T.InitRand ext seeds).1.rng_ = none ∧
    (∃ r, (T.InitRand ext seeds).1.Fill3Randoms = .ok r) ∧
    (T.InitRand ext seeds).1.TransformCvMat ops u cv_img transformed_blob mem
      = .error Fatal.no_rng := by
  refine ⟨?_, Fill3Randoms_after_InitRand ext T seeds, ?_⟩
  · rw [InitRand_cleared ext T seeds hclear]
  · rw [InitRand_cleared ext T seeds hclear]
    apply TransformCvMat_of_augment_error
    apply TransformCvMat_augment_no_rng
    · rfl
    · cases hm : T.param_.mirror with
      | false => rfl
      | true => exact absurd (Or.inl hm) hclear
    · exact hdraw

/-- Witness of C30: phase TRAIN, `max_rotation_angle = 10`, mirror disabled and no crop:
`InitRand` clears the generator and the decoded-image `Transform` of the `4 × 4` image
fails on the missing generator. -/
theorem C30_witness_train_rotation10 :
    (train_rotation10.InitRand host_only ⟨fun n => n⟩).1.rng_ = none ∧
    (∃ r, (train_rotation10.InitRand host_only ⟨fun n => n⟩).1.Fill3Randoms = .ok r) ∧
    (train_rotation10.InitRand host_only ⟨fun n => n⟩).1.TransformCvMat identity_ops
      zero_draws image4x4 blob_1x1x2x2 (fun _ => 0) = .error Fatal.no_rng :=
  C30_cleared_generator_is_drawn_from host_only identity_ops zero_draws train_rotation10
    ⟨fun n => n⟩ image4x4 blob_1x1x2x2 (fun _ => 0) (by decide)
    (Or.inl ⟨by decide, rfl⟩)

/-! ## The decoded-image transform with supplied draws -/

end caffe
